import Mathlib

/-!
# Generals-Modern: view/camera, display surface, dynamic mesh and GPU resources

A shallow embedding of the parts of

* `WW3D2/dynamesh.cpp`, `WW3D2/dynamesh.h` (dynamic mesh builder),
* `GameClient/Display.cpp` (display surface manager, movie playback),
* `W3DDevice/GameClient/W3DView.cpp` (tactical view / camera),
* `WW3D2/formconv.cpp` (pixel format table),
* `WW3D2/BGFXVertexBuffer.cpp`, `WW3D2/BGFXIndexBuffer.cpp` (GPU buffer wrappers)

that the specification speaks about, followed by theorems about them.

Conventions of the embedding.

* `Real`/`float` values are exact rationals (`ℚ`): the theorems are about the
  arithmetic the code writes down, not about IEEE rounding, infinities or NaN.
  The exception is `Display::setDisplayMode`, whose `Real` expressions are
  converted to `Int`: there every operation is rounded to single precision
  (`roundToReal`).
* Clock readings and the sums the display compares with them are 32-bit
  unsigned values (`toUnsignedInt`, `timeGetTime`).
* C++ objects become structures, member functions become functions on them
  that return the new object; a failed `WWASSERT` is `none`, and so is an
  access outside an array in the functions whose comment says so.
* Loops whose number of rounds depends on the data take a bound on the rounds
  (`fuel`) and return `none` when it runs out.
* Collaborators whose code is not part of the sources (script engine, terrain,
  camera, math library, video player, clock) are inputs of the functions that
  call them.
-/

namespace GeneralsMD

/-! ## Dynamic mesh (dynamesh.cpp) -/

/-- One polygon of the polygon array: three vertex indices (`TriIndex`). -/
structure TriIndex where
  I : Int
  J : Int
  K : Int
deriving DecidableEq, Repr

/-- The primitive mode of `DynamicMeshClass` (`TriMode`). -/
inductive TriModeEnum where
  | TRI_MODE_STRIPS
  | TRI_MODE_FANS
deriving DecidableEq, Repr

/-- Which class the object was constructed as; it selects the `virtual`
`Flip_Face` that `End_Vertex` calls. -/
inductive MeshClassId where
  | CLASSID_DYNAMESH
  | CLASSID_DYNASCREENMESH
deriving DecidableEq, Repr

/-- An RGBA colour (`Vector4`). -/
structure Vector4 where
  X : ℚ
  Y : ℚ
  Z : ℚ
  W : ℚ
deriving DecidableEq, Repr

/-- WWMath `Vector3`. -/
structure Vector3 where
  X : ℚ
  Y : ℚ
  Z : ℚ
deriving DecidableEq, Repr

/-- The lists kept by `MaterialInfoClass`; textures and vertex materials are
identified by the number standing for their address. -/
structure MaterialInfoClass where
  Textures : List Nat
  VertexMaterials : List Nat
deriving DecidableEq, Repr

/-- A write that `DynamicMeshModel` forwards to its `MeshMatDescClass`. -/
inductive MatDescCall where
  | Set_Material (vidx : Int) (vmat : Option Nat) (pass : Nat)
  | Set_Texture (pidx : Int) (tex : Option Nat) (pass : Nat)
  | Set_Color (color_array_index : Nat) (vidx : Int) (color : Vector4)
  | Set_Single_Material (vmat : Option Nat) (pass : Nat)
  | Set_Single_Texture (tex : Option Nat) (pass : Nat)
  | Initialize_Material_Array (pass : Nat) (vmat : Option Nat)
  | Initialize_Texture_Array (pass : Nat) (tex : Option Nat)
deriving DecidableEq, Repr

/-- `DynamicMeshModel`: `PolyCount`/`VertexCount` are the maximum counts of the
mesh geometry, `DynamicMeshPNum`/`DynamicMeshVNum` the current counts, `Poly`
the polygon array, `Vertex` the vertex array (`Get_Vertex_Array`), `PassCount`
what `Get_Pass_Count` returns, `MatDescLog` the writes made to the material
description since it was created or last reset, oldest first. -/
structure DynamicMeshModel where
  PolyCount : Int
  VertexCount : Int
  DynamicMeshPNum : Int
  DynamicMeshVNum : Int
  Poly : List TriIndex
  Vertex : List Vector3
  PassCount : Nat
  MatInfo : MaterialInfoClass
  MatDescLog : List MatDescCall
deriving DecidableEq, Repr

/-- `DynamicMeshClass` (and, with `ClassId = CLASSID_DYNASCREENMESH`, its
subclass `DynamicScreenMeshClass`). The per-pass arrays are lists indexed by
pass, the per-colour-array ones by colour array index. -/
structure DynamicMeshClass where
  ClassId : MeshClassId
  Model : DynamicMeshModel
  PolyCount : Int
  VertCount : Int
  TriVertexCount : Int
  FanVertex : Int
  TriMode : TriModeEnum
  MultiTexture : List Bool
  TextureIdx : List Int
  MultiVertexMaterial : List Bool
  VertexMaterialIdx : List Int
  MultiVertexColor : List Bool
  CurVertexColor : List Vector4
deriving DecidableEq, Repr

/-- `DynamicMeshModel::DynamicMeshModel(max_polys, max_verts)`: current counts
zero, a fresh material info, geometry reset to the maximum counts. The pass
count of a fresh material description is taken as an argument. -/
def DynamicMeshModel.new (max_polys max_verts : Nat) (passes : Nat) : DynamicMeshModel :=
  { PolyCount := max_polys
    VertexCount := max_verts
    DynamicMeshPNum := 0
    DynamicMeshVNum := 0
    Poly := List.replicate max_polys ⟨0, 0, 0⟩
    Vertex := List.replicate max_verts ⟨0, 0, 0⟩
    PassCount := passes
    MatInfo := ⟨[], []⟩
    MatDescLog := [] }

/-- `DynamicMeshModel::Set_Counts`. -/
def DynamicMeshModel.Set_Counts (m : DynamicMeshModel) (pnum vnum : Int) : DynamicMeshModel :=
  { m with DynamicMeshPNum := pnum, DynamicMeshVNum := vnum }

/-- `DynamicMeshClass::DynamicMeshClass(max_poly, max_vert)`. `MAX_PASSES` and
`MAX_COLOR_ARRAYS` are constants of a header that is not among the sources and
are arguments here. -/
def DynamicMeshClass.new (max_poly max_vert : Nat) (MAX_PASSES MAX_COLOR_ARRAYS : Nat)
    (passes : Nat) : DynamicMeshClass :=
  { ClassId := .CLASSID_DYNAMESH
    Model := DynamicMeshModel.new max_poly max_vert passes
    PolyCount := 0
    VertCount := 0
    TriVertexCount := 0
    FanVertex := 0
    TriMode := .TRI_MODE_STRIPS
    MultiTexture := List.replicate MAX_PASSES false
    TextureIdx := List.replicate MAX_PASSES (-1)
    MultiVertexMaterial := List.replicate MAX_PASSES false
    VertexMaterialIdx := List.replicate MAX_PASSES (-1)
    MultiVertexColor := List.replicate MAX_COLOR_ARRAYS false
    CurVertexColor := List.replicate MAX_COLOR_ARRAYS ⟨1, 1, 1, 1⟩ }

/-- Modelled from the spec: `DynamicMeshClass::Flip_Face` is declared in the
part of dynamesh.h that is missing from the sources. The spec's strip pattern
has "alternating winding every other triangle" with the first triangle of a
strip unflipped and the second flipped: the face is flipped exactly when the
number of vertices of the current strip is even. -/
def DynamicMeshClass.Flip_Face_base (m : DynamicMeshClass) : Bool :=
  m.TriVertexCount % 2 == 0

/-- The virtual `Flip_Face`: `DynamicScreenMeshClass::Flip_Face` (dynamesh.h)
returns `!DynamicMeshClass::Flip_Face()`. -/
def DynamicMeshClass.Flip_Face (m : DynamicMeshClass) : Bool :=
  match m.ClassId with
  | .CLASSID_DYNAMESH => m.Flip_Face_base
  | .CLASSID_DYNASCREENMESH => !m.Flip_Face_base

/-- Modelled from the spec: `MaterialInfoClass::Get_Texture(index)` and
`Get_Vertex_Material(index)` (matinfo.h is not among the sources): the entry
of the material/texture table at `index`, null when there is none. -/
def entryAt (l : List Nat) (index : Int) : Option Nat :=
  if index < 0 then none else l.get? index.toNat

/-- The passes in the order of `int pass = Get_Pass_Count(); while (pass--)`. -/
def passesDown (count : Nat) : List Nat :=
  (List.range count).reverse

/-- First loop of `End_Vertex`: for a multi-material pass record the current
vertex material of the pass for vertex `VertCount`. -/
def DynamicMeshClass.recordMaterials (m : DynamicMeshClass) : List MatDescCall :=
  (passesDown m.Model.PassCount).filterMap fun pass =>
    if m.MultiVertexMaterial.getD pass false then
      some (.Set_Material m.VertCount
        (entryAt m.Model.MatInfo.VertexMaterials (m.VertexMaterialIdx.getD pass (-1))) pass)
    else none

/-- Second loop of `End_Vertex`: for a multi-colour colour array record the
current colour for vertex `VertCount`. -/
def DynamicMeshClass.recordColors (m : DynamicMeshClass) : List MatDescCall :=
  (List.range m.MultiVertexColor.length).filterMap fun color_array_index =>
    if m.MultiVertexColor.getD color_array_index false then
      some (.Set_Color color_array_index m.VertCount
        (m.CurVertexColor.getD color_array_index ⟨1, 1, 1, 1⟩))
    else none

/-- Last loop of `End_Vertex`: for a multi-texture pass record the current
texture of the pass for polygon `PolyCount`. -/
def DynamicMeshClass.recordTextures (m : DynamicMeshClass) : List MatDescCall :=
  (passesDown m.Model.PassCount).filterMap fun pass =>
    if m.MultiTexture.getD pass false then
      some (.Set_Texture m.PolyCount
        (entryAt m.Model.MatInfo.Textures (m.TextureIdx.getD pass (-1))) pass)
    else none

/-- `DynamicMeshClass::End_Vertex`. `none` is a failed `WWASSERT`. -/
def DynamicMeshClass.End_Vertex (m : DynamicMeshClass) : Option DynamicMeshClass :=
  -- check that we have room for a new vertex
  if ¬ (m.VertCount < m.Model.VertexCount) then none else
  let log1 := m.Model.MatDescLog ++ m.recordMaterials ++ m.recordColors
  -- mark this vertex as being complete
  let m1 : DynamicMeshClass :=
    { m with
      Model := { m.Model with MatDescLog := log1 }
      VertCount := m.VertCount + 1
      TriVertexCount := m.TriVertexCount + 1 }
  -- if we have 3 or more vertices, add a new poly
  if m1.TriVertexCount ≥ 3 then
    -- check that we have room for a new poly
    if ¬ (m1.PolyCount < m1.Model.PolyCount) then none else
    let poly : TriIndex :=
      match m1.TriMode with
      | .TRI_MODE_STRIPS =>
        -- for every other tri, reverse vertex order
        if m1.Flip_Face then ⟨m1.VertCount - 3, m1.VertCount - 1, m1.VertCount - 2⟩
        else ⟨m1.VertCount - 3, m1.VertCount - 2, m1.VertCount - 1⟩
      | .TRI_MODE_FANS => ⟨m1.FanVertex, m1.VertCount - 2, m1.VertCount - 1⟩
    let model2 : DynamicMeshModel :=
      { m1.Model with
        Poly := m1.Model.Poly.set m1.PolyCount.toNat poly
        MatDescLog := m1.Model.MatDescLog ++ m1.recordTextures }
    -- increase the count and record that we have a new material
    some { m1 with
           Model := model2.Set_Counts (m1.PolyCount + 1) m1.VertCount
           PolyCount := m1.PolyCount + 1 }
  else some m1

/-- Feeding `n` vertices: `End_Vertex` called `n` times in a row. -/
def DynamicMeshClass.feed : Nat → DynamicMeshClass → Option DynamicMeshClass
  | 0, m => some m
  | n + 1, m => (m.End_Vertex).bind (DynamicMeshClass.feed n)

/-- The triangles of the mesh, as `DynamicMeshModel::Render` reads them: the
first `DynamicMeshPNum` entries of the polygon array. -/
def DynamicMeshModel.triangles (m : DynamicMeshModel) : List TriIndex :=
  m.Poly.take m.DynamicMeshPNum.toNat

/-- The `k`-th triangle of a strip that starts at vertex 0: `(k, k+1, k+2)`,
with the last two indices exchanged for odd `k`. -/
def stripTriangle (k : Nat) : TriIndex :=
  if k % 2 = 0 then ⟨k, k + 1, k + 2⟩ else ⟨k, k + 2, k + 1⟩

/-- The state reached from a fresh strip-mode mesh with capacity `P` polygons
and `V` vertices after `j` vertices went through `End_Vertex`. -/
structure StripInv (P V : Nat) (j : Nat) (m : DynamicMeshClass) : Prop where
  cls : m.ClassId = .CLASSID_DYNAMESH
  mode : m.TriMode = .TRI_MODE_STRIPS
  vc : m.VertCount = j
  tvc : m.TriVertexCount = j
  pc : m.PolyCount = ((j - 2 : Nat) : Int)
  maxP : m.Model.PolyCount = P
  maxV : m.Model.VertexCount = V
  pnum : 3 ≤ j → m.Model.DynamicMeshPNum = ((j - 2 : Nat) : Int)
  poly : m.Model.Poly =
    (List.range (j - 2)).map stripTriangle ++ List.replicate (P - (j - 2)) ⟨0, 0, 0⟩

/-! ## Display surface manager (Display.cpp) -/

/-- What `Display` uses of an open video stream: `frameIndex()`,
`frameCount()`, `width()`, `height()`. The player is a collaborator; a stream
is its current frame number out of `frameCount`. -/
structure VideoStream where
  frameIndex : Int
  frameCount : Int
  width : Nat
  height : Nat
deriving DecidableEq, Repr

/-- Modelled from the spec: `VideoStreamInterface::frameNext` (the video player
is not among the sources), the spec's "advance" of a stream: the stream moves
to the next frame. -/
def VideoStream.frameNext (s : VideoStream) : VideoStream :=
  { s with frameIndex := s.frameIndex + 1 }

/-- A video buffer: the size it was allocated with and the number of the
frame that `frameRender` last put into it. -/
structure VideoBuffer where
  width : Nat
  height : Nat
  frame : Option Int
deriving DecidableEq, Repr

/-- The view-list, movie-playback, geometry and letter-box members of
`Display`. `m_viewList` is the address of the first view of the list (views
are linked through `View::m_next`), `none` for the null pointer.
Clock readings (`timeGetTime()`, stored in the two `m_elapsed…` members) are
32-bit unsigned values, hold times are integers; a sum of a hold time and a
clock reading is an `UnsignedInt` again (`toUnsignedInt`), so it wraps around
at `2^32` as the millisecond counter itself does.
`openStreams` is not a member: it is the state of the video player seen from
this display, the number of streams that `TheVideoPlayer->open` returned and
that were not yet given to `close()`. -/
structure Display where
  m_viewList : Option Nat
  m_width : Nat
  m_height : Nat
  m_bitDepth : Nat
  m_windowed : Bool
  m_videoBuffer : Option VideoBuffer
  m_videoStream : Option VideoStream
  m_letterBoxFadeLevel : ℚ
  m_letterBoxEnabled : Bool
  m_movieHoldTime : Int
  m_copyrightHoldTime : Int
  m_elapsedMovieTime : Nat
  m_elapsedCopywriteTime : Nat
  m_copyrightDisplayString : Option String
  m_currentlyPlayingMovie : String
  openStreams : Nat
deriving DecidableEq, Repr

/-- `Display::Display()`. -/
def Display.new : Display :=
  { m_viewList := none
    m_width := 0
    m_height := 0
    m_bitDepth := 0
    m_windowed := false
    m_videoBuffer := none
    m_videoStream := none
    m_letterBoxFadeLevel := 0
    m_letterBoxEnabled := false
    m_movieHoldTime := -1
    m_copyrightHoldTime := -1
    m_elapsedMovieTime := 0
    m_elapsedCopywriteTime := 0
    m_copyrightDisplayString := none
    m_currentlyPlayingMovie := ""
    openStreams := 0 }

/-- `Display::isMoviePlaying`. -/
def Display.isMoviePlaying (d : Display) : Bool :=
  d.m_videoStream.isSome && d.m_videoBuffer.isSome

/-- `Display::setWidth`; the mouse limits that it also renews are not part of
the display. -/
def Display.setWidth (d : Display) (width : Nat) : Display :=
  { d with m_width := width }

/-- `Display::setHeight`; the mouse limits that it also renews are not part of
the display. -/
def Display.setHeight (d : Display) (height : Nat) : Display :=
  { d with m_height := height }

/-- `Display::getWorldScale`. -/
def Display.getWorldScale (d : Display) : ℚ :=
  -- Assume 1920x1080 is the base scale (1.0)
  let baseWidth : ℚ := 1920
  let baseHeight : ℚ := 1080
  let scaleX := (d.m_width : ℚ) / baseWidth
  let scaleY := (d.m_height : ℚ) / baseHeight
  -- Use the smaller scale to maintain aspect ratio
  if scaleX < scaleY then scaleX else scaleY

/-- `Display::stopMovie`. -/
def Display.stopMovie (d : Display) : Display :=
  { d with
    m_videoBuffer := none
    -- if ( m_videoStream ) { m_videoStream->close(); m_videoStream = NULL; }
    openStreams := if d.m_videoStream.isSome then d.openStreams - 1 else d.openStreams
    m_videoStream := none
    m_currentlyPlayingMovie := ""
    m_copyrightDisplayString := none
    m_copyrightHoldTime := -1
    m_movieHoldTime := -1 }

/-- The value of an integer expression as an `UnsignedInt`: its residue modulo
`2^32`. -/
def toUnsignedInt (x : Int) : Nat :=
  (x % 4294967296).toNat

/-- What the collaborators answer during one `playMovie`/`playLogoMovie` call:
`opened` is the result of `TheVideoPlayer->open`, `created` whether
`createVideoBuffer()` returned a buffer, `allocated` whether its `allocate`
succeeded, `now` the milliseconds that the millisecond counter has counted. -/
structure PlayEnv where
  opened : Option VideoStream
  created : Bool
  allocated : Bool
  now : Nat
deriving DecidableEq, Repr

/-- The reading of `timeGetTime()`, a `DWORD`: the counter modulo `2^32`. -/
def PlayEnv.timeGetTime (env : PlayEnv) : Nat :=
  env.now % 4294967296

/-- `Display::playLogoMovie(movieName, minMovieLength, minCopyrightLength)`. -/
def Display.playLogoMovie (d : Display) (env : PlayEnv) (movieName : String)
    (minMovieLength minCopyrightLength : Int) : Display :=
  let d := d.stopMovie
  match env.opened with
  | none => d
  | some stream =>
    let d := { d with
      m_videoStream := some stream
      openStreams := d.openStreams + 1
      m_currentlyPlayingMovie := movieName
      m_movieHoldTime := minMovieLength
      m_copyrightHoldTime := minCopyrightLength
      m_elapsedMovieTime := env.timeGetTime }
    -- m_videoBuffer = createVideoBuffer(), then allocate(width, height)
    let d := { d with
      m_videoBuffer := if env.created then some ⟨stream.width, stream.height, none⟩ else none }
    if ¬ env.created ∨ ¬ env.allocated then d.stopMovie else d

/-- `Display::playMovie(movieName)`. -/
def Display.playMovie (d : Display) (env : PlayEnv) (movieName : String) : Display :=
  let d := d.stopMovie
  match env.opened with
  | none => d
  | some stream =>
    let d := { d with
      m_videoStream := some stream
      openStreams := d.openStreams + 1
      m_currentlyPlayingMovie := movieName }
    -- m_videoBuffer = createVideoBuffer(), then allocate(width, height)
    let d := { d with
      m_videoBuffer := if env.created then some ⟨stream.width, stream.height, none⟩ else none }
    if ¬ env.created ∨ ¬ env.allocated then d.stopMovie else d

/-- What the collaborators answer during one `update` call: whether
`isFrameReady()` holds and the milliseconds that the millisecond counter has
counted, taken to be the same for every read of the clock within the call. -/
structure UpdateEnv where
  isFrameReady : Bool
  now : Nat
deriving DecidableEq, Repr

/-- The reading of `timeGetTime()`, a `DWORD`: the counter modulo `2^32`. -/
def UpdateEnv.timeGetTime (env : UpdateEnv) : Nat :=
  env.now % 4294967296

/-- `Display::update`. Both sides of `m_movieHoldTime + m_elapsedMovieTime <
timeGetTime()` are 32-bit unsigned: the sum of the `Int` hold time and the
`UnsignedInt` start time is taken modulo `2^32`. -/
def Display.update (d : Display) (env : UpdateEnv) : Display :=
  match d.m_videoStream, d.m_videoBuffer with
  | some stream, some buffer =>
    if env.isFrameReady then
      -- frameDecompress(), frameRender(m_videoBuffer)
      let d := { d with m_videoBuffer := some { buffer with frame := some stream.frameIndex } }
      if stream.frameIndex ≠ stream.frameCount - 1 then
        { d with m_videoStream := some stream.frameNext }
      else if d.m_copyrightHoldTime ≥ 0 ∨ d.m_movieHoldTime ≥ 0 then
        let d :=
          if d.m_elapsedCopywriteTime = 0 ∧ d.m_elapsedCopywriteTime ≥ 0 then
            -- display the copyright text
            { d with
              m_copyrightDisplayString := some "GUI:EACopyright"
              m_elapsedCopywriteTime := env.timeGetTime }
          else d
        if toUnsignedInt (d.m_movieHoldTime + (d.m_elapsedMovieTime : Int)) < env.timeGetTime ∧
            toUnsignedInt (d.m_copyrightHoldTime + (d.m_elapsedCopywriteTime : Int))
              < env.timeGetTime then
          { d with
            m_movieHoldTime := -1
            m_elapsedMovieTime := 0
            m_elapsedCopywriteTime := 0
            m_copyrightHoldTime := -1 }
        else d
      else d.stopMovie
    else d
  | _, _ => d

/-- A sequence of `update` calls, one per element of `envs`, oldest first. -/
def Display.updates (d : Display) (envs : List UpdateEnv) : Display :=
  envs.foldl Display.update d

/-- Whether this `update` call processes the last frame of the stream: a movie
is playing, a frame is ready and the stream stands on frame `frameCount - 1`. -/
def Display.processesLastFrame (d : Display) (env : UpdateEnv) : Bool :=
  match d.m_videoStream, d.m_videoBuffer with
  | some stream, some _ => env.isFrameReady && stream.frameIndex == stream.frameCount - 1
  | _, _ => false

/-- The clock reading of the first `update` call of the sequence that
processes the last frame of the stream, if there is one. -/
def Display.firstLastFrameTime : Display → List UpdateEnv → Option Nat
  | _, [] => none
  | d, env :: envs =>
    if d.processesLastFrame env then some env.timeGetTime
    else Display.firstLastFrameTime (d.update env) envs

/-- The clock never runs backwards: the readings, starting from `t`, are
non-decreasing. -/
def clockMonotone : Nat → List UpdateEnv → Prop
  | _, [] => True
  | t, env :: envs => t ≤ env.now ∧ clockMonotone env.now envs

/-! ## Tactical view (W3DView.cpp) -/

/-- WWMath `Vector2`. -/
structure Vector2 where
  X : ℚ
  Y : ℚ
deriving DecidableEq, Repr

/-- Game `Coord2D`. -/
structure Coord2D where
  x : ℚ
  y : ℚ
deriving DecidableEq, Repr

/-- Game `Coord3D`. -/
structure Coord3D where
  x : ℚ
  y : ℚ
  z : ℚ
deriving DecidableEq, Repr

/-- Game `ICoord2D`: integer screen coordinates. -/
structure ICoord2D where
  x : Int
  y : Int
deriving DecidableEq, Repr

/-- Game `Region2D`. -/
structure Region2D where
  lo : Coord2D
  hi : Coord2D
deriving DecidableEq, Repr

/-- Game `Region3D`. -/
structure Region3D where
  lo : Coord3D
  hi : Coord3D
deriving DecidableEq, Repr

/-- WWMath `Matrix3D`: three rows of four entries, the last column being the
translation. -/
structure Matrix3D where
  Row0 : Vector4
  Row1 : Vector4
  Row2 : Vector4
deriving DecidableEq, Repr

/-- Modelled from the spec: `Matrix3D::Make_Identity` / `Matrix3D(1)` (WWMath
is not among the sources): the identity transform. -/
def Matrix3D.identity : Matrix3D :=
  ⟨⟨1, 0, 0, 0⟩, ⟨0, 1, 0, 0⟩, ⟨0, 0, 1, 0⟩⟩

/-- Modelled from the spec: `Matrix3D::Get_Translation` (WWMath is not among
the sources): the "translation" of a transform, its last column. -/
def Matrix3D.Get_Translation (m : Matrix3D) : Vector3 :=
  ⟨m.Row0.W, m.Row1.W, m.Row2.W⟩

/-- Modelled from the spec: `Vector3::operator*=(float)` (WWMath is not among
the sources): "scale the rotated offset", componentwise. -/
def Vector3.scale (p : Vector3) (k : ℚ) : Vector3 :=
  ⟨p.X * k, p.Y * k, p.Z * k⟩

/-- Modelled from the spec: `Vector3::operator-=` (WWMath is not among the
sources): componentwise difference. -/
def Vector3.sub (p q : Vector3) : Vector3 :=
  ⟨p.X - q.X, p.Y - q.Y, p.Z - q.Z⟩

/-- Modelled from the spec: `Vector3::operator+=` (WWMath is not among the
sources): componentwise sum. -/
def Vector3.add (p q : Vector3) : Vector3 :=
  ⟨p.X + q.X, p.Y + q.Y, p.Z + q.Z⟩

/-- `inline Real minf(Real a, Real b)`. -/
def minf (a b : ℚ) : ℚ :=
  if a < b then a else b

/-- `inline Real maxf(Real a, Real b)`. -/
def maxf (a b : ℚ) : ℚ :=
  if a > b then a else b

/-- Conversion of a `float` to `Int` on assignment: truncation toward zero. -/
def truncToInt (q : ℚ) : Int :=
  if 0 ≤ q then ⌊q⌋ else ⌈q⌉

/-- The integer nearest to `q`, a tie going to the even one. -/
def roundNearestEven (q : ℚ) : Int :=
  let f := ⌊q⌋
  if q - f < 1 / 2 then f
  else if 1 / 2 < q - f then f + 1
  else if f % 2 = 0 then f else f + 1

/-- Rounding to `Real`, the C++ `float` (IEEE 754 binary32: 24 significant
bits, least exponent -126): the representable value nearest to `q`, a tie
going to the even significand. Overflow (magnitudes from `2^128` on) is not
modelled. -/
def roundToReal (q : ℚ) : ℚ :=
  if q = 0 then 0
  else
    let e := max (Int.log 2 |q|) (-126)
    (roundNearestEven (q / 2 ^ (e - 23)) : ℚ) * 2 ^ (e - 23)

/-- The cast `(Real)n` of an `Int` or `UnsignedInt`. -/
def intToReal (n : Int) : ℚ :=
  roundToReal n

/-- Division of two `Real`s, the divisor not zero. -/
def divReal (a b : ℚ) : ℚ :=
  roundToReal (a / b)

/-- Product of two `Real`s. -/
def mulReal (a b : ℚ) : ℚ :=
  roundToReal (a * b)

/-- The argument `(Real)old / (Real)oldDisplay * (Real)res` that
`setDisplayMode` hands to an `Int` parameter: evaluated in single precision
from left to right, then truncated toward zero. -/
def scaledToDisplay (old : Int) (oldDisplay res : Nat) : Int :=
  truncToInt (mulReal (divReal (intToReal old) (intToReal oldDisplay)) (intToReal res))

/-- The members of `CameraClass` that the view sets. -/
structure CameraClass where
  Transform : Matrix3D
  ZNear : ℚ
  ZFar : ℚ
  AspectRatio : ℚ
  ViewportMin : Vector2
  ViewportMax : Vector2
  HFOV : ℚ
  VFOV : ℚ
deriving DecidableEq, Repr

/-- Modelled from the spec: `CameraClass::Set_Clip_Planes` (camera.h is not
among the sources): stores the near and far clip planes. -/
def CameraClass.Set_Clip_Planes (c : CameraClass) (nearZ farZ : ℚ) : CameraClass :=
  { c with ZNear := nearZ, ZFar := farZ }

/-- Modelled from the spec: `CameraClass::Set_Transform` (camera.h is not among
the sources): "submits the result to the camera object". -/
def CameraClass.Set_Transform (c : CameraClass) (m : Matrix3D) : CameraClass :=
  { c with Transform := m }

/-- The members of `View` and `W3DView` that the camera code reads and writes.
`m_pos`, `m_zoom`, `m_angle`, `m_pitchAngle`, `m_worldScale`, `m_width`,
`m_height`, `m_originX`, `m_originY` are the `View` members behind
`getPosition`/`setPosition`, `getZoom`, `getAngle`, `getPitch`,
`getWorldScale`, `getWidth`, `getHeight` and the origin. `shakerTime` is the
state of the global `CameraShakerSystem`: the time its `Timestep` calls have
added up. -/
structure W3DView where
  m_next : Option Nat
  m_pos : Coord3D
  m_width : Int
  m_height : Int
  m_originX : Int
  m_originY : Int
  m_angle : ℚ
  m_pitchAngle : ℚ
  m_zoom : ℚ
  m_worldScale : ℚ
  m_3DCamera : CameraClass
  m_groundLevel : ℚ
  m_cameraOffset : Coord3D
  m_shakeOffset : Coord2D
  m_shakeIntensity : ℚ
  m_shakerAngles : Vector3
  m_FXPitch : ℚ
  m_FOV : ℚ
  m_cameraConstraint : Region2D
  m_cameraConstraintValid : Bool
  m_cameraHasMovedSinceRequest : Bool
  m_isCameraSlaved : Bool
  m_useRealZoomCam : Bool
  m_cameraSlaveObjectName : String
  m_cameraSlaveObjectBoneName : String
  shakerTime : ℚ
deriving DecidableEq, Repr

/-- `ObjectDrawInterface`: `clientOnly_getRenderObjBoneTransform(bone, &tm)`
is given by the matrix `tm` holds after the call; the code ignores the value
the call returns. -/
structure ObjectDrawInterface where
  clientOnly_getRenderObjBoneTransform : String → Matrix3D

/-- `DrawModule`: `getObjectDrawInterface()` may be null. -/
structure DrawModule where
  getObjectDrawInterface : Option ObjectDrawInterface

/-- `Drawable`: the null-terminated array `getDrawModules()`. -/
structure Drawable where
  getDrawModules : List DrawModule

/-- `Object`: `getDrawable()` may be null. -/
structure Object where
  getDrawable : Option Drawable

/-- `TerrainLogic`: the map extent that `getExtent` stores. -/
structure TerrainLogic where
  getExtent : Region3D

/-- The flags of `TheGlobalData` that the camera code reads. -/
structure GlobalData where
  m_debugAI : Bool
  m_drawEntireTerrain : Bool

/-- Everything the camera code takes from outside W3DView.cpp: constants
(`PI`, `MAP_XY_FACTOR`), the math library (`cosf`/`sinf` behind the axis-angle
matrices, `Look_At`, `Rotate_X/Y/Z`, `Normalize`, `Find_X_At_Z`,
`Find_Y_At_Z`, `Coord3D::length`), the camera (`Get_Position`, `Un_Project`,
`Get_Depth`), `PixelScreenToW3DLogicalScreen`, the camera shaker, the script
engine, the display's letter-box state, the terrain logic singleton (absent
when no map is loaded) and the global data. -/
structure ViewEnv where
  PI : ℚ
  MAP_XY_FACTOR : ℚ
  cosf : ℚ → ℚ
  sinf : ℚ → ℚ
  Look_At : Matrix3D → Vector3 → Vector3 → ℚ → Matrix3D
  Rotate_X : Matrix3D → ℚ → Matrix3D
  Rotate_Y : Matrix3D → ℚ → Matrix3D
  Rotate_Z : Matrix3D → ℚ → Matrix3D
  Normalize : Vector3 → Vector3
  Find_X_At_Z : ℚ → Vector3 → Vector3 → ℚ
  Find_Y_At_Z : ℚ → Vector3 → Vector3 → ℚ
  length : Coord3D → ℚ
  Get_Position : CameraClass → Vector3
  Un_Project : CameraClass → Vector2 → Vector3
  Get_Depth : CameraClass → ℚ
  PixelScreenToW3DLogicalScreen : Int → Int → Int → Int → ℚ × ℚ
  Update_Camera_Shaker : ℚ → Vector3 → Vector3 → Vector3
  getUnitNamed : String → Option Object
  isLetterBoxed : Bool
  TheTerrainLogic : Option TerrainLogic
  TheGlobalData : GlobalData

/-- Modelled from the spec: `View::setPosition` (View.h is not among the
sources); the spec's `setPose` "stores requested pose". -/
def W3DView.setPosition (v : W3DView) (pos : Coord3D) : W3DView :=
  { v with m_pos := pos }

/-- The clamp of a position into the camera constraint, as written in both
`buildCameraTransform` and `setCameraTransform`:
`pos.x = maxf(lo.x, pos.x); pos.x = minf(hi.x, pos.x);` and the same for `y`. -/
def clampToConstraint (c : Region2D) (pos : Coord3D) : Coord3D :=
  let pos := { pos with x := maxf c.lo.x pos.x }
  let pos := { pos with x := minf c.hi.x pos.x }
  let pos := { pos with y := maxf c.lo.y pos.y }
  let pos := { pos with y := minf c.hi.y pos.y }
  pos

/-- `#define MIN_CAPPED_ZOOM (0.5f)`. -/
def MIN_CAPPED_ZOOM : ℚ := 1 / 2

/-- The capping of the zoom written twice in `buildCameraTransform`:
`if (capped_zoom > 1.0f) capped_zoom = 1.0f;`
`if (capped_zoom < MIN_CAPPED_ZOOM) capped_zoom = MIN_CAPPED_ZOOM;`. -/
def cappedZoom (zoom : ℚ) : ℚ :=
  let capped_zoom := zoom
  let capped_zoom := if capped_zoom > 1 then 1 else capped_zoom
  let capped_zoom := if capped_zoom < MIN_CAPPED_ZOOM then MIN_CAPPED_ZOOM else capped_zoom
  capped_zoom

/-- The local `zoom` of `buildCameraTransform`: `getZoom() * getWorldScale()`. -/
def W3DView.scaledZoom (v : W3DView) : ℚ :=
  v.m_zoom * v.m_worldScale

/-- The local `pos` of `buildCameraTransform` after the shake offset was added
and the constraint applied (to this local copy). -/
def W3DView.lookAtPos (v : W3DView) : Coord3D :=
  let pos := v.m_pos
  -- add in the camera shake, if any
  let pos := { pos with x := pos.x + v.m_shakeOffset.x }
  let pos := { pos with y := pos.y + v.m_shakeOffset.y }
  if v.m_cameraConstraintValid then clampToConstraint v.m_cameraConstraint pos else pos

/-- The first value of `sourcePos` in `buildCameraTransform`: the camera
offset, scaled by the zoom unless the real zoom camera is used. -/
def W3DView.offsetSource (v : W3DView) : Vector3 :=
  let zoom := v.scaledZoom
  if v.m_useRealZoomCam then
    ⟨v.m_cameraOffset.x, v.m_cameraOffset.y, v.m_cameraOffset.z⟩
  else
    ⟨v.m_cameraOffset.x * zoom, v.m_cameraOffset.y * zoom, v.m_cameraOffset.z * zoom⟩

/-- The value of `m_FOV` after the first block of `buildCameraTransform`:
`50.0f * PI/180.0f * capped_zoom * capped_zoom` with the real zoom camera,
unchanged otherwise. -/
def W3DView.nextFOV (PI : ℚ) (v : W3DView) : ℚ :=
  if v.m_useRealZoomCam then
    50 * PI / 180 * cappedZoom v.scaledZoom * cappedZoom v.scaledZoom
  else v.m_FOV

/-- Modelled from the spec: `Matrix3D(Vector3(1,0,0), pitch)` followed by
`mulVector3` (WWMath is not among the sources): the spec's "pitch rotation",
a rotation about the X axis by an angle with cosine `c` and sine `s`. -/
def rotateAboutX (c s : ℚ) (p : Vector3) : Vector3 :=
  ⟨p.X, c * p.Y - s * p.Z, s * p.Y + c * p.Z⟩

/-- Modelled from the spec: `Matrix3D(Vector3(0,0,1), angle)` followed by
`mulVector3` (WWMath is not among the sources): the spec's "angle (yaw)
rotation", a rotation about the Z axis by an angle with cosine `c` and sine
`s`. -/
def rotateAboutZ (c s : ℚ) (p : Vector3) : Vector3 :=
  ⟨c * p.X - s * p.Y, s * p.X + c * p.Y, p.Z⟩

/-- The value of `sourcePos` after `pitchTransform.mulVector3(sourcePos);
angleTransform.mulVector3(sourcePos);` (pitch, then angle). -/
def W3DView.rotatedSource (env : ViewEnv) (v : W3DView) : Vector3 :=
  let sourcePos := v.offsetSource
  let sourcePos := rotateAboutX (env.cosf v.m_pitchAngle) (env.sinf v.m_pitchAngle) sourcePos
  let sourcePos := rotateAboutZ (env.cosf v.m_angle) (env.sinf v.m_angle) sourcePos
  sourcePos

/-- `Real factor = 1.0 - (groundLevel/sourcePos.Z)`, computed from the first
value of `sourcePos`. -/
def W3DView.factor (v : W3DView) : ℚ :=
  1 - v.m_groundLevel / v.offsetSource.Z

/-- The values of `sourcePos` and `targetPos` after "translate to current XY
position": the rotated offset times `factor`, moved by `pos` and the ground
level; the target is `pos` at ground level. -/
def W3DView.translated (env : ViewEnv) (v : W3DView) : Vector3 × Vector3 :=
  let groundLevel := v.m_groundLevel
  let pos := v.lookAtPos
  -- camera looking at origin
  let targetPos : Vector3 := ⟨0, 0, 0⟩
  let sourcePos := (v.rotatedSource env).scale v.factor
  -- translate to current XY position
  let sourcePos : Vector3 :=
    ⟨sourcePos.X + pos.x, sourcePos.Y + pos.y, sourcePos.Z + groundLevel⟩
  let targetPos : Vector3 :=
    ⟨targetPos.X + pos.x, targetPos.Y + pos.y, targetPos.Z + groundLevel⟩
  (sourcePos, targetPos)

/-- The block `if (m_useRealZoomCam) { … m_FXPitch = 1.0f * (0.25f +
pitch_adjust*0.75f); }`: the new `sourcePos` and the new `m_FXPitch`. -/
def realZoomAdjust (isLetterBoxed : Bool) (zoom : ℚ) (sourcePos : Vector3) : Vector3 × ℚ :=
  let pitch_adjust : ℚ := 1
  if ¬ isLetterBoxed then
    let capped_zoom := cappedZoom zoom
    -- move camera down physically
    let sourcePos := { sourcePos with Z := sourcePos.Z * (1 / 2 + capped_zoom * (1 / 2)) }
    -- adjust camera to pitch up
    let pitch_adjust := capped_zoom
    (sourcePos, 1 * (1 / 4 + pitch_adjust * (3 / 4)))
  else
    (sourcePos, 1 * (1 / 4 + pitch_adjust * (3 / 4)))

/-- The block "do fxPitch adjustment": the new `sourcePos` and `targetPos`. -/
def fxPitchAdjust (m_useRealZoomCam : Bool) (m_FXPitch : ℚ) (sourcePos targetPos : Vector3) :
    Vector3 × Vector3 :=
  if m_useRealZoomCam then
    let sourcePos := { sourcePos with X := targetPos.X + ((sourcePos.X - targetPos.X) / m_FXPitch) }
    let sourcePos := { sourcePos with Y := targetPos.Y + ((sourcePos.Y - targetPos.Y) / m_FXPitch) }
    (sourcePos, targetPos)
  else
    if m_FXPitch ≤ 1 then
      let height := sourcePos.Z - targetPos.Z
      let height := height * m_FXPitch
      let targetPos := { targetPos with Z := sourcePos.Z - height }
      (sourcePos, targetPos)
    else
      let sourcePos := { sourcePos with X := targetPos.X + ((sourcePos.X - targetPos.X) / m_FXPitch) }
      let sourcePos := { sourcePos with Y := targetPos.Y + ((sourcePos.Y - targetPos.Y) / m_FXPitch) }
      (sourcePos, targetPos)

/-- The denominators of the divisions that "do fxPitch adjustment" executes. -/
def fxPitchDivisors (m_useRealZoomCam : Bool) (m_FXPitch : ℚ) : List ℚ :=
  if m_useRealZoomCam then [m_FXPitch, m_FXPitch]
  else if m_FXPitch ≤ 1 then [] else [m_FXPitch, m_FXPitch]

/-- Where `buildCameraTransform` puts the camera: the arguments it passes to
`Look_At`, the values it leaves in `m_FXPitch` and `m_FOV`, and the
denominators of the divisions it executed, in order. -/
structure CameraPlacement where
  sourcePos : Vector3
  targetPos : Vector3
  FXPitch : ℚ
  FOV : ℚ
  divisors : List ℚ
deriving DecidableEq, Repr

/-- `buildCameraTransform` up to the call of `Look_At`. -/
def W3DView.placeCamera (env : ViewEnv) (v : W3DView) : CameraPlacement :=
  let zoom := v.scaledZoom
  let (sourcePos, targetPos) := v.translated env
  -- The following code moves camera down and pitch up when player zooms in.
  let (sourcePos, FXPitch) :=
    if v.m_useRealZoomCam then realZoomAdjust env.isLetterBoxed zoom sourcePos
    else (sourcePos, v.m_FXPitch)
  -- do fxPitch adjustment
  let (sourcePos, targetPos) := fxPitchAdjust v.m_useRealZoomCam FXPitch sourcePos targetPos
  { sourcePos := sourcePos
    targetPos := targetPos
    FXPitch := FXPitch
    FOV := v.nextFOV env.PI
    divisors := v.offsetSource.Z :: fxPitchDivisors v.m_useRealZoomCam FXPitch }

/-- The loop "dig out the first draw module with an ObjectDrawInterface": the
matrix `tm` of the first module that has the interface, if any has. -/
def firstBoneTransform (bone : String) : List DrawModule → Option Matrix3D
  | [] => none
  | dm :: rest =>
    match dm.getObjectDrawInterface with
    | some di => some (di.clientOnly_getRenderObjBoneTransform bone)
    | none => firstBoneTransform bone rest

/-- What one call of `buildCameraTransform` yields: the view afterwards, the
matrix written to `*transform`, the arguments that were passed to `Look_At`,
the denominators of the executed divisions and the names that were looked up
with `TheScriptEngine->getUnitNamed`. -/
structure BuildResult where
  view : W3DView
  transform : Matrix3D
  sourcePos : Vector3
  targetPos : Vector3
  divisors : List ℚ
  lookups : List String
deriving DecidableEq, Repr

/-- `W3DView::buildCameraTransform`. -/
def W3DView.buildCameraTransform (env : ViewEnv) (v : W3DView) : BuildResult :=
  let p := v.placeCamera env
  let v := { v with m_FOV := p.FOV, m_FXPitch := p.FXPitch }
  -- build new camera transform
  let transform := env.Look_At Matrix3D.identity p.sourcePos p.targetPos 0
  -- CameraShakerSystem.Timestep(1.0f/30.0f); Update_Camera_Shaker(sourcePos, &m_shakerAngles)
  let v := { v with shakerTime := v.shakerTime + 1 / 30 }
  let v := { v with
    m_shakerAngles := env.Update_Camera_Shaker v.shakerTime p.sourcePos v.m_shakerAngles }
  let transform := env.Rotate_X transform v.m_shakerAngles.X
  let transform := env.Rotate_Y transform v.m_shakerAngles.Y
  let transform := env.Rotate_Z transform v.m_shakerAngles.Z
  let free : BuildResult :=
    { view := v, transform := transform, sourcePos := p.sourcePos, targetPos := p.targetPos
      divisors := p.divisors, lookups := [] }
  -- check if the camera is being controlled by an animation
  if v.m_isCameraSlaved then
    let looked : BuildResult := { free with lookups := [v.m_cameraSlaveObjectName] }
    match env.getUnitNamed v.m_cameraSlaveObjectName with
    | some obj =>
      match obj.getDrawable with
      | some draw =>
        match firstBoneTransform v.m_cameraSlaveObjectBoneName draw.getDrawModules with
        | some tm =>
          -- Ok, slam it into the camera!
          let position := tm.Get_Translation
          { looked with
            transform := tm
            view := { v with m_pos := ⟨position.X, position.Y, position.Z⟩ } }
        | none => looked
      | none => { looked with view := { v with m_isCameraSlaved := false } }
    | none => { looked with view := { v with m_isCameraSlaved := false } }
  else free

/-- `W3DView::getPickRay`: the start and the end of the ray. -/
def W3DView.getPickRay (env : ViewEnv) (v : W3DView) (screen : ICoord2D) : Vector3 × Vector3 :=
  let (logX, logY) :=
    env.PixelScreenToW3DLogicalScreen (screen.x - v.m_originX) (screen.y - v.m_originY)
      v.m_width v.m_height
  let rayStart := env.Get_Position v.m_3DCamera
  let rayEnd := env.Un_Project v.m_3DCamera ⟨logX, logY⟩
  let rayEnd := rayEnd.sub rayStart
  let rayEnd := env.Normalize rayEnd
  let rayEnd := rayEnd.scale (env.Get_Depth v.m_3DCamera)
  let rayEnd := rayEnd.add rayStart
  (rayStart, rayEnd)

/-- The local `offset` of `calcCameraConstraints` before the debug override:
the length of the vector between the points that the pick rays through the
centre and through 95% of the height of the viewport hit at ground level. -/
def W3DView.pickMargin (env : ViewEnv) (v : W3DView) : ℚ :=
  let maxEdgeZ := v.m_groundLevel
  -- Pick at the center
  let screen : ICoord2D :=
    ⟨truncToInt (1 / 2 * (v.m_width : ℚ) + (v.m_originX : ℚ)),
     truncToInt (1 / 2 * (v.m_height : ℚ) + (v.m_originY : ℚ))⟩
  let (rayStart, rayEnd) := v.getPickRay env screen
  let center : Coord3D :=
    ⟨env.Find_X_At_Z maxEdgeZ rayStart rayEnd, env.Find_Y_At_Z maxEdgeZ rayStart rayEnd, maxEdgeZ⟩
  let screen := { screen with y := truncToInt ((v.m_originY : ℚ) + 19 / 20 * (v.m_height : ℚ)) }
  let (rayStart, rayEnd) := v.getPickRay env screen
  let bottom : Coord3D :=
    ⟨env.Find_X_At_Z maxEdgeZ rayStart rayEnd, env.Find_Y_At_Z maxEdgeZ rayStart rayEnd, maxEdgeZ⟩
  let center := { center with x := center.x - bottom.x }
  let center := { center with y := center.y - bottom.y }
  env.length center

/-- The last assignments of `calcCameraConstraints`: the constraint for a map
region and an `offset`. -/
def constraintFor (mapRegion : Region3D) (offset : ℚ) : Region2D :=
  { lo := ⟨mapRegion.lo.x + offset, mapRegion.lo.y + offset⟩
    hi := ⟨mapRegion.hi.x - offset, mapRegion.hi.y - offset⟩ }

/-- `W3DView::calcCameraConstraints`. -/
def W3DView.calcCameraConstraints (env : ViewEnv) (v : W3DView) : W3DView :=
  match env.TheTerrainLogic with
  | some terrain =>
    let mapRegion := terrain.getExtent
    let offset := v.pickMargin env
    -- push out the constraints so we can look at staging areas.
    let offset := if env.TheGlobalData.m_debugAI then -1000 else offset
    { v with
      m_cameraConstraint := constraintFor mapRegion offset
      m_cameraConstraintValid := true }
  | none => v

/-- `W3DView::setCameraTransform` in the release configuration (neither
`_DEBUG` nor `_INTERNAL` defined). The final `updateCenter` call on the
terrain render object does not touch the view and is left out. -/
def W3DView.setCameraTransform (env : ViewEnv) (v : W3DView) : W3DView :=
  let v := { v with m_cameraHasMovedSinceRequest := true }
  let nearZ := env.MAP_XY_FACTOR
  let farZ : ℚ := 1200
  let farZ :=
    if v.m_useRealZoomCam then
      if v.m_FXPitch < 19 / 20 then farZ / v.m_FXPitch else farZ
    else
      if env.TheGlobalData.m_drawEntireTerrain ∨ (v.m_FXPitch < 19 / 20 ∨ v.m_zoom > 21 / 20) then
        farZ * env.MAP_XY_FACTOR
      else farZ
  let v := { v with m_3DCamera := v.m_3DCamera.Set_Clip_Planes nearZ farZ }
  let v :=
    if ¬ v.m_cameraConstraintValid then
      let r := v.buildCameraTransform env
      let v := { r.view with m_3DCamera := r.view.m_3DCamera.Set_Transform r.transform }
      v.calcCameraConstraints env
    else v
  let v :=
    if v.m_cameraConstraintValid then
      let pos := v.m_pos
      let pos := clampToConstraint v.m_cameraConstraint pos
      v.setPosition pos
    else v
  -- rebuild it (even if we just did it due to camera constraints)
  let r := v.buildCameraTransform env
  { r.view with m_3DCamera := r.view.m_3DCamera.Set_Transform r.transform }

/-! ## Viewport geometry of the tactical view (W3DView.cpp) -/

/-- Modelled from the spec: `CameraClass::Set_Aspect_Ratio` (camera.h is not
among the sources): "updates aspect ratio ... on the camera". -/
def CameraClass.Set_Aspect_Ratio (c : CameraClass) (width_to_height : ℚ) : CameraClass :=
  { c with AspectRatio := width_to_height }

/-- Modelled from the spec: `CameraClass::Set_Viewport` (camera.h is not among
the sources): "updates ... viewport rectangle on the camera". -/
def CameraClass.Set_Viewport (c : CameraClass) (vMin vMax : Vector2) : CameraClass :=
  { c with ViewportMin := vMin, ViewportMax := vMax }

/-- Modelled from the spec: `CameraClass::Set_View_Plane(hfov, vfov)` (camera.h
is not among the sources): "adjusting field-of-view", the two angles are
stored as passed. -/
def CameraClass.Set_View_Plane (c : CameraClass) (hfov vfov : ℚ) : CameraClass :=
  { c with HFOV := hfov, VFOV := vfov }

/-- Modelled from the spec: `View::setWidth` (View.h is not among the sources):
stores the width of the viewport. -/
def View.setWidth (v : W3DView) (width : Int) : W3DView :=
  { v with m_width := width }

/-- Modelled from the spec: `View::setHeight` (View.h is not among the
sources): stores the height of the viewport. -/
def View.setHeight (v : W3DView) (height : Int) : W3DView :=
  { v with m_height := height }

/-- Modelled from the spec: `View::setOrigin` (View.h is not among the
sources): stores the top-left corner of the viewport. -/
def View.setOrigin (v : W3DView) (x y : Int) : W3DView :=
  { v with m_originX := x, m_originY := y }

/-- Modelled from the spec: `View::setWorldScale` (View.h is not among the
sources): stores the world-scale factor that `getWorldScale` returns. -/
def View.setWorldScale (v : W3DView) (worldScale : ℚ) : W3DView :=
  { v with m_worldScale := worldScale }

/-- `W3DView::setHeight`; `TheDisplay` is the display singleton. -/
def W3DView.setHeight (TheDisplay : Display) (v : W3DView) (height : Int) : W3DView :=
  -- extend View functionality
  let v := View.setHeight v height
  let camera := v.m_3DCamera.Set_Aspect_Ratio ((v.m_width : ℚ) / (height : ℚ))
  let vMin := camera.ViewportMin
  let vMax := camera.ViewportMax
  let vMax := { vMax with Y := ((v.m_originY + height : Int) : ℚ) / (TheDisplay.m_height : ℚ) }
  let camera := camera.Set_Viewport vMin vMax
  { v with m_3DCamera := camera }

/-- `W3DView::setWidth`; `TheDisplay` is the display singleton,
`DEG_TO_RADF(50.0f)` is `50 * PI / 180`. -/
def W3DView.setWidth (PI : ℚ) (TheDisplay : Display) (v : W3DView) (width : Int) : W3DView :=
  -- extend View functionality
  let v := View.setWidth v width
  let scale := v.m_worldScale
  let camera := v.m_3DCamera.Set_Aspect_Ratio (((width : ℚ) / (v.m_height : ℚ)) * scale)
  let vMin := camera.ViewportMin
  let vMax := camera.ViewportMax
  let vMax := { vMax with X := ((v.m_originX + width : Int) : ℚ) / (TheDisplay.m_width : ℚ) }
  let camera := camera.Set_Viewport vMin vMax
  -- we want to maintain the same scale, so we'll need to adjust the fov.
  let camera := camera.Set_View_Plane
    (((width : ℚ) / (TheDisplay.m_width : ℚ) * (50 * PI / 180)) * scale) (-1)
  { v with m_3DCamera := camera }

/-- `W3DView::setOrigin`. -/
def W3DView.setOrigin (PI : ℚ) (TheDisplay : Display) (v : W3DView) (x y : Int) : W3DView :=
  -- extend View functionality
  let v := View.setOrigin v x y
  let camera := v.m_3DCamera
  let vMin := camera.ViewportMin
  let vMax := camera.ViewportMax
  let vMin := { vMin with X := (x : ℚ) / (TheDisplay.m_width : ℚ) }
  let vMin := { vMin with Y := (y : ℚ) / (TheDisplay.m_height : ℚ) }
  let v := { v with m_3DCamera := camera.Set_Viewport vMin vMax }
  -- bottom-right border was also moved my this call, so force an update of extents.
  let v := W3DView.setWidth PI TheDisplay v v.m_width
  let v := W3DView.setHeight TheDisplay v v.m_height
  v

/-- A sequence of `setCameraTransform` calls, one per element of `envs`. -/
def W3DView.setCameraTransforms (v : W3DView) (envs : List ViewEnv) : W3DView :=
  envs.foldl (fun w env => w.setCameraTransform env) v

/-! ## Views of the display (Display.cpp) -/

/-- The objects that the display code reaches through globals and pointers:
the display singleton, the global `TheTacticalView` (an address, `none` for
null) and the views that exist, by address. -/
structure Client where
  TheDisplay : Display
  TheTacticalView : Option Nat
  views : Nat → Option W3DView

/-- Assignment through a view pointer. -/
def Client.writeView (c : Client) (view : Nat) (v : W3DView) : Client :=
  { c with views := fun a => if a = view then some v else c.views a }

/-- `Display::attachView(view)`. `View::prependViewToList` (View.h is not among
the sources) is, by the comment at the call and the spec's "explicit attach
(prepend)", `m_next = list; return this`. `none` when `view` points to no
view. -/
def Client.attachView (c : Client) (view : Nat) : Option Client :=
  match c.views view with
  | none => none
  | some v =>
    -- prepend to head of list
    let c := c.writeView view { v with m_next := c.TheDisplay.m_viewList }
    some { c with TheDisplay := { c.TheDisplay with m_viewList := some view } }

/-- A sequence of `attachView` calls, in the order of the list. -/
def Client.attachViews : Client → List Nat → Option Client
  | c, [] => some c
  | c, view :: rest => (c.attachView view).bind fun c1 => Client.attachViews c1 rest

/-- The loop `for( View *v = m_viewList; v; v = v->getNextView() )` of
`drawViews`, `updateViews` and `reset`: the addresses of the views it visits,
in order. `fuel` bounds the number of views visited; `none` when the fuel runs
out or a pointer points to no view. -/
def walkViews (views : Nat → Option W3DView) : Nat → Option Nat → Option (List Nat)
  | _, none => some []
  | 0, some _ => none
  | fuel + 1, some view =>
    match views view with
    | none => none
    | some v => (walkViews views fuel v.m_next).map fun rest => view :: rest

/-- `Display::drawViews`: the views on which `drawView()` is called, in the
order of the calls. -/
def Client.drawViews (fuel : Nat) (c : Client) : Option (List Nat) :=
  walkViews c.views fuel c.TheDisplay.m_viewList

/-- What `Display::draw` does, in order. -/
inductive DrawEvent where
  | drawView (view : Nat)
  | setViewClear
  | setViewRect (width height : Nat)
  | frame
deriving DecidableEq, Repr

/-- `Display::draw`. -/
def Client.draw (fuel : Nat) (c : Client) : Option (List DrawEvent) :=
  -- redraw all views
  (c.drawViews fuel).map fun drawn =>
    drawn.map DrawEvent.drawView ++
      [DrawEvent.setViewClear, DrawEvent.setViewRect c.TheDisplay.m_width c.TheDisplay.m_height,
       DrawEvent.frame]

/-- `Display::setDisplayMode(xres, yres, bitdepth, windowed)`; `none` when
`TheTacticalView`, which the function dereferences, points to no view. The
`Real` arguments of `setWidth`, `setHeight` and `setOrigin` are computed in
single precision and converted to their `Int` parameters (`scaledToDisplay`);
with an old display width or height of zero the quotients are not finite,
their conversion is undefined, and the result is `none`. -/
def Client.setDisplayMode (PI : ℚ) (c : Client) (xres yres : Nat) (_bitdepth : Nat)
    (_windowed : Bool) : Option Client :=
  match c.TheTacticalView with
  | none => none
  | some tactical =>
    match c.views tactical with
    | none => none
    | some view =>
      -- Get old values
      let oldDisplayHeight := c.TheDisplay.m_height
      let oldDisplayWidth := c.TheDisplay.m_width
      let oldViewWidth := view.m_width
      let oldViewHeight := view.m_height
      let oldViewOriginX := view.m_originX
      let oldViewOriginY := view.m_originY
      if oldDisplayWidth = 0 ∨ oldDisplayHeight = 0 then none else
      let display := c.TheDisplay.setWidth xres
      let display := display.setHeight yres
      -- Adjust view to match previous proportions
      let view := W3DView.setWidth PI display view
        (scaledToDisplay oldViewWidth oldDisplayWidth xres)
      let view := W3DView.setHeight display view
        (scaledToDisplay oldViewHeight oldDisplayHeight yres)
      let view := W3DView.setOrigin PI display view
        (scaledToDisplay oldViewOriginX oldDisplayWidth xres)
        (scaledToDisplay oldViewOriginY oldDisplayHeight yres)
      -- Apply world scaling if needed
      let worldScale := display.getWorldScale
      let view := View.setWorldScale view worldScale
      let c := { c with TheDisplay := display }
      some (c.writeView tactical view)

/-! ## Invariants of movie playback -/

/-- Before the last frame: the movie plays with the requested hold times, the
movie start time `t0`, and no copyright start time yet. -/
def PlayingInv (M C : Int) (t0 : Nat) (d : Display) : Prop :=
  d.isMoviePlaying = true ∧ d.m_movieHoldTime = M ∧ d.m_copyrightHoldTime = C ∧
    d.m_elapsedMovieTime = t0 ∧ d.m_elapsedCopywriteTime = 0

/-- From the last frame on, at clock reading `tl`: either the movie still plays
with its hold times untouched and the copyright start time `tc`, or both hold
times are over at `tl`. -/
def HoldInv (M C : Int) (t0 tc : Nat) (d : Display) (tl : Nat) : Prop :=
  tc ≤ tl ∧
  ((d.isMoviePlaying = true ∧ d.m_movieHoldTime = M ∧ d.m_copyrightHoldTime = C ∧
      d.m_elapsedMovieTime = t0 ∧ d.m_elapsedCopywriteTime = tc) ∨
    ((t0 : Int) + M < tl ∧ (tc : Int) + C < tl))

/-! ## Sample inputs of the camera code -/

/-- A camera at the origin with the identity transform. -/
def CameraClass.sample : CameraClass :=
  { Transform := Matrix3D.identity
    ZNear := 1
    ZFar := 1000
    AspectRatio := 4 / 3
    ViewportMin := ⟨0, 0⟩
    ViewportMax := ⟨1, 1⟩
    HFOV := 1
    VFOV := 1 }

/-- A bone transform whose translation is `(1000, 1000, 5)`. -/
def Matrix3D.sampleBone : Matrix3D :=
  ⟨⟨1, 0, 0, 1000⟩, ⟨0, 1, 0, 1000⟩, ⟨0, 0, 1, 5⟩⟩

/-- An object whose drawable has one draw module with an `ObjectDrawInterface`
that answers every bone with `Matrix3D.sampleBone`. -/
def Object.withBone : Object :=
  { getDrawable := some
      { getDrawModules :=
          [{ getObjectDrawInterface := some
              { clientOnly_getRenderObjBoneTransform := fun _ => Matrix3D.sampleBone } }] } }

/-- An object whose drawable has a single draw module, one without an
`ObjectDrawInterface`. -/
def Object.withoutInterface : Object :=
  { getDrawable := some { getDrawModules := [{ getObjectDrawInterface := none }] } }

/-- An object without a drawable. -/
def Object.withoutDrawable : Object :=
  { getDrawable := none }

/-- A concrete surrounding for the camera code: a 1000 x 1000 map, stand-ins
for the math library (cosine and sine by their second-order expansions, the
sum of the absolute values for the length of a vector, a translation for
`Look_At`, no rotational shake), and a script engine that knows the units
"CameraBone" (see `Object.withBone`), "NoInterface" (see
`Object.withoutInterface`) and "NoDrawable" (see `Object.withoutDrawable`). -/
def ViewEnv.sample : ViewEnv :=
  { PI := 355 / 113
    MAP_XY_FACTOR := 10
    cosf := fun a => 1 - a * a / 2
    sinf := fun a => a
    Look_At := fun _ p _ _ => ⟨⟨1, 0, 0, p.X⟩, ⟨0, 1, 0, p.Y⟩, ⟨0, 0, 1, p.Z⟩⟩
    Rotate_X := fun m _ => m
    Rotate_Y := fun m _ => m
    Rotate_Z := fun m _ => m
    Normalize := fun p => p
    Find_X_At_Z := fun z s e => s.X + (z - s.Z) * (e.X - s.X) / (e.Z - s.Z)
    Find_Y_At_Z := fun z s e => s.Y + (z - s.Z) * (e.Y - s.Y) / (e.Z - s.Z)
    length := fun c => |c.x| + |c.y| + |c.z|
    Get_Position := fun c => c.Transform.Get_Translation
    Un_Project := fun _ p => ⟨p.X, p.Y, 0⟩
    Get_Depth := fun c => c.ZFar
    PixelScreenToW3DLogicalScreen := fun x y w h =>
      ((2 * (x : ℚ) - w) / w, -((2 * (y : ℚ) - h) / h))
    Update_Camera_Shaker := fun _ _ _ => ⟨0, 0, 0⟩
    getUnitNamed := fun name =>
      if name = "CameraBone" then some Object.withBone
      else if name = "NoInterface" then some Object.withoutInterface
      else if name = "NoDrawable" then some Object.withoutDrawable
      else none
    isLetterBoxed := false
    TheTerrainLogic := some { getExtent := ⟨⟨0, 0, 0⟩, ⟨1000, 1000, 0⟩⟩ }
    TheGlobalData := { m_debugAI := false, m_drawEntireTerrain := false } }

/-- A concrete view: an 800 x 600 viewport, the free camera looking at
`(50, 50, 0)` from the offset `(0, -200, 300)` with zoom 1, no pitch, no yaw,
ground level 10 as set by the constructor, and a valid constraint
`[0, 100] x [0, 100]`. -/
def W3DView.sample : W3DView :=
  { m_next := none
    m_pos := ⟨50, 50, 0⟩
    m_width := 800
    m_height := 600
    m_originX := 0
    m_originY := 0
    m_angle := 0
    m_pitchAngle := 0
    m_zoom := 1
    m_worldScale := 1
    m_3DCamera := CameraClass.sample
    m_groundLevel := 10
    m_cameraOffset := ⟨0, -200, 300⟩
    m_shakeOffset := ⟨0, 0⟩
    m_shakeIntensity := 0
    m_shakerAngles := ⟨0, 0, 0⟩
    m_FXPitch := 1
    m_FOV := 0
    m_cameraConstraint := ⟨⟨0, 0⟩, ⟨100, 100⟩⟩
    m_cameraConstraintValid := true
    m_cameraHasMovedSinceRequest := false
    m_isCameraSlaved := false
    m_useRealZoomCam := false
    m_cameraSlaveObjectName := ""
    m_cameraSlaveObjectBoneName := ""
    shakerTime := 0 }

/-- The position lies inside the constraint. -/
def Region2D.contains (c : Region2D) (pos : Coord3D) : Prop :=
  c.lo.x ≤ pos.x ∧ pos.x ≤ c.hi.x ∧ c.lo.y ≤ pos.y ∧ pos.y ≤ c.hi.y

/-- The sample view with the camera slaved to the bone "Camera" of the unit
called `name`. -/
def W3DView.sampleSlaved (name : String) : W3DView :=
  { W3DView.sample with
    m_isCameraSlaved := true
    m_cameraSlaveObjectName := name
    m_cameraSlaveObjectBoneName := "Camera" }

/-- The sample view with its look-at position moved to `(5000, -3, 7)`, outside
the constraint. -/
def W3DView.sampleFar : W3DView :=
  { W3DView.sample with m_pos := ⟨5000, -3, 7⟩ }

/-- The sample view with the camera offset height configured as zero. -/
def W3DView.sampleFlat : W3DView :=
  { W3DView.sample with m_cameraOffset := ⟨0, -200, 0⟩ }

/-- The sample view with camera offset height 20 and zoom 1/2: the scaled
offset height is 10, the ground level. -/
def W3DView.sampleGround : W3DView :=
  { W3DView.sample with m_cameraOffset := ⟨0, -200, 20⟩, m_zoom := 1 / 2 }

/-- The sample view with the real zoom camera switched on and zoom 1/2. -/
def W3DView.sampleRealZoom : W3DView :=
  { W3DView.sample with m_useRealZoomCam := true, m_zoom := 1 / 2 }

/-- The surrounding `env` with `TheGlobalData->m_debugAI` set to `b`. -/
def ViewEnv.withDebugAI (env : ViewEnv) (b : Bool) : ViewEnv :=
  { env with TheGlobalData := { env.TheGlobalData with m_debugAI := b } }

/-- A stream of two frames, 640 x 480, standing on its first frame. -/
def VideoStream.sample : VideoStream :=
  { frameIndex := 0, frameCount := 2, width := 640, height := 480 }

/-- A successful start of playback at clock reading 10000. -/
def PlayEnv.sample : PlayEnv :=
  { opened := some VideoStream.sample, created := true, allocated := true, now := 10000 }

/-! ## Fans of the dynamic mesh -/

/-- The state reached in fan mode, `j` vertices after a primitive reset that
happened with `v0` vertices and `p0` polygons in a mesh with room for `P`
polygons and `V` vertices: `old` is the polygon array at the reset. -/
structure FanInv (P V : Int) (f v0 p0 : Int) (old : List TriIndex) (j : Nat)
    (m : DynamicMeshClass) : Prop where
  mode : m.TriMode = .TRI_MODE_FANS
  fan : m.FanVertex = f
  vc : m.VertCount = v0 + j
  tvc : m.TriVertexCount = j
  pc : m.PolyCount = p0 + ((j - 2 : Nat) : Int)
  maxP : m.Model.PolyCount = P
  maxV : m.Model.VertexCount = V
  len : m.Model.Poly.length = old.length
  new : ∀ k : Nat, k < j - 2 →
    m.Model.Poly[p0.toNat + k]? = some ⟨f, v0 + k + 1, v0 + k + 2⟩
  kept : ∀ i : Nat, i < p0.toNat → m.Model.Poly[i]? = old[i]?

/-- A fresh mesh switched to fan mode, as after `Begin_Tri_Fan`: room for three
polygons and five vertices. -/
def DynamicMeshClass.sampleFan : DynamicMeshClass :=
  { DynamicMeshClass.new 3 5 4 2 1 with TriMode := .TRI_MODE_FANS }

/-! ## Streams held by the display -/

/-- The display holds every stream that the player has open for it: the
number of open streams is 1 when `m_videoStream` is set and 0 otherwise. -/
def Display.streamsCoherent (d : Display) : Prop :=
  d.openStreams = if d.m_videoStream.isSome then 1 else 0

instance (d : Display) : Decidable d.streamsCoherent := by
  unfold Display.streamsCoherent
  infer_instance

/-- The video player cannot open the stream. -/
def PlayEnv.cannotOpen : PlayEnv :=
  { opened := none, created := true, allocated := true, now := 10000 }

/-- A display on which the sample stream is playing. -/
def Display.samplePlaying : Display :=
  Display.new.playMovie PlayEnv.sample "Intro"

/-! ## Sample inputs of the display code -/

/-- A display of 1920 x 1080 without views. -/
def Display.sampleHD : Display :=
  (Display.new.setWidth 1920).setHeight 1080

/-- The sample view as it is when it covers a display of 1920 x 1080. -/
def W3DView.sampleFull : W3DView :=
  { W3DView.sample with m_width := 1920, m_height := 1080 }

/-- A display of 1920 x 1080 and two views that are not attached yet: the
tactical view at address 0, which covers the display, and an 800 x 600 view at
address 1. -/
def Client.sample : Client :=
  { TheDisplay := Display.sampleHD
    TheTacticalView := some 0
    views := fun a =>
      if a = 0 then some W3DView.sampleFull
      else if a = 1 then some W3DView.sample
      else none }

/-- The sample view as a banner of 1920 x 375. -/
def W3DView.sampleBanner : W3DView :=
  { W3DView.sample with m_width := 1920, m_height := 375 }

/-- A display of 1920 x 1080 whose tactical view, at address 0, is the banner
of 1920 x 375. -/
def Client.sampleBanner : Client :=
  { TheDisplay := Display.sampleHD
    TheTacticalView := some 0
    views := fun a => if a = 0 then some W3DView.sampleBanner else none }

/-- The sample client after `attachView` of the tactical view and then of the
view at address 1. -/
def Client.sampleLinked : Client :=
  { TheDisplay := { Display.sampleHD with m_viewList := some 1 }
    TheTacticalView := some 0
    views := fun a =>
      if a = 0 then some W3DView.sampleFull
      else if a = 1 then some { W3DView.sample with m_next := some 0 }
      else none }

/-! ## Sample inputs of the constraint code -/

/-- The sample surroundings with no terrain loaded (`TheTerrainLogic` null). -/
def ViewEnv.noTerrain : ViewEnv :=
  { ViewEnv.sample with TheTerrainLogic := none }

/-- The sample view at `(5000, -3, 7)`, outside the stored constraint bounds,
with the constraint marked invalid. -/
def W3DView.sampleStale : W3DView :=
  { W3DView.sampleFar with m_cameraConstraintValid := false }

/-- The statement `m_3DCamera->Set_Transform( cameraTransform )` that follows
each `buildCameraTransform( &cameraTransform )` in `setCameraTransform`. -/
def BuildResult.submit (r : BuildResult) : W3DView :=
  { r.view with m_3DCamera := r.view.m_3DCamera.Set_Transform r.transform }

/-- The view `v` with the constraint bounds `r` in place of its own. -/
def W3DView.withConstraint (v : W3DView) (r : Region2D) : W3DView :=
  { v with m_cameraConstraint := r }

/-- The first statements of `setCameraTransform`, up to and including
`m_3DCamera->Set_Clip_Planes(nearZ, farZ)`. -/
def W3DView.withClipPlanes (env : ViewEnv) (v : W3DView) : W3DView :=
  let v := { v with m_cameraHasMovedSinceRequest := true }
  let nearZ := env.MAP_XY_FACTOR
  let farZ : ℚ := 1200
  let farZ :=
    if v.m_useRealZoomCam then
      if v.m_FXPitch < 19 / 20 then farZ / v.m_FXPitch else farZ
    else
      if env.TheGlobalData.m_drawEntireTerrain ∨ (v.m_FXPitch < 19 / 20 ∨ v.m_zoom > 21 / 20) then
        farZ * env.MAP_XY_FACTOR
      else farZ
  { v with m_3DCamera := v.m_3DCamera.Set_Clip_Planes nearZ farZ }

/-! ## Material state, reset and screen mapping of the dynamic mesh (dynamesh.cpp) -/

/-- Modelled from the spec: `MeshGeometryClass::Reset_Geometry(polycount,
vertcount)` (meshgeometry.h is not among the sources): "restores it to empty
... without reallocating capacity": the geometry has room for `polycount`
polygons and `vertcount` vertices, all of them zero. -/
def DynamicMeshModel.Reset_Geometry (m : DynamicMeshModel) (polycount vertcount : Int) :
    DynamicMeshModel :=
  { m with
    PolyCount := polycount
    VertexCount := vertcount
    Poly := List.replicate polycount.toNat ⟨0, 0, 0⟩
    Vertex := List.replicate vertcount.toNat ⟨0, 0, 0⟩ }

/-- Modelled from the spec: `MeshMatDescClass::Reset(polycount, vertcount,
passcount)` (meshmatdesc.h is not among the sources): the material description
is "single-valued" again, with `passcount` passes and none of the earlier
writes. -/
def DynamicMeshModel.MatDesc_Reset (m : DynamicMeshModel) (_polycount _vertcount : Int)
    (passcount : Nat) : DynamicMeshModel :=
  { m with PassCount := passcount, MatDescLog := [] }

/-- `DynamicMeshModel::Reset`. -/
def DynamicMeshModel.Reset (m : DynamicMeshModel) : DynamicMeshModel :=
  let m := m.Set_Counts 0 0
  let polycount := m.PolyCount
  let vertcount := m.VertexCount
  let m := m.Reset_Geometry polycount vertcount
  let m := m.MatDesc_Reset polycount vertcount 1
  -- REF_PTR_RELEASE(MatInfo); MatInfo = NEW_REF(MaterialInfoClass, ());
  { m with MatInfo := ⟨[], []⟩ }

/-- Modelled from the spec: `DynamicMeshClass::Reset_Flags` is declared in the
part of dynamesh.h that is missing from the sources: `reset()` restores
"per-pass flags to single value", and the promotion it undoes is "per
pass/color-channel". -/
def DynamicMeshClass.Reset_Flags (m : DynamicMeshClass) : DynamicMeshClass :=
  { m with
    MultiTexture := m.MultiTexture.map fun _ => false
    MultiVertexMaterial := m.MultiVertexMaterial.map fun _ => false
    MultiVertexColor := m.MultiVertexColor.map fun _ => false }

/-- Modelled from the spec: `DynamicMeshClass::Reset_Mesh_Counters` is declared
in the part of dynamesh.h that is missing from the sources: `reset()`
"restores counts to zero", the current polygon and vertex counts of the mesh
and of its model. -/
def DynamicMeshClass.Reset_Mesh_Counters (m : DynamicMeshClass) : DynamicMeshClass :=
  { m with
    Model := m.Model.Set_Counts 0 0
    PolyCount := 0
    VertCount := 0 }

/-- `DynamicScreenMeshClass`: its base class object and the member `Aspect`,
the aspect ratio of the virtual screen. -/
structure DynamicScreenMeshClass where
  mesh : DynamicMeshClass
  Aspect : ℚ
deriving DecidableEq, Repr

/-- `DynamicScreenMeshClass::Reset`. -/
def DynamicScreenMeshClass.Reset (s : DynamicScreenMeshClass) : DynamicScreenMeshClass :=
  let mesh := s.mesh.Reset_Flags
  let mesh := mesh.Reset_Mesh_Counters
  { s with mesh := mesh }

/-- `DynamicMeshClass::Location`: `none` when `VertCount` is no index of the
vertex array (the write would be out of bounds). -/
def DynamicMeshClass.Location (m : DynamicMeshClass) (x y z : ℚ) : Option DynamicMeshClass :=
  if 0 ≤ m.VertCount ∧ m.VertCount.toNat < m.Model.Vertex.length then
    some { m with
           Model := { m.Model with Vertex := m.Model.Vertex.set m.VertCount.toNat ⟨x, y, z⟩ } }
  else none

/-- `DynamicMeshClass::Move_Vertex`: `none` when `index` is no index of the
vertex array (the write would be out of bounds). -/
def DynamicMeshClass.Move_Vertex (m : DynamicMeshClass) (index : Int) (x y z : ℚ) :
    Option DynamicMeshClass :=
  if 0 ≤ index ∧ index.toNat < m.Model.Vertex.length then
    some { m with Model := { m.Model with Vertex := m.Model.Vertex.set index.toNat ⟨x, y, z⟩ } }
  else none

/-- `DynamicScreenMeshClass::Location`: remap locations to match a screen. -/
def DynamicScreenMeshClass.Location (s : DynamicScreenMeshClass) (x y _z : ℚ) :
    Option DynamicScreenMeshClass :=
  (s.mesh.Location ((x * 2) - 1) (s.Aspect - (y * 2 * s.Aspect)) 0).map fun mesh =>
    { s with mesh := mesh }

/-- `DynamicScreenMeshClass::Move_Vertex`. -/
def DynamicScreenMeshClass.Move_Vertex (s : DynamicScreenMeshClass) (index : Int) (x y _z : ℚ) :
    Option DynamicScreenMeshClass :=
  (s.mesh.Move_Vertex index ((x * 2) - 1) (s.Aspect - (y * 2 * s.Aspect)) 0).map fun mesh =>
    { s with mesh := mesh }

/-- The search loops of `Set_Texture` and `Set_Vertex_Material`:
`for (lp = 0; lp < count; lp++) if (value == list[lp]) { idx = lp; found = true; break; }`,
here from index `lp` on over the rest of the list: the index found, if any. -/
def searchFrom (value : Nat) : List Nat → Nat → Option Nat
  | [], _ => none
  | x :: rest, lp => if value = x then some lp else searchFrom value rest (lp + 1)

/-- Modelled from the spec: `MaterialInfoClass::Add_Texture` (matinfo.h is not
among the sources) adds the texture at the end of the texture list; the
statement after it, `TextureIdx[pass] = Texture_Count() - 1`, is included. -/
def DynamicMeshClass.addTexture (m : DynamicMeshClass) (texture : Nat) (pass : Nat) :
    DynamicMeshClass :=
  let textures := m.Model.MatInfo.Textures ++ [texture]
  { m with
    Model := { m.Model with MatInfo := { m.Model.MatInfo with Textures := textures } }
    TextureIdx := m.TextureIdx.set pass ((textures.length : Int) - 1) }

/-- Modelled from the spec: `MaterialInfoClass::Add_Vertex_Material` (matinfo.h
is not among the sources) adds the material at the end of the material list;
the statement after it, `VertexMaterialIdx[pass] = Vertex_Material_Count() - 1`,
is included. -/
def DynamicMeshClass.addVertexMaterial (m : DynamicMeshClass) (material : Nat) (pass : Nat) :
    DynamicMeshClass :=
  let materials := m.Model.MatInfo.VertexMaterials ++ [material]
  { m with
    Model := { m.Model with MatInfo := { m.Model.MatInfo with VertexMaterials := materials } }
    VertexMaterialIdx := m.VertexMaterialIdx.set pass ((materials.length : Int) - 1) }

/-- A write to the material description of the model. -/
def DynamicMeshClass.logMatDesc (m : DynamicMeshClass) (call : MatDescCall) : DynamicMeshClass :=
  { m with Model := { m.Model with MatDescLog := m.Model.MatDescLog ++ [call] } }

/-- The block "if there are textures in the list then we may have just jumped
to becoming a multi-texture object" of `Set_Texture`. -/
def DynamicMeshClass.promoteTexture (m : DynamicMeshClass) (texture : Nat) (pass : Nat) :
    DynamicMeshClass :=
  let textures := m.Model.MatInfo.Textures
  let idx := m.TextureIdx.getD pass (-1)
  if ¬ (m.MultiTexture.getD pass false = true) ∧ textures.length ≠ 0 ∧ idx ≠ -1 ∧
      entryAt textures idx ≠ some texture then
    -- allocate the array of per polygon material over-rides
    let m := m.logMatDesc (.Initialize_Texture_Array pass (entryAt textures idx))
    -- flag that we need to write the per polygon material overide array
    { m with MultiTexture := m.MultiTexture.set pass true }
  else m

/-- The block "add the material to the material info class if we cant find it
in the list" of `Set_Texture`. -/
def DynamicMeshClass.findOrAddTexture (m : DynamicMeshClass) (texture : Nat)
    (dont_search : Bool) (pass : Nat) : DynamicMeshClass :=
  if ¬ (dont_search = true) then
    match searchFrom texture m.Model.MatInfo.Textures 0 with
    | some lp => { m with TextureIdx := m.TextureIdx.set pass lp }
    | none => m.addTexture texture pass
  else m.addTexture texture pass

/-- The block `if (!MultiTexture[pass]) { ... Set_Single_Texture(tex, pass); }`
at the end of both `Set_Texture` functions. -/
def DynamicMeshClass.applySingleTexture (m : DynamicMeshClass) (pass : Nat) : DynamicMeshClass :=
  if ¬ (m.MultiTexture.getD pass false = true) then
    m.logMatDesc (.Set_Single_Texture
      (entryAt m.Model.MatInfo.Textures (m.TextureIdx.getD pass (-1))) pass)
  else m

/-- `DynamicMeshClass::Set_Texture(TextureClass *texture, bool dont_search, int
pass)`: the mesh afterwards and the index returned. `none` when `pass` is no
index of the per-pass arrays. -/
def DynamicMeshClass.Set_Texture (m : DynamicMeshClass) (texture : Nat) (dont_search : Bool)
    (pass : Nat) : Option (DynamicMeshClass × Int) :=
  if ¬ (pass < m.MultiTexture.length ∧ pass < m.TextureIdx.length) then none else
  let textures := m.Model.MatInfo.Textures
  let idx := m.TextureIdx.getD pass (-1)
  -- Check if same as the last texture
  if textures.length ≠ 0 ∧ idx ≠ -1 ∧ entryAt textures idx = some texture then
    some (m, idx)
  else
    let m := m.promoteTexture texture pass
    let m := m.findOrAddTexture texture dont_search pass
    let m := m.applySingleTexture pass
    some (m, m.TextureIdx.getD pass (-1))

/-- `DynamicMeshClass::Set_Texture(int idx, int pass)`: `none` when the
`WWASSERT` fails or `pass` is no index of the per-pass arrays. -/
def DynamicMeshClass.Set_Texture_idx (m : DynamicMeshClass) (idx : Int) (pass : Nat) :
    Option (DynamicMeshClass × Int) :=
  if ¬ (pass < m.MultiTexture.length ∧ pass < m.TextureIdx.length) then none else
  if ¬ (idx < (m.Model.MatInfo.Textures.length : Int)) then none else
  let m := { m with TextureIdx := m.TextureIdx.set pass idx }
  let m := m.applySingleTexture pass
  some (m, m.TextureIdx.getD pass (-1))

/-- The block "if there are vertex materials in the list then we may have just
jumped to becoming a multi-vertex-material object" of `Set_Vertex_Material`. -/
def DynamicMeshClass.promoteVertexMaterial (m : DynamicMeshClass) (material : Nat) (pass : Nat) :
    DynamicMeshClass :=
  let materials := m.Model.MatInfo.VertexMaterials
  let idx := m.VertexMaterialIdx.getD pass (-1)
  if ¬ (m.MultiVertexMaterial.getD pass false = true) ∧ materials.length ≠ 0 ∧ idx ≠ -1 ∧
      entryAt materials idx ≠ some material then
    -- allocate the array of per-vertex vertex material overrides
    let m := m.logMatDesc (.Initialize_Material_Array pass (entryAt materials idx))
    -- flag that we need to write the per-vertex vertex material override array
    { m with MultiVertexMaterial := m.MultiVertexMaterial.set pass true }
  else m

/-- The block "add the material to the material info class if we cant find it
in the list" of `Set_Vertex_Material`. -/
def DynamicMeshClass.findOrAddVertexMaterial (m : DynamicMeshClass) (material : Nat)
    (dont_search : Bool) (pass : Nat) : DynamicMeshClass :=
  if ¬ (dont_search = true) then
    match searchFrom material m.Model.MatInfo.VertexMaterials 0 with
    | some lp => { m with VertexMaterialIdx := m.VertexMaterialIdx.set pass lp }
    | none => m.addVertexMaterial material pass
  else m.addVertexMaterial material pass

/-- The block `if (!MultiVertexMaterial[pass]) { ... Set_Single_Material(mat,
pass); }` at the end of both `Set_Vertex_Material` functions. -/
def DynamicMeshClass.applySingleMaterial (m : DynamicMeshClass) (pass : Nat) :
    DynamicMeshClass :=
  if ¬ (m.MultiVertexMaterial.getD pass false = true) then
    m.logMatDesc (.Set_Single_Material
      (entryAt m.Model.MatInfo.VertexMaterials (m.VertexMaterialIdx.getD pass (-1))) pass)
  else m

/-- `DynamicMeshClass::Set_Vertex_Material(VertexMaterialClass *material, bool
dont_search, int pass)`: the mesh afterwards and the index returned. `none`
when `pass` is no index of the per-pass arrays. -/
def DynamicMeshClass.Set_Vertex_Material (m : DynamicMeshClass) (material : Nat)
    (dont_search : Bool) (pass : Nat) : Option (DynamicMeshClass × Int) :=
  if ¬ (pass < m.MultiVertexMaterial.length ∧ pass < m.VertexMaterialIdx.length) then none else
  let materials := m.Model.MatInfo.VertexMaterials
  let idx := m.VertexMaterialIdx.getD pass (-1)
  -- Check if same as the last vertex material
  if materials.length ≠ 0 ∧ idx ≠ -1 ∧ entryAt materials idx = some material then
    some (m, idx)
  else
    let m := m.promoteVertexMaterial material pass
    let m := m.findOrAddVertexMaterial material dont_search pass
    let m := m.applySingleMaterial pass
    some (m, m.VertexMaterialIdx.getD pass (-1))

/-- `DynamicMeshClass::Set_Vertex_Material(int idx, int pass)`: `none` when the
`assert` fails or `pass` is no index of the per-pass arrays. -/
def DynamicMeshClass.Set_Vertex_Material_idx (m : DynamicMeshClass) (idx : Int) (pass : Nat) :
    Option (DynamicMeshClass × Int) :=
  if ¬ (pass < m.MultiVertexMaterial.length ∧ pass < m.VertexMaterialIdx.length) then none else
  if ¬ (idx < (m.Model.MatInfo.VertexMaterials.length : Int)) then none else
  let m := { m with VertexMaterialIdx := m.VertexMaterialIdx.set pass idx }
  let m := m.applySingleMaterial pass
  some (m, m.VertexMaterialIdx.getD pass (-1))

/-- One call of the material interface of the mesh. -/
inductive MaterialCall where
  | Set_Texture (texture : Nat) (dont_search : Bool) (pass : Nat)
  | Set_Texture_idx (idx : Int) (pass : Nat)
  | Set_Vertex_Material (material : Nat) (dont_search : Bool) (pass : Nat)
  | Set_Vertex_Material_idx (idx : Int) (pass : Nat)
deriving DecidableEq, Repr

/-- The mesh after the call, `none` when the call fails. -/
def DynamicMeshClass.call (m : DynamicMeshClass) : MaterialCall → Option DynamicMeshClass
  | .Set_Texture texture dont_search pass =>
    (m.Set_Texture texture dont_search pass).map Prod.fst
  | .Set_Texture_idx idx pass => (m.Set_Texture_idx idx pass).map Prod.fst
  | .Set_Vertex_Material material dont_search pass =>
    (m.Set_Vertex_Material material dont_search pass).map Prod.fst
  | .Set_Vertex_Material_idx idx pass => (m.Set_Vertex_Material_idx idx pass).map Prod.fst

/-- A sequence of calls of the material interface, oldest first. -/
def DynamicMeshClass.calls : DynamicMeshClass → List MaterialCall → Option DynamicMeshClass
  | m, [] => some m
  | m, c :: rest => (m.call c).bind fun m1 => DynamicMeshClass.calls m1 rest

/-- A screen mesh with room for three polygons and five vertices on a virtual
screen of aspect ratio 3/4. -/
def DynamicScreenMeshClass.sample : DynamicScreenMeshClass :=
  { mesh := { DynamicMeshClass.new 3 5 4 2 1 with ClassId := .CLASSID_DYNASCREENMESH }
    Aspect := 3 / 4 }

/-- A fresh mesh after `Set_Texture(7, false, 0)`: texture 7 is the only
texture of the list and the current texture of pass 0. -/
def DynamicMeshClass.sampleOneTexture : DynamicMeshClass :=
  ((DynamicMeshClass.new 3 5 4 2 1).findOrAddTexture 7 false 0).applySingleTexture 0

/-- The calls `Set_Texture(5, true, 0)`, `Set_Texture(6, true, 0)`,
`Set_Texture(5, true, 0)`: texture 5 is added to the list twice. -/
def MaterialCall.sampleTwice : List MaterialCall :=
  [.Set_Texture 5 true 0, .Set_Texture 6 true 0, .Set_Texture 5 true 0]

/-! ## Pixel format table (formconv.cpp) -/

/-- The enumerators of `bgfx::TextureFormat::Enum` that the conversion table
names. -/
inductive TextureFormat where
  | Unknown
  | RGB8
  | RGBA8
  | BGRA8
  | RGB565
  | R8
  | RG8
  | BC1
  | BC2
  | BC3
deriving DecidableEq, Repr

/-- The initialisers of `WW3DFormatToBGFXFormatConversionArray`, in order; the
comment of each names the internal format it stands for. -/
def WW3DFormatToBGFXFormatConversionArray : List TextureFormat :=
  [ .Unknown, -- WW3D_FORMAT_UNKNOWN
    .RGB8,    -- WW3D_FORMAT_R8G8B8
    .RGBA8,   -- WW3D_FORMAT_A8R8G8B8
    .BGRA8,   -- WW3D_FORMAT_X8R8G8B8 (approx)
    .RGB565,  -- WW3D_FORMAT_R5G6B5
    .Unknown, -- WW3D_FORMAT_X1R5G5B5
    .Unknown, -- WW3D_FORMAT_A1R5G5B5
    .Unknown, -- WW3D_FORMAT_A4R4G4B4
    .Unknown, -- WW3D_FORMAT_R3G3B2
    .R8,      -- WW3D_FORMAT_A8
    .Unknown, -- WW3D_FORMAT_A8R3G3B2
    .Unknown, -- WW3D_FORMAT_X4R4G4B4
    .Unknown, -- WW3D_FORMAT_A8P8
    .Unknown, -- WW3D_FORMAT_P8
    .R8,      -- WW3D_FORMAT_L8
    .RG8,     -- WW3D_FORMAT_A8L8
    .Unknown, -- WW3D_FORMAT_A4L4
    .RG8,     -- WW3D_FORMAT_V8U8 (bumpmap)
    .Unknown, -- WW3D_FORMAT_L6V5U5
    .Unknown, -- WW3D_FORMAT_X8L8V8U8
    .BC1,     -- WW3D_FORMAT_DXT1
    .BC2,     -- WW3D_FORMAT_DXT2
    .BC2,     -- WW3D_FORMAT_DXT3
    .BC3,     -- WW3D_FORMAT_DXT4
    .BC3 ]    -- WW3D_FORMAT_DXT5

/-- The values of the enumerators of `WW3DFormat` that the theorems name.
ww3dformat.h is not among the sources: an enumerator has the position at
which the comments of the conversion table name it. -/
def WW3D_FORMAT_UNKNOWN : Nat := 0

/-- See `WW3D_FORMAT_UNKNOWN`. -/
def WW3D_FORMAT_DXT1 : Nat := 20

/-- See `WW3D_FORMAT_UNKNOWN`. -/
def WW3D_FORMAT_DXT2 : Nat := 21

/-- See `WW3D_FORMAT_UNKNOWN`. -/
def WW3D_FORMAT_DXT3 : Nat := 22

/-- See `WW3D_FORMAT_UNKNOWN`. -/
def WW3D_FORMAT_DXT4 : Nat := 23

/-- See `WW3D_FORMAT_UNKNOWN`. -/
def WW3D_FORMAT_DXT5 : Nat := 24

/-- `WW3DFormat_To_BGFXFormat`. `WW3D_FORMAT_COUNT` is a constant of
ww3dformat.h, which is not among the sources, and a parameter here. The array
is declared with `WW3D_FORMAT_COUNT` elements: one beyond its initialisers is
value-initialised and holds `zeroFormat`, the enumerator of value 0. -/
def WW3DFormat_To_BGFXFormat (WW3D_FORMAT_COUNT : Nat) (zeroFormat : TextureFormat)
    (ww3d_format : Nat) : TextureFormat :=
  if ww3d_format ≥ WW3D_FORMAT_COUNT then
    .Unknown
  else
    WW3DFormatToBGFXFormatConversionArray.getD ww3d_format zeroFormat

/-! ## GPU buffer wrappers (BGFXVertexBuffer.cpp, BGFXIndexBuffer.cpp) -/

/-- `BGFXVertexBuffer`. The handle is `none` for `BGFX_INVALID_HANDLE`, so that
`bgfx::isValid(m_handle)` is `m_handle.isSome`. -/
structure BGFXVertexBuffer where
  m_handle : Option Nat
  m_dynamic : Bool
  m_vertexSize : Nat
  m_numVertices : Nat
deriving DecidableEq, Repr

/-- `BGFXVertexBuffer::BGFXVertexBuffer()`. -/
def BGFXVertexBuffer.new : BGFXVertexBuffer :=
  { m_handle := none, m_dynamic := false, m_vertexSize := 0, m_numVertices := 0 }

/-- `BGFXVertexBuffer::Destroy`. -/
def BGFXVertexBuffer.Destroy (b : BGFXVertexBuffer) : BGFXVertexBuffer :=
  if b.m_handle.isSome then
    -- bgfx::destroy(m_handle)
    { b with m_handle := none }
  else b

/-- `BGFXVertexBuffer::Create`: the buffer afterwards and the value returned;
`created` is the handle that `bgfx::createVertexBuffer` returns. -/
def BGFXVertexBuffer.Create (b : BGFXVertexBuffer) (vertexSize numVertices : Nat)
    (created : Option Nat) : BGFXVertexBuffer × Bool :=
  let b := b.Destroy
  let b := { b with m_vertexSize := vertexSize }
  let b := { b with m_numVertices := numVertices }
  let b := { b with m_dynamic := false }
  let b := { b with m_handle := created }
  (b, b.m_handle.isSome)

/-- `BGFXVertexBuffer::Update`: the buffer afterwards and the value returned. -/
def BGFXVertexBuffer.Update (b : BGFXVertexBuffer) (_vertexSize _numVertices : Nat) :
    BGFXVertexBuffer × Bool :=
  if ¬ (b.m_dynamic = true) ∨ ¬ (b.m_handle.isSome = true) then (b, false)
  else
    -- For dynamic buffers, use bgfx::update. Not implemented in this stub
    (b, false)

/-- `BGFXIndexBuffer`. The handle is `none` for `BGFX_INVALID_HANDLE`. -/
structure BGFXIndexBuffer where
  m_handle : Option Nat
  m_dynamic : Bool
  m_indexSize : Nat
  m_numIndices : Nat
deriving DecidableEq, Repr

/-- `BGFXIndexBuffer::BGFXIndexBuffer()`. -/
def BGFXIndexBuffer.new : BGFXIndexBuffer :=
  { m_handle := none, m_dynamic := false, m_indexSize := 0, m_numIndices := 0 }

/-- `BGFXIndexBuffer::Destroy`. -/
def BGFXIndexBuffer.Destroy (b : BGFXIndexBuffer) : BGFXIndexBuffer :=
  if b.m_handle.isSome then
    -- bgfx::destroy(m_handle)
    { b with m_handle := none }
  else b

/-- `BGFXIndexBuffer::Create`: the buffer afterwards and the value returned;
`created` is the handle that `bgfx::createIndexBuffer` returns. -/
def BGFXIndexBuffer.Create (b : BGFXIndexBuffer) (indexSize numIndices : Nat)
    (created : Option Nat) : BGFXIndexBuffer × Bool :=
  let b := b.Destroy
  let b := { b with m_indexSize := indexSize }
  let b := { b with m_numIndices := numIndices }
  let b := { b with m_dynamic := false }
  let b := { b with m_handle := created }
  (b, b.m_handle.isSome)

/-- `BGFXIndexBuffer::Update`: the buffer afterwards and the value returned. -/
def BGFXIndexBuffer.Update (b : BGFXIndexBuffer) (_indexSize _numIndices : Nat) :
    BGFXIndexBuffer × Bool :=
  if ¬ (b.m_dynamic = true) ∨ ¬ (b.m_handle.isSome = true) then (b, false)
  else
    -- For dynamic buffers, use bgfx::update. Not implemented in this stub
    (b, false)

/-- One call on a buffer wrapper; `created` is what the backend returns to
`Create`. -/
inductive BufferCall where
  | Create (elementSize count : Nat) (created : Option Nat)
  | Update (elementSize count : Nat)
  | Destroy
deriving DecidableEq, Repr

/-- The vertex buffer after the call. -/
def BGFXVertexBuffer.call (b : BGFXVertexBuffer) : BufferCall → BGFXVertexBuffer
  | .Create elementSize count created => (b.Create elementSize count created).1
  | .Update elementSize count => (b.Update elementSize count).1
  | .Destroy => b.Destroy

/-- The index buffer after the call. -/
def BGFXIndexBuffer.call (b : BGFXIndexBuffer) : BufferCall → BGFXIndexBuffer
  | .Create elementSize count created => (b.Create elementSize count created).1
  | .Update elementSize count => (b.Update elementSize count).1
  | .Destroy => b.Destroy

/-- The vertex buffer after a sequence of calls, oldest first. -/
def BGFXVertexBuffer.calls (b : BGFXVertexBuffer) (cs : List BufferCall) : BGFXVertexBuffer :=
  cs.foldl BGFXVertexBuffer.call b

/-- The index buffer after a sequence of calls, oldest first. -/
def BGFXIndexBuffer.calls (b : BGFXIndexBuffer) (cs : List BufferCall) : BGFXIndexBuffer :=
  cs.foldl BGFXIndexBuffer.call b

/-! ## Angle normalisation (W3DView.cpp) -/

/-- The loop `while (angle < -PI) { angle += 2*PI; }` of `normAngle`; `fuel`
bounds the number of iterations, `none` when it runs out. -/
def normAngle.raise (PI : ℚ) : Nat → ℚ → Option ℚ
  | fuel, angle =>
    if angle < -PI then
      match fuel with
      | 0 => none
      | fuel + 1 => normAngle.raise PI fuel (angle + 2 * PI)
    else some angle

/-- The loop `while (angle > PI) { angle -= 2*PI; }` of `normAngle`; `fuel`
bounds the number of iterations, `none` when it runs out. -/
def normAngle.lower (PI : ℚ) : Nat → ℚ → Option ℚ
  | fuel, angle =>
    if angle > PI then
      match fuel with
      | 0 => none
      | fuel + 1 => normAngle.lower PI fuel (angle - 2 * PI)
    else some angle

/-- `static void normAngle(Real &angle)`: the value of `angle` afterwards;
`fuel` bounds the iterations of each loop. -/
def normAngle (PI : ℚ) (fuel : Nat) (angle : ℚ) : Option ℚ :=
  let angle := if angle < -10 * PI then 0 else angle
  let angle := if angle > 10 * PI then 0 else angle
  (normAngle.raise PI fuel angle).bind fun angle => normAngle.lower PI fuel angle

/-! ## A logo movie interrupted during its copyright hold -/

/-- A logo movie started at clock reading 10000 with hold times 500 and 5000,
updated until its last frame has started the copyright hold at 10200, and
then stopped. -/
def Display.sampleInterrupted : Display :=
  ((Display.new.playLogoMovie PlayEnv.sample "Logo" 500 5000).updates
    [⟨true, 10100⟩, ⟨true, 10200⟩]).stopMovie

/-- A successful start of playback at clock reading 20000. -/
def PlayEnv.sampleLater : PlayEnv :=
  { opened := some VideoStream.sample, created := true, allocated := true, now := 20000 }

/-- A second logo movie, started at 20000 with hold times 500 and 5000 on the
display on which the first one was interrupted. -/
def Display.sampleSecond : Display :=
  Display.sampleInterrupted.playLogoMovie PlayEnv.sampleLater "Second" 500 5000

/-- The updates of the second movie: its first frame at 20100, its last frame
at 21000 and again at 21010. -/
def UpdateEnv.sampleSecond : List UpdateEnv :=
  [⟨true, 20100⟩, ⟨true, 21000⟩, ⟨true, 21010⟩]

/-! ## A logo movie started shortly before the clock wraps around -/

/-- A successful start of playback at clock reading 4294966000, 1296 ms before
the 32-bit millisecond counter wraps around. -/
def PlayEnv.sampleBeforeWrap : PlayEnv :=
  { opened := some VideoStream.sample, created := true, allocated := true, now := 4294966000 }

/-- The updates after that start: the first frame 100 ms after the start, the
last frame 500 ms after the start and again 600 ms after the start. -/
def UpdateEnv.sampleBeforeWrap : List UpdateEnv :=
  [⟨true, 4294966100⟩, ⟨true, 4294966500⟩, ⟨true, 4294966600⟩]

/-! ## Sample inputs of the clamp -/

/-- The sample view shaken by `(1000, -1000)`: the shaken position
`(1050, -950)` lies outside the constraint `[0, 100] x [0, 100]`. -/
def W3DView.sampleShaken : W3DView :=
  { W3DView.sample with m_shakeOffset := ⟨1000, -1000⟩ }

/-- Bounds that are inverted on the `x` axis: `lo.x = 60 > hi.x = 40`. -/
def Region2D.sampleInverted : Region2D :=
  ⟨⟨60, 0⟩, ⟨40, 100⟩⟩

/-! ## Sample inputs of the aspect ratio -/

/-- The sample view with world scale 4/3. -/
def W3DView.sampleScaled : W3DView :=
  { W3DView.sample with m_worldScale := 4 / 3 }

/-! ## Strips of the dynamic mesh -/

theorem stripInv_new (P V a b c : Nat) : StripInv P V 0 (DynamicMeshClass.new P V a b c) := by
  constructor <;> simp [DynamicMeshClass.new, DynamicMeshModel.new]

theorem stripInv_step (P V j : Nat) (m : DynamicMeshClass) (h : StripInv P V j m)
    (hv : j < V) (hp : j + 1 - 2 ≤ P) :
    ∃ m', m.End_Vertex = some m' ∧ StripInv P V (j + 1) m' := by
  obtain ⟨cls, mode, vc, tvc, pc, maxP, maxV, pnum, poly⟩ := h
  have hv' : m.VertCount < m.Model.VertexCount := by rw [vc, maxV]; exact_mod_cast hv
  unfold DynamicMeshClass.End_Vertex
  rw [if_neg (not_not.mpr hv')]
  dsimp only
  by_cases h3 : j + 1 < 3
  · have h3' : ¬ (m.TriVertexCount + 1 ≥ 3) := by rw [tvc]; push_neg; exact_mod_cast h3
    rw [if_neg h3']
    refine ⟨_, rfl, ?_⟩
    have hj : j - 2 = 0 := by omega
    have hj' : j + 1 - 2 = 0 := by omega
    constructor <;> simp_all
    omega
  · push_neg at h3
    have hlt : j - 2 < P := by omega
    have h3' : m.TriVertexCount + 1 ≥ 3 := by rw [tvc]; exact_mod_cast h3
    have hp' : m.PolyCount < m.Model.PolyCount := by rw [pc, maxP]; exact_mod_cast hlt
    rw [if_pos h3', if_neg (not_not.mpr hp')]
    refine ⟨_, rfl, ?_⟩
    have e1 : j + 1 - 2 = (j - 2) + 1 := by omega
    constructor
    · simp [cls]
    · simp [mode]
    · simp [vc]
    · simp [tvc]
    · simp [DynamicMeshModel.Set_Counts, e1, pc]
    · simp [DynamicMeshModel.Set_Counts, maxP]
    · simp [DynamicMeshModel.Set_Counts, maxV]
    · intro _; simp [DynamicMeshModel.Set_Counts, e1, pc]
    · simp only [DynamicMeshModel.Set_Counts, poly, mode, DynamicMeshClass.Flip_Face, cls,
        DynamicMeshClass.Flip_Face_base, tvc, pc, vc]
      obtain ⟨k, rfl⟩ : ∃ k, j = k + 2 := ⟨j - 2, by omega⟩
      have hk : k < P := by omega
      obtain ⟨r, hr⟩ : ∃ r, P - k = r + 1 := ⟨P - k - 1, by omega⟩
      have hr' : P - (k + 1) = r := by omega
      simp only [Nat.add_sub_cancel, Int.toNat_ofNat, hr, List.replicate_succ,
        show k + 2 + 1 - 2 = k + 1 by omega, hr', List.range_succ, List.map_append,
        List.map_cons, List.map_nil, List.append_assoc, List.singleton_append]
      rw [List.set_append_right _ _ (by simp)]
      simp only [List.length_map, List.length_range, Nat.sub_self, List.set_cons_zero]
      congr 2
      unfold stripTriangle
      by_cases hpar : k % 2 = 0
      · have hd : ¬ (2 : Int) ∣ (k : Int) + 2 + 1 := by omega
        simp only [hpar, Nat.cast_add, Nat.cast_ofNat, beq_iff_eq, EuclideanDomain.mod_eq_zero,
          hd, if_false, if_true, Bool.false_eq_true, TriIndex.mk.injEq]
        omega
      · have hd : (2 : Int) ∣ (k : Int) + 2 + 1 := by omega
        simp only [hpar, Nat.cast_add, Nat.cast_ofNat, beq_iff_eq, EuclideanDomain.mod_eq_zero,
          hd, if_false, if_true, Bool.false_eq_true, TriIndex.mk.injEq]
        omega

theorem stripInv_feed (P V : Nat) (n : Nat) :
    ∀ (j : Nat) (m : DynamicMeshClass), StripInv P V j m → j + n ≤ V → j + n - 2 ≤ P →
      ∃ m', m.feed n = some m' ∧ StripInv P V (j + n) m' := by
  induction n with
  | zero => intro j m h _ _; exact ⟨m, rfl, h⟩
  | succ n ih =>
    intro j m h hv hp
    obtain ⟨m1, h1, inv1⟩ := stripInv_step P V j m h (by omega) (by omega)
    obtain ⟨m2, h2, inv2⟩ := ih (j + 1) m1 inv1 (by omega) (by omega)
    refine ⟨m2, ?_, ?_⟩
    · simp [DynamicMeshClass.feed, h1, h2]
    · rw [show j + (n + 1) = j + 1 + n by omega]; exact inv2

/-- What a fresh strip-mode mesh holds after `n ≥ 3` vertices. -/
theorem feed_strip (max_poly max_vert MAX_PASSES MAX_COLOR_ARRAYS passes n : Nat)
    (hn : 3 ≤ n) (hv : n ≤ max_vert) (hp : n - 2 ≤ max_poly) :
    ∃ m', (DynamicMeshClass.new max_poly max_vert MAX_PASSES MAX_COLOR_ARRAYS passes).feed n
        = some m' ∧
      m'.PolyCount = ((n - 2 : Nat) : Int) ∧ m'.VertCount = n ∧
      m'.Model.triangles = (List.range (n - 2)).map stripTriangle := by
  obtain ⟨m', h1, inv⟩ := stripInv_feed max_poly max_vert n 0 _
    (stripInv_new max_poly max_vert MAX_PASSES MAX_COLOR_ARRAYS passes) (by omega) (by omega)
  rw [Nat.zero_add] at inv
  refine ⟨m', h1, inv.pc, inv.vc, ?_⟩
  simp [DynamicMeshModel.triangles, inv.pnum hn, inv.poly, List.take_append_eq_append_take]

/-! ## Theorems: movie playback -/

theorem le_toUnsignedInt {x : Int} (h1 : x < 4294967296) : x ≤ (toUnsignedInt x : Int) := by
  unfold toUnsignedInt
  omega

theorem clockMonotone_le_last (last : UpdateEnv) :
    ∀ (envs : List UpdateEnv) (t : Nat), clockMonotone t (envs ++ [last]) →
      t ≤ last.now ∧ ∀ e ∈ envs, e.now ≤ last.now := by
  intro envs
  induction envs with
  | nil => intro t h; exact ⟨h.1, by simp⟩
  | cons e envs ih =>
    intro t h
    obtain ⟨h1, h2⟩ := h
    obtain ⟨h3, h4⟩ := ih e.now h2
    refine ⟨le_trans h1 h3, ?_⟩
    intro x hx
    rcases List.mem_cons.1 hx with rfl | hx
    · exact h3
    · exact h4 x hx

theorem playingInv_update {M C : Int} {t0 : Nat} {d : Display} (e : UpdateEnv)
    (h : PlayingInv M C t0 d) (hl : d.processesLastFrame e = false) :
    PlayingInv M C t0 (d.update e) := by
  obtain ⟨hp, hM, hC, hm, hc⟩ := h
  unfold Display.isMoviePlaying at hp
  unfold Display.processesLastFrame at hl
  unfold Display.update
  cases hs : d.m_videoStream with
  | none => simp [hs] at hp
  | some s =>
    cases hb : d.m_videoBuffer with
    | none => simp [hb] at hp
    | some b =>
      simp only [hs, hb] at hl ⊢
      by_cases hr : e.isFrameReady = true
      · simp only [hr, Bool.true_and, beq_eq_false_iff_ne, ne_eq] at hl
        simp only [hr, if_true, ne_eq, hl, not_false_eq_true]
        exact ⟨by simp [Display.isMoviePlaying], hM, hC, hm, hc⟩
      · simp only [hr, Bool.false_eq_true, if_false]
        exact ⟨by simp [Display.isMoviePlaying, hs, hb], hM, hC, hm, hc⟩

theorem holdInv_of_lastFrame {M C : Int} {t0 : Nat} {d : Display} (e : UpdateEnv)
    (h : PlayingInv M C t0 d) (hl : d.processesLastFrame e = true) (ht : t0 ≤ e.now)
    (hb : e.now < 4294967296)
    (hwM : (t0 : Int) + M < 4294967296) (hwC : (e.now : Int) + C < 4294967296) :
    HoldInv M C t0 e.now (d.update e) e.now := by
  obtain ⟨hp, hM, hC, hm, hc⟩ := h
  have hnow : e.timeGetTime = e.now := Nat.mod_eq_of_lt hb
  unfold Display.isMoviePlaying at hp
  unfold Display.processesLastFrame at hl
  refine ⟨le_refl _, ?_⟩
  unfold Display.update
  cases hs : d.m_videoStream with
  | none => simp [hs] at hp
  | some s =>
    cases hb : d.m_videoBuffer with
    | none => simp [hb] at hp
    | some b =>
      simp only [hs, hb, Bool.and_eq_true, beq_iff_eq] at hl ⊢
      obtain ⟨hr, hidx⟩ := hl
      simp only [hr, if_true, ne_eq, hidx, not_true_eq_false, if_false, hM, hC, hm, hc, hnow]
      by_cases hh : C ≥ 0 ∨ M ≥ 0
      · simp only [hh, if_true, ge_iff_le, le_refl, and_self]
        split_ifs with h2
        · right
          simp only at h2
          have a1 := le_toUnsignedInt (x := M + (t0 : Int)) (by omega)
          have a2 := le_toUnsignedInt (x := C + (e.now : Int)) (by omega)
          constructor <;> omega
        · left
          simp [Display.isMoviePlaying]
      · simp only [hh, if_false]
        right
        push_neg at hh
        constructor <;> omega

theorem holdInv_update {M C : Int} {t0 tc tl : Nat} {d : Display} (e : UpdateEnv)
    (h : HoldInv M C t0 tc d tl) (ht0 : t0 ≤ tc) (ht : tl ≤ e.now)
    (hb : e.now < 4294967296) (h0 : 0 < tc)
    (hwM : (t0 : Int) + M < 4294967296) (hwC : (tc : Int) + C < 4294967296) :
    HoldInv M C t0 tc (d.update e) e.now := by
  obtain ⟨htc, h⟩ := h
  have hnow : e.timeGetTime = e.now := Nat.mod_eq_of_lt hb
  refine ⟨le_trans htc ht, ?_⟩
  rcases h with ⟨hp, hM, hC, hm, hc⟩ | ⟨h1, h2⟩
  · unfold Display.isMoviePlaying at hp
    unfold Display.update
    cases hs : d.m_videoStream with
    | none => simp [hs] at hp
    | some s =>
      cases hb : d.m_videoBuffer with
      | none => simp [hb] at hp
      | some b =>
        simp only
        by_cases hr : e.isFrameReady = true
        · simp only [hr, if_true]
          by_cases hidx : s.frameIndex = s.frameCount - 1
          · simp only [ne_eq, hidx, not_true_eq_false, if_false, hM, hC, hm, hnow]
            by_cases hh : C ≥ 0 ∨ M ≥ 0
            · have hz : ¬ d.m_elapsedCopywriteTime = 0 := by omega
              simp only [hh, if_true, hz, false_and, if_false]
              split_ifs with h2
              · right
                have a1 := le_toUnsignedInt (x := M + (t0 : Int)) (by omega)
                have a2 := le_toUnsignedInt (x := C + (d.m_elapsedCopywriteTime : Int)) (by omega)
                constructor <;> omega
              · left
                exact ⟨by simp [Display.isMoviePlaying], rfl, rfl, rfl, hc⟩
            · simp only [hh, if_false]
              right
              push_neg at hh
              constructor <;> omega
          · simp only [ne_eq, hidx, not_false_eq_true, if_true]
            left
            exact ⟨by simp [Display.isMoviePlaying], hM, hC, hm, hc⟩
        · simp only [hr, Bool.false_eq_true, if_false]
          left
          exact ⟨by simp [Display.isMoviePlaying, hs, hb], hM, hC, hm, hc⟩
  · right
    constructor <;> omega

theorem holdInv_updates {M C : Int} {t0 tc : Nat} (ht0 : t0 ≤ tc) (h0 : 0 < tc)
    (hwM : (t0 : Int) + M < 4294967296) (hwC : (tc : Int) + C < 4294967296)
    (rest : List UpdateEnv) :
    ∀ (envs : List UpdateEnv) (d : Display) (tl : Nat), HoldInv M C t0 tc d tl →
      clockMonotone tl (envs ++ rest) → (∀ e ∈ envs, e.now < 4294967296) →
      ∃ tl', HoldInv M C t0 tc (d.updates envs) tl' ∧ clockMonotone tl' rest := by
  intro envs
  induction envs with
  | nil => intro d tl h hc _; exact ⟨tl, h, hc⟩
  | cons e envs ih =>
    intro d tl h hc hb
    obtain ⟨h1, h2⟩ := hc
    exact ih (d.update e) e.now
      (holdInv_update e h ht0 h1 (hb e (List.mem_cons_self _ _)) h0 hwM hwC) h2
      (fun x hx => hb x (List.mem_cons_of_mem _ hx))

theorem holdInv_of_first {M C : Int} {t0 tc : Nat} (h0 : 0 < tc)
    (hwM : (t0 : Int) + M < 4294967296) (hwC : (tc : Int) + C < 4294967296)
    (rest : List UpdateEnv) :
    ∀ (pre : List UpdateEnv) (d : Display) (t : Nat), PlayingInv M C t0 d → t0 ≤ t →
      clockMonotone t (pre ++ rest) → (∀ e ∈ pre, e.now < 4294967296) →
      d.firstLastFrameTime pre = some tc →
      t0 ≤ tc ∧ ∃ tl, HoldInv M C t0 tc (d.updates pre) tl ∧ clockMonotone tl rest := by
  intro pre
  induction pre with
  | nil => intro d t _ _ _ _ hf; simp [Display.firstLastFrameTime] at hf
  | cons e pre ih =>
    intro d t h ht hc hb hf
    obtain ⟨h1, h2⟩ := hc
    have hbe := hb e (List.mem_cons_self _ _)
    have hnow : e.timeGetTime = e.now := Nat.mod_eq_of_lt hbe
    unfold Display.firstLastFrameTime at hf
    by_cases hl : d.processesLastFrame e = true
    · simp only [hl, if_true, Option.some.injEq, hnow] at hf
      subst hf
      have htc : t0 ≤ e.now := le_trans ht h1
      exact ⟨htc, holdInv_updates htc h0 hwM hwC rest pre (d.update e) e.now
        (holdInv_of_lastFrame e h hl htc hbe hwM hwC) h2
        (fun x hx => hb x (List.mem_cons_of_mem _ hx))⟩
    · simp only [hl, Bool.false_eq_true, if_false] at hf
      exact ih (d.update e) e.now (playingInv_update e h (by simpa using hl)) (le_trans ht h1) h2
        (fun x hx => hb x (List.mem_cons_of_mem _ hx)) hf

theorem playingInv_playLogoMovie (d : Display) (env : PlayEnv) (movieName : String) (M C : Int)
    (hfresh : d.m_elapsedCopywriteTime = 0) (hb : env.now < 4294967296)
    (hplay : (d.playLogoMovie env movieName M C).isMoviePlaying = true) :
    PlayingInv M C env.now (d.playLogoMovie env movieName M C) := by
  have hnow : env.timeGetTime = env.now := Nat.mod_eq_of_lt hb
  unfold Display.playLogoMovie at hplay ⊢
  cases ho : env.opened with
  | none => simp [ho, Display.stopMovie, Display.isMoviePlaying] at hplay
  | some s =>
    simp only [ho] at hplay ⊢
    cases hc : env.created <;> cases ha : env.allocated <;>
      simp [hc, ha, Display.stopMovie, Display.isMoviePlaying] at hplay
    simp [PlayingInv, hc, ha, Display.stopMovie, Display.isMoviePlaying, hfresh, hnow]

/-- The hold of a logo movie while the clock does not wrap around. On a display
on which no movie has played before (the copyright start time is still 0),
let `playLogoMovie(id, M, C)` succeed at clock reading `t0 = env.now`, let the
following `update` calls be `pre`, then `post`, then `last`, with a counter
that never decreases, and let the last frame of the stream be processed for
the first time within `pre`, at clock reading `tc ≠ 0`. If neither `t0 + M`
nor `tc + C` reaches `2^32` and the counter `t` of `last` satisfies
`t ≤ t0 + M` or `t ≤ tc + C`, the movie is still playing after `last`. -/
theorem playLogoMovie_holds_until_both_timers (d : Display) (env : PlayEnv) (movieName : String)
    (M C : Int) (pre post : List UpdateEnv) (last : UpdateEnv) (tc : Nat)
    (hfresh : d.m_elapsedCopywriteTime = 0)
    (hplay : (d.playLogoMovie env movieName M C).isMoviePlaying = true)
    (hclock : clockMonotone env.now (pre ++ (post ++ [last])))
    (hfirst : (d.playLogoMovie env movieName M C).firstLastFrameTime pre = some tc)
    (htc : 0 < tc)
    (hwM : (env.now : Int) + M < 4294967296) (hwC : (tc : Int) + C < 4294967296)
    (hhold : (last.now : Int) ≤ (env.now : Int) + M ∨ (last.now : Int) ≤ (tc : Int) + C) :
    ((d.playLogoMovie env movieName M C).updates (pre ++ (post ++ [last]))).isMoviePlaying
      = true := by
  have hlast : last.now < 4294967296 := by omega
  have hle := clockMonotone_le_last last (pre ++ post) env.now (by simpa using hclock)
  have hbnd : ∀ e ∈ pre ++ post, e.now < 4294967296 := fun e he =>
    lt_of_le_of_lt (hle.2 e he) hlast
  have hA := playingInv_playLogoMovie d env movieName M C hfresh
    (lt_of_le_of_lt hle.1 hlast) hplay
  obtain ⟨ht0, tl, hJ, hmono⟩ :=
    holdInv_of_first htc hwM hwC (post ++ [last]) pre _ env.now hA (le_refl _) hclock
      (fun e he => hbnd e (List.mem_append_left _ he)) hfirst
  obtain ⟨tl2, hJ2, hmono2⟩ := holdInv_updates ht0 htc hwM hwC [last] post _ tl hJ hmono
    (fun e he => hbnd e (List.mem_append_right _ he))
  have hJ3 := holdInv_update last hJ2 ht0 hmono2.1 hlast htc hwM hwC
  have e1 : (d.playLogoMovie env movieName M C).updates (pre ++ (post ++ [last])) =
      ((((d.playLogoMovie env movieName M C).updates pre).updates post).update last) := by
    simp [Display.updates, List.foldl_append]
  rw [e1]
  rcases hJ3.2 with h | ⟨h1, h2⟩
  · exact h.1
  · omega

/-- The scenario of the spec: `M = 3000`, `C = 1000`, playback started at
reading 10000, the last frame first processed 500 ms later; an `update` 3000 ms
after the start (later than 500 + 1000 ms) still leaves the movie playing. -/
theorem playLogoMovie_holds_until_both_timers_witness :
    Display.new.m_elapsedCopywriteTime = 0 ∧
    (Display.new.playLogoMovie PlayEnv.sample "EALogoMovie" 3000 1000).isMoviePlaying = true ∧
    clockMonotone PlayEnv.sample.now
      ([⟨true, 10100⟩, ⟨true, 10500⟩] ++ ([⟨false, 11000⟩, ⟨true, 11600⟩] ++ [⟨true, 13000⟩])) ∧
    (Display.new.playLogoMovie PlayEnv.sample "EALogoMovie" 3000 1000).firstLastFrameTime
      [⟨true, 10100⟩, ⟨true, 10500⟩] = some 10500 ∧
    (((⟨true, 13000⟩ : UpdateEnv).now : Int) ≤ (PlayEnv.sample.now : Int) + 3000 ∨
      ((⟨true, 13000⟩ : UpdateEnv).now : Int) ≤ ((10500 : Nat) : Int) + 1000) ∧
    ((Display.new.playLogoMovie PlayEnv.sample "EALogoMovie" 3000 1000).updates
      ([⟨true, 10100⟩, ⟨true, 10500⟩] ++ ([⟨false, 11000⟩, ⟨true, 11600⟩] ++ [⟨true, 13000⟩]))
      ).isMoviePlaying = true :=
  ⟨rfl, by decide, by simp [clockMonotone, PlayEnv.sample], by decide, Or.inl (by decide),
    playLogoMovie_holds_until_both_timers Display.new PlayEnv.sample "EALogoMovie" 3000 1000
      [⟨true, 10100⟩, ⟨true, 10500⟩] [⟨false, 11000⟩, ⟨true, 11600⟩] ⟨true, 13000⟩ 10500
      rfl (by decide) (by simp [clockMonotone, PlayEnv.sample]) (by decide) (by decide)
      (by decide) (by decide) (Or.inl (by decide))⟩

/-- C2, the code at the failing input: on a fresh display `playLogoMovie(id,
3000, 1000)` succeeds at clock reading `t0 = 4294966000`, the first frame is
processed at `t0 + 100` and the last frame for the first time at
`tc = t0 + 500`; the clock never runs backwards and the reading
`t = t0 + 600` of the third `update` satisfies both `t ≤ t0 + 3000` and
`t ≤ tc + 1000`. As 32-bit unsigned values the sums `3000 + t0` and
`1000 + tc` are 1704 and 204, smaller than every reading, so the `update` at
`tc` already releases both holds (the movie still plays, both hold times are
-1) and the `update` at `t0 + 600`, with no hold left, stops the movie. -/
theorem playLogoMovie_stops_within_hold_at_wrap :
    Display.new.m_elapsedCopywriteTime = 0 ∧
    (Display.new.playLogoMovie PlayEnv.sampleBeforeWrap "EALogoMovie" 3000 1000).isMoviePlaying
      = true ∧
    clockMonotone PlayEnv.sampleBeforeWrap.now UpdateEnv.sampleBeforeWrap ∧
    (Display.new.playLogoMovie PlayEnv.sampleBeforeWrap "EALogoMovie" 3000 1000).firstLastFrameTime
      (UpdateEnv.sampleBeforeWrap.take 2) = some 4294966500 ∧
    ((4294966600 : Int) ≤ (PlayEnv.sampleBeforeWrap.now : Int) + 3000 ∧
      (4294966600 : Int) ≤ 4294966500 + 1000) ∧
    (toUnsignedInt (3000 + 4294966000) = 1704 ∧ toUnsignedInt (1000 + 4294966500) = 204) ∧
    (((Display.new.playLogoMovie PlayEnv.sampleBeforeWrap "EALogoMovie" 3000 1000).updates
        (UpdateEnv.sampleBeforeWrap.take 2)).isMoviePlaying = true ∧
      ((Display.new.playLogoMovie PlayEnv.sampleBeforeWrap "EALogoMovie" 3000 1000).updates
        (UpdateEnv.sampleBeforeWrap.take 2)).m_movieHoldTime = -1 ∧
      ((Display.new.playLogoMovie PlayEnv.sampleBeforeWrap "EALogoMovie" 3000 1000).updates
        (UpdateEnv.sampleBeforeWrap.take 2)).m_copyrightHoldTime = -1) ∧
    ((Display.new.playLogoMovie PlayEnv.sampleBeforeWrap "EALogoMovie" 3000 1000).updates
      UpdateEnv.sampleBeforeWrap).isMoviePlaying = false := by
  refine ⟨rfl, by decide, by simp [clockMonotone, PlayEnv.sampleBeforeWrap,
    UpdateEnv.sampleBeforeWrap], by decide, ⟨by decide, by decide⟩, ⟨by decide, by decide⟩,
    ⟨by decide, by decide, by decide⟩, by decide⟩

/-! ## Theorems: tactical view -/

theorem clampToConstraint_contains (c : Region2D) (pos : Coord3D)
    (hx : c.lo.x ≤ c.hi.x) (hy : c.lo.y ≤ c.hi.y) : c.contains (clampToConstraint c pos) := by
  simp only [Region2D.contains, clampToConstraint, minf, maxf]
  refine ⟨?_, ?_, ?_, ?_⟩ <;> split_ifs <;> linarith

theorem clampToConstraint_of_contains (c : Region2D) (pos : Coord3D) (h : c.contains pos) :
    clampToConstraint c pos = pos := by
  obtain ⟨h1, h2, h3, h4⟩ := h
  have e1 : maxf c.lo.x pos.x = pos.x := by
    unfold maxf; split_ifs with h <;> linarith
  have e2 : minf c.hi.x pos.x = pos.x := by
    unfold minf; split_ifs with h <;> linarith
  have e3 : maxf c.lo.y pos.y = pos.y := by
    unfold maxf; split_ifs with h <;> linarith
  have e4 : minf c.hi.y pos.y = pos.y := by
    unfold minf; split_ifs with h <;> linarith
  simp only [clampToConstraint, e1, e2, e3, e4]

theorem cappedZoom_bounds (zoom : ℚ) : 1 / 2 ≤ cappedZoom zoom ∧ cappedZoom zoom ≤ 1 := by
  simp only [cappedZoom, MIN_CAPPED_ZOOM]
  constructor <;> split_ifs <;> linarith

theorem cappedZoom_mono {z1 z2 : ℚ} (h : z1 ≤ z2) : cappedZoom z1 ≤ cappedZoom z2 := by
  simp only [cappedZoom, MIN_CAPPED_ZOOM]
  split_ifs <;> linarith

theorem cappedZoom_of_mem {zoom : ℚ} (h1 : 1 / 2 ≤ zoom) (h2 : zoom ≤ 1) :
    cappedZoom zoom = zoom := by
  simp only [cappedZoom, MIN_CAPPED_ZOOM]
  split_ifs <;> linarith

/-- The real zoom camera leaves the horizontal coordinates of the source. -/
theorem realZoomAdjust_XY (b : Bool) (z : ℚ) (p : Vector3) :
    (realZoomAdjust b z p).1.X = p.X ∧ (realZoomAdjust b z p).1.Y = p.Y := by
  unfold realZoomAdjust; split_ifs <;> simp

/-- The effects pitch that the real zoom camera computes is at least 5/8. -/
theorem realZoomAdjust_FXPitch_pos (isLetterBoxed : Bool) (zoom : ℚ) (sourcePos : Vector3) :
    5 / 8 ≤ (realZoomAdjust isLetterBoxed zoom sourcePos).2 := by
  obtain ⟨h1, h2⟩ := cappedZoom_bounds zoom
  unfold realZoomAdjust
  split_ifs <;> simp only <;> linarith

/-- Whatever the slave binding does, `buildCameraTransform` leaves in `m_FOV`
and `m_FXPitch` the values of the camera placement. -/
theorem buildCameraTransform_FOV_FXPitch (env : ViewEnv) (v : W3DView) :
    (v.buildCameraTransform env).view.m_FOV = (v.placeCamera env).FOV ∧
    (v.buildCameraTransform env).view.m_FXPitch = (v.placeCamera env).FXPitch := by
  unfold W3DView.buildCameraTransform
  simp only
  split_ifs
  · split
    · split
      · split <;> simp
      · simp
    · simp
  · simp

/-- The arguments of `Look_At` and the divisors are those of the camera
placement, whatever the slave binding does. -/
theorem buildCameraTransform_placement (env : ViewEnv) (v : W3DView) :
    (v.buildCameraTransform env).sourcePos = (v.placeCamera env).sourcePos ∧
    (v.buildCameraTransform env).targetPos = (v.placeCamera env).targetPos ∧
    (v.buildCameraTransform env).divisors = (v.placeCamera env).divisors := by
  unfold W3DView.buildCameraTransform
  simp only
  split_ifs
  · split
    · split
      · split <;> simp
      · simp
    · simp
  · simp

/-- With the camera not slaved, `buildCameraTransform` changes `m_FOV`,
`m_FXPitch` and the shaker state of the view and nothing else. -/
theorem buildCameraTransform_free_view (env : ViewEnv) (v : W3DView)
    (h : v.m_isCameraSlaved = false) :
    (v.buildCameraTransform env).view =
      { v with
        m_FOV := (v.placeCamera env).FOV
        m_FXPitch := (v.placeCamera env).FXPitch
        shakerTime := v.shakerTime + 1 / 30
        m_shakerAngles := env.Update_Camera_Shaker (v.shakerTime + 1 / 30)
          (v.placeCamera env).sourcePos v.m_shakerAngles } := by
  simp [W3DView.buildCameraTransform, h]

/-- With the camera not slaved, `setCameraTransform` stores the old position
clamped into the constraint it ends with, or the old position when it ends
without a valid constraint. -/
theorem setCameraTransform_free_pos (env : ViewEnv) (v : W3DView)
    (h : v.m_isCameraSlaved = false) :
    (v.setCameraTransform env).m_pos =
      (if (v.setCameraTransform env).m_cameraConstraintValid then
        clampToConstraint (v.setCameraTransform env).m_cameraConstraint v.m_pos
      else v.m_pos) := by
  cases hv : v.m_cameraConstraintValid with
  | true =>
    simp [W3DView.setCameraTransform, W3DView.buildCameraTransform, W3DView.setPosition, h, hv]
  | false =>
    cases ht : env.TheTerrainLogic with
    | none =>
      simp [W3DView.setCameraTransform, W3DView.buildCameraTransform, W3DView.setPosition,
        W3DView.calcCameraConstraints, h, hv, ht]
    | some terrain =>
      simp [W3DView.setCameraTransform, W3DView.buildCameraTransform, W3DView.setPosition,
        W3DView.calcCameraConstraints, h, hv, ht]

/-- With terrain present, `calcCameraConstraints` stores the constraint for the
map extent and the margin, the margin being -1000 under `m_debugAI`. -/
theorem calcCameraConstraints_constraint (env : ViewEnv) (v : W3DView) (terrain : TerrainLogic)
    (h : env.TheTerrainLogic = some terrain) :
    (v.calcCameraConstraints env).m_cameraConstraint =
      constraintFor terrain.getExtent
        (if env.TheGlobalData.m_debugAI then -1000 else v.pickMargin env) := by
  simp [W3DView.calcCameraConstraints, h]

/-- C3 (as stated, refuted): the sample view, slaved to a unit whose bone
transform has translation `(1000, 1000, 5)`, has a valid constraint
`[0, 100] x [0, 100]` and the position `(50, 50, 0)` inside it; after
`setCameraTransform` the constraint is unchanged and valid, but the stored
position is `(1000, 1000, 5)`: outside the bounds, and with another `z`. -/
theorem setCameraTransform_slaved_escapes_constraint :
    (W3DView.sampleSlaved "CameraBone").m_cameraConstraint.contains
      (W3DView.sampleSlaved "CameraBone").m_pos ∧
    ((W3DView.sampleSlaved "CameraBone").setCameraTransform
      ViewEnv.sample).m_cameraConstraintValid = true ∧
    ((W3DView.sampleSlaved "CameraBone").setCameraTransform ViewEnv.sample).m_cameraConstraint
      = ⟨⟨0, 0⟩, ⟨100, 100⟩⟩ ∧
    ((W3DView.sampleSlaved "CameraBone").setCameraTransform ViewEnv.sample).m_pos
      = ⟨1000, 1000, 5⟩ ∧
    ¬ ((W3DView.sampleSlaved "CameraBone").setCameraTransform
        ViewEnv.sample).m_cameraConstraint.contains
      ((W3DView.sampleSlaved "CameraBone").setCameraTransform ViewEnv.sample).m_pos ∧
    ((W3DView.sampleSlaved "CameraBone").setCameraTransform ViewEnv.sample).m_pos.z ≠
      (W3DView.sampleSlaved "CameraBone").m_pos.z := by
  have hpos : ((W3DView.sampleSlaved "CameraBone").setCameraTransform ViewEnv.sample).m_pos
      = ⟨1000, 1000, 5⟩ := by
    simp [W3DView.setCameraTransform, W3DView.buildCameraTransform, W3DView.setPosition,
      W3DView.sampleSlaved, W3DView.sample, ViewEnv.sample, Object.withBone,
      firstBoneTransform, Matrix3D.sampleBone, Matrix3D.Get_Translation]
  have hc : ((W3DView.sampleSlaved "CameraBone").setCameraTransform
      ViewEnv.sample).m_cameraConstraint = ⟨⟨0, 0⟩, ⟨100, 100⟩⟩ := by
    simp [W3DView.setCameraTransform, W3DView.buildCameraTransform, W3DView.setPosition,
      W3DView.sampleSlaved, W3DView.sample, ViewEnv.sample, Object.withBone,
      firstBoneTransform]
  refine ⟨?_, ?_, hc, hpos, ?_, ?_⟩
  · norm_num [Region2D.contains, W3DView.sampleSlaved, W3DView.sample]
  · simp [W3DView.setCameraTransform, W3DView.buildCameraTransform, W3DView.setPosition,
      W3DView.sampleSlaved, W3DView.sample, ViewEnv.sample, Object.withBone,
      firstBoneTransform]
  · rw [hpos, hc]
    norm_num [Region2D.contains]
  · rw [hpos]
    norm_num [W3DView.sampleSlaved, W3DView.sample]

/-- C3 (amended): when the camera is not slaved, after `setCameraTransform`
completes with a valid constraint whose bounds satisfy `lo.x ≤ hi.x` and
`lo.y ≤ hi.y`, the stored look-at position lies within the bounds, its `z` is
unchanged, and a position that was already inside the bounds is left
unchanged; `buildCameraTransform` alone leaves the stored position untouched
and clamps only its local copy, at which it aims the camera. -/
theorem setCameraTransform_clamps_position (env : ViewEnv) (v : W3DView)
    (hfree : v.m_isCameraSlaved = false) :
    ((v.setCameraTransform env).m_cameraConstraintValid = true →
      (v.setCameraTransform env).m_cameraConstraint.lo.x ≤
        (v.setCameraTransform env).m_cameraConstraint.hi.x →
      (v.setCameraTransform env).m_cameraConstraint.lo.y ≤
        (v.setCameraTransform env).m_cameraConstraint.hi.y →
      (v.setCameraTransform env).m_cameraConstraint.contains (v.setCameraTransform env).m_pos ∧
      (v.setCameraTransform env).m_pos.z = v.m_pos.z ∧
      ((v.setCameraTransform env).m_cameraConstraint.contains v.m_pos →
        (v.setCameraTransform env).m_pos = v.m_pos)) ∧
    (v.buildCameraTransform env).view.m_pos = v.m_pos ∧
    (v.buildCameraTransform env).targetPos.X = v.lookAtPos.x ∧
    (v.buildCameraTransform env).targetPos.Y = v.lookAtPos.y ∧
    (v.m_cameraConstraintValid = true →
      v.m_cameraConstraint.lo.x ≤ v.m_cameraConstraint.hi.x →
      v.m_cameraConstraint.lo.y ≤ v.m_cameraConstraint.hi.y →
      v.m_cameraConstraint.contains v.lookAtPos) := by
  refine ⟨?_, ?_, ?_, ?_, ?_⟩
  · intro hvalid hx hy
    have hpos := setCameraTransform_free_pos env v hfree
    rw [hvalid, if_pos rfl] at hpos
    refine ⟨?_, ?_, ?_⟩
    · rw [hpos]; exact clampToConstraint_contains _ _ hx hy
    · rw [hpos]; rfl
    · intro hin; rw [hpos]; exact clampToConstraint_of_contains _ _ hin
  · rw [buildCameraTransform_free_view env v hfree]
  · simp [W3DView.buildCameraTransform, hfree, W3DView.placeCamera, W3DView.translated,
      fxPitchAdjust]
    split_ifs <;> simp
  · simp [W3DView.buildCameraTransform, hfree, W3DView.placeCamera, W3DView.translated,
      fxPitchAdjust]
    split_ifs <;> simp
  · intro hvalid hx hy
    simp only [W3DView.lookAtPos, hvalid, if_true]
    exact clampToConstraint_contains _ _ hx hy

/-- C3 (amended), an instance: the free sample view moved to `(5000, -3, 7)`
ends at `(100, 0, 7)`, inside its constraint `[0, 100] x [0, 100]`. -/
theorem setCameraTransform_clamps_position_witness :
    W3DView.sampleFar.m_isCameraSlaved = false ∧
    (W3DView.sampleFar.setCameraTransform ViewEnv.sample).m_cameraConstraintValid = true ∧
    (W3DView.sampleFar.setCameraTransform ViewEnv.sample).m_cameraConstraint.lo.x ≤
      (W3DView.sampleFar.setCameraTransform ViewEnv.sample).m_cameraConstraint.hi.x ∧
    (W3DView.sampleFar.setCameraTransform ViewEnv.sample).m_cameraConstraint.lo.y ≤
      (W3DView.sampleFar.setCameraTransform ViewEnv.sample).m_cameraConstraint.hi.y ∧
    (W3DView.sampleFar.setCameraTransform ViewEnv.sample).m_cameraConstraint.contains
      (W3DView.sampleFar.setCameraTransform ViewEnv.sample).m_pos :=
  ⟨rfl, by rfl, by decide, by decide,
    ((setCameraTransform_clamps_position ViewEnv.sample W3DView.sampleFar rfl).1
      (by rfl) (by decide) (by decide)).1⟩

/-- C4: the pan bounds that `calcCameraConstraints` computes with the debug
override (`m_debugAI`, margin -1000) are at least as loose on every side as
those it computes without, for every terrain extent and every margin that is
a vector length (so `≥ 0`); with terrain present the two constraints are the
extent moved inwards by the pick margin and by -1000; and in general the
bounds `lo = extent.lo + m`, `hi = extent.hi - m` only shrink as `m` grows. -/
theorem calcCameraConstraints_monotone (env : ViewEnv) (v : W3DView) :
    ((∀ c : Coord3D, 0 ≤ env.length c) →
      (v.calcCameraConstraints (env.withDebugAI true)).m_cameraConstraint.lo.x ≤
        (v.calcCameraConstraints (env.withDebugAI false)).m_cameraConstraint.lo.x ∧
      (v.calcCameraConstraints (env.withDebugAI true)).m_cameraConstraint.lo.y ≤
        (v.calcCameraConstraints (env.withDebugAI false)).m_cameraConstraint.lo.y ∧
      (v.calcCameraConstraints (env.withDebugAI false)).m_cameraConstraint.hi.x ≤
        (v.calcCameraConstraints (env.withDebugAI true)).m_cameraConstraint.hi.x ∧
      (v.calcCameraConstraints (env.withDebugAI false)).m_cameraConstraint.hi.y ≤
        (v.calcCameraConstraints (env.withDebugAI true)).m_cameraConstraint.hi.y) ∧
    (∀ terrain : TerrainLogic, env.TheTerrainLogic = some terrain →
      (v.calcCameraConstraints (env.withDebugAI false)).m_cameraConstraint =
        constraintFor terrain.getExtent (v.pickMargin env) ∧
      (v.calcCameraConstraints (env.withDebugAI true)).m_cameraConstraint =
        constraintFor terrain.getExtent (-1000)) ∧
    (∀ (mapRegion : Region3D) (m1 m2 : ℚ), m1 ≤ m2 →
      (constraintFor mapRegion m1).lo.x ≤ (constraintFor mapRegion m2).lo.x ∧
      (constraintFor mapRegion m1).lo.y ≤ (constraintFor mapRegion m2).lo.y ∧
      (constraintFor mapRegion m2).hi.x ≤ (constraintFor mapRegion m1).hi.x ∧
      (constraintFor mapRegion m2).hi.y ≤ (constraintFor mapRegion m1).hi.y) := by
  have hpm : ∀ b, v.pickMargin (env.withDebugAI b) = v.pickMargin env := fun _ => rfl
  refine ⟨?_, ?_, ?_⟩
  · intro hlen
    have hm : 0 ≤ v.pickMargin env := hlen _
    cases ht : env.TheTerrainLogic with
    | none =>
      simp [W3DView.calcCameraConstraints, ViewEnv.withDebugAI, ht]
    | some terrain =>
      rw [calcCameraConstraints_constraint (env.withDebugAI true) v terrain ht,
        calcCameraConstraints_constraint (env.withDebugAI false) v terrain ht]
      simp only [ViewEnv.withDebugAI, if_true, Bool.false_eq_true, if_false, constraintFor]
      have := hpm false
      simp only [ViewEnv.withDebugAI] at this
      rw [this]
      refine ⟨?_, ?_, ?_, ?_⟩ <;> linarith
  · intro terrain ht
    refine ⟨?_, ?_⟩
    · rw [calcCameraConstraints_constraint (env.withDebugAI false) v terrain ht]
      simp only [ViewEnv.withDebugAI, Bool.false_eq_true, if_false]
      rfl
    · rw [calcCameraConstraints_constraint (env.withDebugAI true) v terrain ht]
      simp only [ViewEnv.withDebugAI, if_true]
  · intro mapRegion m1 m2 h
    simp only [constraintFor]
    refine ⟨?_, ?_, ?_, ?_⟩ <;> linarith

/-- C4, an instance: the sample surrounding, whose vector length is a sum of
absolute values. -/
theorem calcCameraConstraints_monotone_witness :
    (∀ c : Coord3D, 0 ≤ ViewEnv.sample.length c) ∧
    (W3DView.sample.calcCameraConstraints
        (ViewEnv.sample.withDebugAI true)).m_cameraConstraint.lo.x ≤
      (W3DView.sample.calcCameraConstraints
        (ViewEnv.sample.withDebugAI false)).m_cameraConstraint.lo.x :=
  ⟨fun c => by simp only [ViewEnv.sample]; positivity,
   ((calcCameraConstraints_monotone ViewEnv.sample W3DView.sample).1
      (fun c => by simp only [ViewEnv.sample]; positivity)).1⟩

/-- C5: with the real zoom camera (`m_useRealZoomCam`) and `PI > 0`, the zoom
that feeds the field of view is capped into `[1/2, 1]` (and is the scaled
zoom itself when that lies in the range); `m_FOV` after `buildCameraTransform`
is 50 degrees times the square of the capped zoom, lies between 12.5 and 50
degrees, is positive, and is non-decreasing in the scaled zoom (hence in
`m_zoom` for a fixed non-negative world scale). -/
theorem buildCameraTransform_FOV_clamped (env : ViewEnv) (v : W3DView)
    (hreal : v.m_useRealZoomCam = true) (hPI : 0 < env.PI) :
    (1 / 2 ≤ cappedZoom v.scaledZoom ∧ cappedZoom v.scaledZoom ≤ 1) ∧
    (1 / 2 ≤ v.scaledZoom → v.scaledZoom ≤ 1 → cappedZoom v.scaledZoom = v.scaledZoom) ∧
    (v.buildCameraTransform env).view.m_FOV =
      50 * env.PI / 180 * cappedZoom v.scaledZoom * cappedZoom v.scaledZoom ∧
    (25 / 2) * env.PI / 180 ≤ (v.buildCameraTransform env).view.m_FOV ∧
    (v.buildCameraTransform env).view.m_FOV ≤ 50 * env.PI / 180 ∧
    0 < (v.buildCameraTransform env).view.m_FOV ∧
    (∀ w : W3DView, w.m_useRealZoomCam = true → v.scaledZoom ≤ w.scaledZoom →
      (v.buildCameraTransform env).view.m_FOV ≤ (w.buildCameraTransform env).view.m_FOV) ∧
    (∀ w : W3DView, w.m_useRealZoomCam = true → w.m_worldScale = v.m_worldScale →
      0 ≤ v.m_worldScale → v.m_zoom ≤ w.m_zoom →
      (v.buildCameraTransform env).view.m_FOV ≤ (w.buildCameraTransform env).view.m_FOV) := by
  have hfov : ∀ w : W3DView, w.m_useRealZoomCam = true →
      (w.buildCameraTransform env).view.m_FOV =
        50 * env.PI / 180 * cappedZoom w.scaledZoom * cappedZoom w.scaledZoom := by
    intro w hw
    rw [(buildCameraTransform_FOV_FXPitch env w).1]
    simp [W3DView.placeCamera, W3DView.nextFOV, hw]
  obtain ⟨hc1, hc2⟩ := cappedZoom_bounds v.scaledZoom
  have hmono : ∀ w : W3DView, w.m_useRealZoomCam = true → v.scaledZoom ≤ w.scaledZoom →
      (v.buildCameraTransform env).view.m_FOV ≤ (w.buildCameraTransform env).view.m_FOV := by
    intro w hw hle
    rw [hfov v hreal, hfov w hw]
    have h1 := cappedZoom_mono hle
    obtain ⟨hw1, hw2⟩ := cappedZoom_bounds w.scaledZoom
    have hk : 0 < 50 * env.PI / 180 := by positivity
    have : cappedZoom v.scaledZoom * cappedZoom v.scaledZoom ≤
        cappedZoom w.scaledZoom * cappedZoom w.scaledZoom := by nlinarith
    calc 50 * env.PI / 180 * cappedZoom v.scaledZoom * cappedZoom v.scaledZoom
        = 50 * env.PI / 180 * (cappedZoom v.scaledZoom * cappedZoom v.scaledZoom) := by ring
      _ ≤ 50 * env.PI / 180 * (cappedZoom w.scaledZoom * cappedZoom w.scaledZoom) :=
          mul_le_mul_of_nonneg_left this hk.le
      _ = 50 * env.PI / 180 * cappedZoom w.scaledZoom * cappedZoom w.scaledZoom := by ring
  refine ⟨⟨hc1, hc2⟩, fun h1 h2 => cappedZoom_of_mem h1 h2, hfov v hreal, ?_, ?_, ?_, hmono, ?_⟩
  · rw [hfov v hreal]
    have : (1 : ℚ) / 4 ≤ cappedZoom v.scaledZoom * cappedZoom v.scaledZoom := by nlinarith
    have hk : 0 < env.PI / 180 := by positivity
    nlinarith
  · rw [hfov v hreal]
    have : cappedZoom v.scaledZoom * cappedZoom v.scaledZoom ≤ 1 := by nlinarith
    have hk : 0 < env.PI / 180 := by positivity
    nlinarith
  · rw [hfov v hreal]
    have : 0 < cappedZoom v.scaledZoom := by linarith
    positivity
  · intro w hw hs h0 hz
    apply hmono w hw
    simp only [W3DView.scaledZoom, hs]
    exact mul_le_mul_of_nonneg_right hz h0

/-- C5, an instance: the sample view with the real zoom camera and zoom 1/2. -/
theorem buildCameraTransform_FOV_clamped_witness :
    W3DView.sampleRealZoom.m_useRealZoomCam = true ∧ 0 < ViewEnv.sample.PI ∧
    (25 / 2) * ViewEnv.sample.PI / 180 ≤
      (W3DView.sampleRealZoom.buildCameraTransform ViewEnv.sample).view.m_FOV :=
  ⟨rfl, by norm_num [ViewEnv.sample],
    (buildCameraTransform_FOV_clamped ViewEnv.sample W3DView.sampleRealZoom rfl
      (by norm_num [ViewEnv.sample])).2.2.2.1⟩

/-- C6 (as stated, refuted): both sample views have a world-scaled zoom in
`[1/2, 1]`. For the one whose configured offset height is 0,
`buildCameraTransform` divides by 0; for the one whose scaled offset height
equals the ground level 10, the source passed to `Look_At` equals the
target. -/
theorem buildCameraTransform_degenerate_inputs :
    (1 / 2 ≤ W3DView.sampleFlat.scaledZoom ∧ W3DView.sampleFlat.scaledZoom ≤ 1 ∧
      (0 : ℚ) ∈ (W3DView.sampleFlat.buildCameraTransform ViewEnv.sample).divisors) ∧
    (1 / 2 ≤ W3DView.sampleGround.scaledZoom ∧ W3DView.sampleGround.scaledZoom ≤ 1 ∧
      (W3DView.sampleGround.buildCameraTransform ViewEnv.sample).sourcePos =
      (W3DView.sampleGround.buildCameraTransform ViewEnv.sample).targetPos) := by
  refine ⟨⟨?_, ?_, ?_⟩, ⟨?_, ?_, ?_⟩⟩
  · norm_num [W3DView.scaledZoom, W3DView.sampleFlat, W3DView.sample]
  · norm_num [W3DView.scaledZoom, W3DView.sampleFlat, W3DView.sample]
  · simp [W3DView.buildCameraTransform, W3DView.placeCamera, W3DView.offsetSource,
      W3DView.sampleFlat, W3DView.sample]
  · norm_num [W3DView.scaledZoom, W3DView.sampleGround, W3DView.sample]
  · norm_num [W3DView.scaledZoom, W3DView.sampleGround, W3DView.sample]
  · simp [W3DView.buildCameraTransform, W3DView.placeCamera, W3DView.offsetSource,
      W3DView.translated, W3DView.rotatedSource, W3DView.factor, W3DView.lookAtPos,
      W3DView.scaledZoom, fxPitchAdjust, rotateAboutX, rotateAboutZ, Vector3.scale,
      clampToConstraint, minf, maxf,
      W3DView.sampleGround, W3DView.sample, ViewEnv.sample]
    norm_num

/-- C6 (amended): for every zoom whose world-scaled value lies in `[1/2, 1]`
and in both zoom modes, if the configured camera offset height
`m_cameraOffset.z` is not zero then no division of `buildCameraTransform` has
a zero denominator (neither the offset height of the perspective factor nor
the effects pitch); if moreover the ground level differs from that offset
height and the rotated offset is not vertical (its `X` or `Y` is not zero),
the source passed to `Look_At` differs from the target. -/
theorem buildCameraTransform_nondegenerate (env : ViewEnv) (v : W3DView)
    (hlo : 1 / 2 ≤ v.scaledZoom) (_hhi : v.scaledZoom ≤ 1)
    (hoff : v.m_cameraOffset.z ≠ 0) :
    (∀ d ∈ (v.buildCameraTransform env).divisors, d ≠ 0) ∧
    (v.m_groundLevel ≠ v.offsetSource.Z →
      ((v.rotatedSource env).X ≠ 0 ∨ (v.rotatedSource env).Y ≠ 0) →
      (v.buildCameraTransform env).sourcePos ≠ (v.buildCameraTransform env).targetPos) := by
  obtain ⟨hs, ht, hd⟩ := buildCameraTransform_placement env v
  have hz : v.offsetSource.Z ≠ 0 := by
    unfold W3DView.offsetSource
    split_ifs
    · exact hoff
    · simp only
      have : v.scaledZoom ≠ 0 := by linarith
      exact mul_ne_zero hoff this
  constructor
  · rw [hd]
    intro d hmem
    simp only [W3DView.placeCamera, List.mem_cons] at hmem
    rcases hmem with rfl | hmem
    · exact hz
    · cases hreal : v.m_useRealZoomCam with
      | true =>
        simp only [hreal, if_true, fxPitchDivisors, List.mem_cons, List.mem_singleton,
          or_self, List.not_mem_nil, or_false] at hmem
        have := realZoomAdjust_FXPitch_pos env.isLetterBoxed v.scaledZoom (v.translated env).1
        rw [hmem]
        linarith
      | false =>
        simp only [hreal, Bool.false_eq_true, if_false, fxPitchDivisors] at hmem
        split_ifs at hmem with h1
        · simp at hmem
        · simp only [List.mem_cons, List.mem_singleton, or_self, List.not_mem_nil,
            or_false] at hmem
          rw [hmem]
          push_neg at h1
          linarith
  · intro hg hrot
    have hf : v.factor ≠ 0 := by
      unfold W3DView.factor
      intro h0
      apply hg
      field_simp at h0
      linarith
    rw [hs, ht]
    intro heq
    have hX := congrArg Vector3.X heq
    have hY := congrArg Vector3.Y heq
    cases hreal : v.m_useRealZoomCam with
    | true =>
      have hfx := realZoomAdjust_FXPitch_pos env.isLetterBoxed v.scaledZoom (v.translated env).1
      have hfx0 : (realZoomAdjust env.isLetterBoxed v.scaledZoom (v.translated env).1).2 ≠ 0 := by
        linarith
      have hrz : ∀ b z p, (realZoomAdjust b z p).1.X = p.X ∧ (realZoomAdjust b z p).1.Y = p.Y := by
        intro b z p; unfold realZoomAdjust; split_ifs <;> simp
      simp only [W3DView.placeCamera, hreal, if_true, fxPitchAdjust, W3DView.translated,
        Vector3.scale, zero_add, add_sub_cancel_right, add_right_eq_self, div_eq_zero_iff,
        mul_eq_zero, hf, or_false, hfx0] at hX hY
      rw [(hrz _ _ _).1] at hX
      rw [(hrz _ _ _).2] at hY
      simp only [zero_add, add_sub_cancel_right, add_right_eq_self, div_eq_zero_iff,
        mul_eq_zero, hf, or_false] at hX hY
      rcases hX with hX | hX
      · rcases hY with hY | hY
        · rcases hrot with h | h
          · exact h hX
          · exact h hY
        · exact hfx0 hY
      · exact hfx0 hX
    | false =>
      simp only [W3DView.placeCamera, hreal, Bool.false_eq_true, if_false, fxPitchAdjust,
        W3DView.translated, Vector3.scale, zero_add] at hX hY
      split_ifs at hX hY with h1
      · simp only [add_left_eq_self, mul_eq_zero, hf, or_false] at hX hY
        rcases hrot with h | h
        · exact h hX
        · exact h hY
      · push_neg at h1
        have hfx0 : v.m_FXPitch ≠ 0 := by linarith
        simp only [add_sub_cancel_right, add_right_eq_self, div_eq_zero_iff, mul_eq_zero, hf,
          or_false, hfx0] at hX hY
        rcases hrot with h | h
        · exact h hX
        · exact h hY

/-- C6 (amended), an instance: the sample view. -/
theorem buildCameraTransform_nondegenerate_witness :
    1 / 2 ≤ W3DView.sample.scaledZoom ∧ W3DView.sample.scaledZoom ≤ 1 ∧
    W3DView.sample.m_cameraOffset.z ≠ 0 ∧
    (∀ d ∈ (W3DView.sample.buildCameraTransform ViewEnv.sample).divisors, d ≠ 0) :=
  ⟨by norm_num [W3DView.scaledZoom, W3DView.sample],
    by norm_num [W3DView.scaledZoom, W3DView.sample], by norm_num [W3DView.sample],
    (buildCameraTransform_nondegenerate ViewEnv.sample W3DView.sample
      (by norm_num [W3DView.scaledZoom, W3DView.sample])
      (by norm_num [W3DView.scaledZoom, W3DView.sample]) (by norm_num [W3DView.sample])).1⟩

/-- C7: when the camera is slaved to an object name that the script engine
cannot find, `buildCameraTransform` returns exactly the transform (and leaves
exactly the view) that it does for the same view with the camera free, the
binding is cleared (`m_isCameraSlaved = false`), one lookup was made, and the
next `buildCameraTransform`, in any surrounding, makes no lookup. -/
theorem buildCameraTransform_missing_object (env : ViewEnv) (v : W3DView)
    (hslaved : v.m_isCameraSlaved = true)
    (hmissing : env.getUnitNamed v.m_cameraSlaveObjectName = none) :
    (v.buildCameraTransform env).transform =
      ({ v with m_isCameraSlaved := false }.buildCameraTransform env).transform ∧
    (v.buildCameraTransform env).view =
      ({ v with m_isCameraSlaved := false }.buildCameraTransform env).view ∧
    (v.buildCameraTransform env).view.m_isCameraSlaved = false ∧
    (v.buildCameraTransform env).lookups = [v.m_cameraSlaveObjectName] ∧
    (∀ env' : ViewEnv,
      ((v.buildCameraTransform env).view.buildCameraTransform env').lookups = []) := by
  have hv : (v.buildCameraTransform env).view =
      ({ v with m_isCameraSlaved := false }.buildCameraTransform env).view := by
    simp [W3DView.buildCameraTransform, hslaved, hmissing, W3DView.placeCamera,
      W3DView.translated, W3DView.rotatedSource, W3DView.offsetSource, W3DView.factor,
      W3DView.lookAtPos, W3DView.scaledZoom, W3DView.nextFOV]
  have hf : (v.buildCameraTransform env).view.m_isCameraSlaved = false := by
    simp [W3DView.buildCameraTransform, hslaved, hmissing]
  refine ⟨?_, hv, hf, ?_, ?_⟩
  · simp [W3DView.buildCameraTransform, hslaved, hmissing, W3DView.placeCamera,
      W3DView.translated, W3DView.rotatedSource, W3DView.offsetSource, W3DView.factor,
      W3DView.lookAtPos, W3DView.scaledZoom, W3DView.nextFOV]
  · simp [W3DView.buildCameraTransform, hslaved, hmissing]
  · intro env'
    generalize (v.buildCameraTransform env).view = w at hf
    simp [W3DView.buildCameraTransform, hf]

/-- C7, an instance: the sample view slaved to the unknown unit "Nobody". -/
theorem buildCameraTransform_missing_object_witness :
    (W3DView.sampleSlaved "Nobody").m_isCameraSlaved = true ∧
    ViewEnv.sample.getUnitNamed (W3DView.sampleSlaved "Nobody").m_cameraSlaveObjectName = none ∧
    ((W3DView.sampleSlaved "Nobody").buildCameraTransform ViewEnv.sample).view.m_isCameraSlaved
      = false :=
  ⟨rfl, by rfl, (buildCameraTransform_missing_object ViewEnv.sample
    (W3DView.sampleSlaved "Nobody") rfl (by rfl)).2.2.1⟩

/-- C8 (the code at a failing input): the sample view is slaved to "NoInterface",
a unit that exists and has a drawable none of whose draw modules has an
`ObjectDrawInterface`; after `buildCameraTransform` the binding is still
active, and the next call looks the unit up again. -/
theorem buildCameraTransform_keeps_binding_without_interface :
    (W3DView.sampleSlaved "NoInterface").m_isCameraSlaved = true ∧
    (ViewEnv.sample.getUnitNamed "NoInterface").isSome = true ∧
    ((W3DView.sampleSlaved "NoInterface").buildCameraTransform
      ViewEnv.sample).view.m_isCameraSlaved = true ∧
    (((W3DView.sampleSlaved "NoInterface").buildCameraTransform
      ViewEnv.sample).view.buildCameraTransform ViewEnv.sample).lookups = ["NoInterface"] := by
  refine ⟨rfl, by decide, ?_, ?_⟩
  · simp [W3DView.buildCameraTransform, W3DView.sampleSlaved, W3DView.sample, ViewEnv.sample,
      Object.withoutInterface, firstBoneTransform]
  · simp [W3DView.buildCameraTransform, W3DView.sampleSlaved, W3DView.sample, ViewEnv.sample,
      Object.withoutInterface, firstBoneTransform]

/-- C9 (amended): without the real zoom camera, `buildCameraTransform` applies
exactly one of two corrections, selected by the effects pitch: for
`m_FXPitch ≤ 1` only the target height changes
(`target.Z = source.Z - (source.Z - target.Z) * m_FXPitch`, source unchanged),
for `m_FXPitch > 1` only the horizontal offset of the source from the target
is divided by `m_FXPitch` (target unchanged). With the real zoom camera the
horizontal offset of the source is divided by the effects pitch whatever its
value, and the target is unchanged. In no case are both the target and the
horizontal position of the source changed. -/
theorem buildCameraTransform_fxPitch_exclusive (env : ViewEnv) (v : W3DView) :
    (v.m_useRealZoomCam = false → v.m_FXPitch ≤ 1 →
      (v.buildCameraTransform env).sourcePos = (v.translated env).1 ∧
      (v.buildCameraTransform env).targetPos =
        { (v.translated env).2 with
          Z := (v.translated env).1.Z -
            ((v.translated env).1.Z - (v.translated env).2.Z) * v.m_FXPitch }) ∧
    (v.m_useRealZoomCam = false → 1 < v.m_FXPitch →
      (v.buildCameraTransform env).targetPos = (v.translated env).2 ∧
      (v.buildCameraTransform env).sourcePos =
        { (v.translated env).1 with
          X := (v.translated env).2.X +
            ((v.translated env).1.X - (v.translated env).2.X) / v.m_FXPitch
          Y := (v.translated env).2.Y +
            ((v.translated env).1.Y - (v.translated env).2.Y) / v.m_FXPitch }) ∧
    (v.m_useRealZoomCam = true →
      (v.buildCameraTransform env).targetPos = (v.translated env).2 ∧
      (v.buildCameraTransform env).sourcePos =
        { (realZoomAdjust env.isLetterBoxed v.scaledZoom (v.translated env).1).1 with
          X := (v.translated env).2.X +
            ((v.translated env).1.X - (v.translated env).2.X) /
              (v.buildCameraTransform env).view.m_FXPitch
          Y := (v.translated env).2.Y +
            ((v.translated env).1.Y - (v.translated env).2.Y) /
              (v.buildCameraTransform env).view.m_FXPitch }) ∧
    ((v.buildCameraTransform env).targetPos = (v.translated env).2 ∨
      ((v.buildCameraTransform env).sourcePos.X = (v.translated env).1.X ∧
       (v.buildCameraTransform env).sourcePos.Y = (v.translated env).1.Y)) := by
  obtain ⟨hs, ht, -⟩ := buildCameraTransform_placement env v
  have hrz : ∀ b z p, (realZoomAdjust b z p).1.X = p.X ∧ (realZoomAdjust b z p).1.Y = p.Y := by
    intro b z p; unfold realZoomAdjust; split_ifs <;> simp
  rw [hs, ht]
  refine ⟨?_, ?_, ?_, ?_⟩
  · intro hmode hfx
    simp [W3DView.placeCamera, hmode, fxPitchAdjust, hfx]
  · intro hmode hfx
    simp [W3DView.placeCamera, hmode, fxPitchAdjust, not_le.mpr hfx]
  · intro hmode
    rw [(buildCameraTransform_FOV_FXPitch env v).2]
    simp [W3DView.placeCamera, hmode, fxPitchAdjust, (hrz _ _ _).1, (hrz _ _ _).2]
  · cases hmode : v.m_useRealZoomCam with
    | true => left; simp [W3DView.placeCamera, hmode, fxPitchAdjust]
    | false =>
      by_cases hfx : v.m_FXPitch ≤ 1
      · right; simp [W3DView.placeCamera, hmode, fxPitchAdjust, hfx]
      · left; simp [W3DView.placeCamera, hmode, fxPitchAdjust, hfx]

/-- C9 (amended), an instance: the sample view (no real zoom camera, effects
pitch 1) keeps its source and only recomputes the target height. -/
theorem buildCameraTransform_fxPitch_exclusive_witness :
    W3DView.sample.m_useRealZoomCam = false ∧ W3DView.sample.m_FXPitch ≤ 1 ∧
    (W3DView.sample.buildCameraTransform ViewEnv.sample).sourcePos =
      (W3DView.sample.translated ViewEnv.sample).1 :=
  ⟨rfl, by norm_num [W3DView.sample],
    ((buildCameraTransform_fxPitch_exclusive ViewEnv.sample W3DView.sample).1 rfl
      (by norm_num [W3DView.sample])).1⟩

/-- C9 (as stated, refuted): for the sample view with the real zoom camera and
zoom 1/2 the effects pitch is `5/8 ≤ 1`, yet the target keeps its height 10
(the claimed height would be `225 - (225 - 10) * 5/8`) and the source is moved
horizontally, from `Y = -430/3` to `Y = -778/3`. -/
theorem buildCameraTransform_realZoom_moves_source :
    (W3DView.sampleRealZoom.buildCameraTransform ViewEnv.sample).view.m_FXPitch = 5 / 8 ∧
    W3DView.sampleRealZoom.translated ViewEnv.sample = (⟨50, -430 / 3, 300⟩, ⟨50, 50, 10⟩) ∧
    realZoomAdjust ViewEnv.sample.isLetterBoxed W3DView.sampleRealZoom.scaledZoom
      (W3DView.sampleRealZoom.translated ViewEnv.sample).1 = (⟨50, -430 / 3, 225⟩, 5 / 8) ∧
    (W3DView.sampleRealZoom.buildCameraTransform ViewEnv.sample).targetPos = ⟨50, 50, 10⟩ ∧
    (W3DView.sampleRealZoom.buildCameraTransform ViewEnv.sample).sourcePos
      = ⟨50, -778 / 3, 225⟩ ∧
    (W3DView.sampleRealZoom.buildCameraTransform ViewEnv.sample).targetPos.Z ≠
      225 - (225 - 10) * (5 / 8) ∧
    (W3DView.sampleRealZoom.buildCameraTransform ViewEnv.sample).sourcePos ≠
      ⟨50, -430 / 3, 225⟩ := by
  have ht : W3DView.sampleRealZoom.translated ViewEnv.sample
      = (⟨50, -430 / 3, 300⟩, ⟨50, 50, 10⟩) := by
    simp [W3DView.translated, W3DView.rotatedSource, W3DView.offsetSource, W3DView.factor,
      W3DView.lookAtPos, W3DView.scaledZoom, rotateAboutX, rotateAboutZ, Vector3.scale,
      clampToConstraint, minf, maxf, W3DView.sampleRealZoom, W3DView.sample, ViewEnv.sample]
    norm_num
  have hc : cappedZoom (W3DView.sampleRealZoom.scaledZoom) = 1 / 2 := by
    norm_num [cappedZoom, MIN_CAPPED_ZOOM, W3DView.scaledZoom, W3DView.sampleRealZoom,
      W3DView.sample]
  obtain ⟨hs, htg, -⟩ := buildCameraTransform_placement ViewEnv.sample W3DView.sampleRealZoom
  have hreal : W3DView.sampleRealZoom.m_useRealZoomCam = true := rfl
  have hlb : ViewEnv.sample.isLetterBoxed = false := rfl
  have htarget : (W3DView.sampleRealZoom.buildCameraTransform ViewEnv.sample).targetPos
      = ⟨50, 50, 10⟩ := by
    rw [htg]
    simp only [W3DView.placeCamera, hreal, if_true, realZoomAdjust, hlb, hc, ht, fxPitchAdjust]
  have hsource : (W3DView.sampleRealZoom.buildCameraTransform ViewEnv.sample).sourcePos
      = ⟨50, -778 / 3, 225⟩ := by
    rw [hs]
    simp only [W3DView.placeCamera, hreal, if_true, realZoomAdjust, hlb, hc, ht, fxPitchAdjust]
    norm_num
  refine ⟨?_, ht, ?_, htarget, hsource, ?_, ?_⟩
  · rw [(buildCameraTransform_FOV_FXPitch _ _).2]
    simp only [W3DView.placeCamera, hreal, if_true, realZoomAdjust, hlb, hc]
    norm_num
  · simp only [realZoomAdjust, hlb, hc, ht]
    norm_num
  · rw [htarget]
    norm_num
  · rw [hsource]
    norm_num

/-- C10: `buildCameraTransform` scales the rotated camera offset by the
perspective factor `1 - groundLevel / offsetZ` and then translates it by the
target position and the ground level. Consequently, without the real zoom
camera, with pitch 0 (cosine 1, sine 0), any yaw angle and effects pitch 1,
the height of the source passed to `Look_At` is exactly
`m_cameraOffset.z * zoom * worldScale`, independent of the ground level, and
the height of the target is the ground level, provided the scaled offset
height is not zero. -/
theorem buildCameraTransform_source_height (env : ViewEnv) (v : W3DView) :
    (v.factor = 1 - v.m_groundLevel / v.offsetSource.Z ∧
      (v.translated env).1 =
        ⟨(v.rotatedSource env).X * v.factor + v.lookAtPos.x,
         (v.rotatedSource env).Y * v.factor + v.lookAtPos.y,
         (v.rotatedSource env).Z * v.factor + v.m_groundLevel⟩ ∧
      (v.translated env).2 = ⟨v.lookAtPos.x, v.lookAtPos.y, v.m_groundLevel⟩) ∧
    (v.m_useRealZoomCam = false → v.m_pitchAngle = 0 → env.cosf 0 = 1 → env.sinf 0 = 0 →
      v.m_FXPitch = 1 → v.m_cameraOffset.z * v.m_zoom * v.m_worldScale ≠ 0 →
      (v.buildCameraTransform env).sourcePos.Z =
        v.m_cameraOffset.z * v.m_zoom * v.m_worldScale ∧
      (v.buildCameraTransform env).targetPos.Z = v.m_groundLevel) := by
  obtain ⟨hs, ht, -⟩ := buildCameraTransform_placement env v
  refine ⟨⟨rfl, ?_, ?_⟩, ?_⟩
  · simp [W3DView.translated, Vector3.scale]
  · simp [W3DView.translated]
  · intro hmode hpitch hcos hsin hfx hz
    have hz' : v.m_cameraOffset.z * (v.m_zoom * v.m_worldScale) ≠ 0 := by
      rw [← mul_assoc]; exact hz
    constructor
    · rw [hs]
      simp only [W3DView.placeCamera, hmode, Bool.false_eq_true, if_false, fxPitchAdjust, hfx,
        le_refl, if_true, W3DView.translated, Vector3.scale, W3DView.rotatedSource,
        rotateAboutZ, rotateAboutX, hpitch, hcos, hsin, W3DView.factor, W3DView.offsetSource,
        W3DView.scaledZoom]
      field_simp
      ring
    · rw [ht]
      simp only [W3DView.placeCamera, hmode, Bool.false_eq_true, if_false, fxPitchAdjust, hfx,
        le_refl, if_true, W3DView.translated, Vector3.scale]
      ring

/-- C10, an instance: the sample view, source height 300. -/
theorem buildCameraTransform_source_height_witness :
    W3DView.sample.m_useRealZoomCam = false ∧ W3DView.sample.m_pitchAngle = 0 ∧
    ViewEnv.sample.cosf 0 = 1 ∧ ViewEnv.sample.sinf 0 = 0 ∧ W3DView.sample.m_FXPitch = 1 ∧
    W3DView.sample.m_cameraOffset.z * W3DView.sample.m_zoom * W3DView.sample.m_worldScale ≠ 0 ∧
    (W3DView.sample.buildCameraTransform ViewEnv.sample).sourcePos.Z =
      W3DView.sample.m_cameraOffset.z * W3DView.sample.m_zoom * W3DView.sample.m_worldScale :=
  ⟨rfl, rfl, by norm_num [ViewEnv.sample], by norm_num [ViewEnv.sample], rfl,
    by norm_num [W3DView.sample],
    ((buildCameraTransform_source_height ViewEnv.sample W3DView.sample).2 rfl rfl
      (by norm_num [ViewEnv.sample]) (by norm_num [ViewEnv.sample]) rfl
      (by norm_num [W3DView.sample])).1⟩

/-! ## Theorems: capacity and fans of the dynamic mesh -/

/-- `End_Vertex` succeeds exactly when both assertions hold. -/
theorem End_Vertex_isSome_iff (m : DynamicMeshClass) :
    (m.End_Vertex).isSome = true ↔
      (m.VertCount < m.Model.VertexCount ∧
        (m.TriVertexCount + 1 ≥ 3 → m.PolyCount < m.Model.PolyCount)) := by
  unfold DynamicMeshClass.End_Vertex
  by_cases hv : m.VertCount < m.Model.VertexCount
  · rw [if_neg (not_not.mpr hv)]
    dsimp only
    by_cases h3 : m.TriVertexCount + 1 ≥ 3
    · rw [if_pos h3]
      by_cases hp : m.PolyCount < m.Model.PolyCount
      · rw [if_neg (not_not.mpr hp)]
        simp [hv, hp]
      · rw [if_pos hp]
        simp [hv, hp, h3]
    · rw [if_neg h3]
      simp [hv, h3]
  · rw [if_pos hv]
    simp [hv]

/-- What a successful `End_Vertex` does to the counters: one more vertex, one
more polygon exactly when a triangle is due, capacities unchanged, and both
assertions held. -/
theorem End_Vertex_counts (m m' : DynamicMeshClass) (h : m.End_Vertex = some m') :
    m'.VertCount = m.VertCount + 1 ∧
    m'.TriVertexCount = m.TriVertexCount + 1 ∧
    m'.PolyCount = (if m.TriVertexCount + 1 ≥ 3 then m.PolyCount + 1 else m.PolyCount) ∧
    m'.Model.VertexCount = m.Model.VertexCount ∧
    m'.Model.PolyCount = m.Model.PolyCount ∧
    m.VertCount < m.Model.VertexCount ∧
    (m.TriVertexCount + 1 ≥ 3 → m.PolyCount < m.Model.PolyCount) := by
  have hs := (End_Vertex_isSome_iff m).mp (by rw [h]; rfl)
  obtain ⟨hv, hp⟩ := hs
  unfold DynamicMeshClass.End_Vertex at h
  rw [if_neg (not_not.mpr hv)] at h
  dsimp only at h
  by_cases h3 : m.TriVertexCount + 1 ≥ 3
  · rw [if_pos h3, if_neg (not_not.mpr (hp h3))] at h
    simp only [Option.some.injEq] at h
    subst h
    simp [h3, DynamicMeshModel.Set_Counts, hv, hp h3]
  · rw [if_neg h3] at h
    simp only [Option.some.injEq] at h
    subst h
    simp [h3, hv]

/-- The capacity invariant is kept by every successful `End_Vertex`. -/
theorem End_Vertex_capacity (m m' : DynamicMeshClass) (h : m.End_Vertex = some m')
    (hp : m.PolyCount ≤ m.Model.PolyCount) :
    m'.VertCount ≤ m'.Model.VertexCount ∧ m'.PolyCount ≤ m'.Model.PolyCount := by
  obtain ⟨h1, _, h3, h4, h5, h6, h7⟩ := End_Vertex_counts m m' h
  rw [h1, h3, h4, h5]
  constructor
  · omega
  · split_ifs with ht
    · have := h7 ht; omega
    · exact hp

theorem feed_capacity (n : Nat) : ∀ (m m' : DynamicMeshClass), m.feed n = some m' →
    m.VertCount ≤ m.Model.VertexCount → m.PolyCount ≤ m.Model.PolyCount →
    m'.VertCount ≤ m'.Model.VertexCount ∧ m'.PolyCount ≤ m'.Model.PolyCount ∧
    m'.Model.VertexCount = m.Model.VertexCount ∧ m'.Model.PolyCount = m.Model.PolyCount := by
  induction n with
  | zero =>
    intro m m' h hv hp
    simp only [DynamicMeshClass.feed, Option.some.injEq] at h
    subst h
    exact ⟨hv, hp, rfl, rfl⟩
  | succ n ih =>
    intro m m' h hv hp
    simp only [DynamicMeshClass.feed] at h
    cases h1 : m.End_Vertex with
    | none => simp [h1] at h
    | some m1 =>
      simp only [h1, Option.some_bind] at h
      obtain ⟨c1, c2⟩ := End_Vertex_capacity m m1 h1 hp
      obtain ⟨_, _, _, e4, e5, _, _⟩ := End_Vertex_counts m m1 h1
      obtain ⟨r1, r2, r3, r4⟩ := ih m1 m' h c1 c2
      exact ⟨r1, r2, r3.trans e4, r4.trans e5⟩

/-- C19: in every state reached from a freshly constructed mesh by successful
`End_Vertex` calls the number of vertices is at most `maxVertices` and the
number of polygons at most `maxPolygons`, the two capacities being the ones
given at construction; a successful `End_Vertex` keeps both bounds from any
state; `End_Vertex` on a mesh whose vertex count equals `maxVertices` fails
its assertion, as it does when a triangle is due and the polygon count equals
`maxPolygons`; these two are the only ways in which it fails. -/
theorem End_Vertex_capacity_invariant :
    (∀ (max_poly max_vert MAX_PASSES MAX_COLOR_ARRAYS passes n : Nat) (m : DynamicMeshClass),
      (DynamicMeshClass.new max_poly max_vert MAX_PASSES MAX_COLOR_ARRAYS passes).feed n = some m →
      m.VertCount ≤ max_vert ∧ m.PolyCount ≤ max_poly ∧
      m.Model.VertexCount = max_vert ∧ m.Model.PolyCount = max_poly) ∧
    (∀ m m' : DynamicMeshClass, m.End_Vertex = some m' →
      m.PolyCount ≤ m.Model.PolyCount →
      m'.VertCount ≤ m'.Model.VertexCount ∧ m'.PolyCount ≤ m'.Model.PolyCount) ∧
    (∀ m : DynamicMeshClass, m.VertCount = m.Model.VertexCount → m.End_Vertex = none) ∧
    (∀ m : DynamicMeshClass, m.TriVertexCount + 1 ≥ 3 → m.PolyCount = m.Model.PolyCount →
      m.End_Vertex = none) ∧
    (∀ m : DynamicMeshClass, (m.End_Vertex).isSome = true ↔
      (m.VertCount < m.Model.VertexCount ∧
        (m.TriVertexCount + 1 ≥ 3 → m.PolyCount < m.Model.PolyCount))) := by
  refine ⟨?_, End_Vertex_capacity, ?_, ?_, End_Vertex_isSome_iff⟩
  · intro P V a b c n m h
    have := feed_capacity n _ m h (by simp [DynamicMeshClass.new, DynamicMeshModel.new])
      (by simp [DynamicMeshClass.new, DynamicMeshModel.new])
    simp only [DynamicMeshClass.new, DynamicMeshModel.new] at this
    obtain ⟨h1, h2, h3, h4⟩ := this
    exact ⟨h3 ▸ h1, h4 ▸ h2, h3, h4⟩
  · intro m hv
    have := End_Vertex_isSome_iff m
    cases h : m.End_Vertex with
    | none => rfl
    | some m' =>
      rw [h] at this
      have := (this.mp rfl).1
      omega
  · intro m h3 hp
    have := End_Vertex_isSome_iff m
    cases h : m.End_Vertex with
    | none => rfl
    | some m' =>
      rw [h] at this
      have := (this.mp rfl).2 h3
      omega

/-- C19, an instance: five vertices fill a fresh mesh with room for three
polygons and five vertices, and the sixth `End_Vertex` fails. -/
theorem End_Vertex_capacity_invariant_witness :
    ∃ m, (DynamicMeshClass.new 3 5 4 2 1).feed 5 = some m ∧
      (m.VertCount ≤ (5 : Nat) ∧ m.PolyCount ≤ (3 : Nat) ∧
        m.Model.VertexCount = (5 : Nat) ∧ m.Model.PolyCount = (3 : Nat)) ∧
      m.End_Vertex = none := by
  obtain ⟨m, hm, -, hvc, -⟩ := feed_strip 3 5 4 2 1 5 (by decide) (by decide) (by decide)
  have hb := End_Vertex_capacity_invariant.1 3 5 4 2 1 5 m hm
  exact ⟨m, hm, hb, End_Vertex_capacity_invariant.2.2.1 m (by rw [hvc, hb.2.2.1])⟩

theorem fanInv_step (P V f v0 p0 : Int) (old : List TriIndex) (j : Nat) (m : DynamicMeshClass)
    (h : FanInv P V f v0 p0 old j m) (hp0 : 0 ≤ p0)
    (hv : v0 + j < V) (hp : p0 + ((j + 1 - 2 : Nat) : Int) ≤ P)
    (hlen : P ≤ old.length) :
    ∃ m', m.End_Vertex = some m' ∧ FanInv P V f v0 p0 old (j + 1) m' := by
  obtain ⟨mode, fan, vc, tvc, pc, maxP, maxV, len, hnew, kept⟩ := h
  have hv' : m.VertCount < m.Model.VertexCount := by rw [vc, maxV]; exact hv
  unfold DynamicMeshClass.End_Vertex
  rw [if_neg (not_not.mpr hv')]
  dsimp only
  by_cases h3 : j + 1 < 3
  · have h3' : ¬ (m.TriVertexCount + 1 ≥ 3) := by rw [tvc]; push_neg; exact_mod_cast h3
    rw [if_neg h3']
    refine ⟨_, rfl, ?_⟩
    have hj : j - 2 = 0 := by omega
    have hj' : j + 1 - 2 = 0 := by omega
    constructor
    · exact mode
    · exact fan
    · simp only [vc]; push_cast; ring
    · simp only [tvc]; push_cast; ring
    · simp only [pc, hj, hj']
    · exact maxP
    · exact maxV
    · exact len
    · intro k hk; omega
    · exact kept
  · push_neg at h3
    have h3' : m.TriVertexCount + 1 ≥ 3 := by rw [tvc]; exact_mod_cast h3
    have e1 : j + 1 - 2 = (j - 2) + 1 := by omega
    have hp' : m.PolyCount < m.Model.PolyCount := by
      rw [pc, maxP]; rw [e1] at hp; push_cast at hp; omega
    rw [if_pos h3', if_neg (not_not.mpr hp')]
    refine ⟨_, rfl, ?_⟩
    have hidx : m.PolyCount.toNat = p0.toNat + (j - 2) := by rw [pc]; omega
    have hin : p0.toNat + (j - 2) < m.Model.Poly.length := by
      rw [len]
      have : p0 + ((j - 2 : Nat) : Int) < P := by rw [pc, maxP] at hp'; exact hp'
      omega
    constructor
    · exact mode
    · exact fan
    · simp only [vc]; push_cast; ring
    · simp only [tvc]; push_cast; ring
    · simp only [pc, e1]; push_cast; ring
    · simp [DynamicMeshModel.Set_Counts, maxP]
    · simp [DynamicMeshModel.Set_Counts, maxV]
    · simp [DynamicMeshModel.Set_Counts, len]
    · intro k hk
      simp only [DynamicMeshModel.Set_Counts, mode, hidx, fan, vc]
      by_cases hkj : k = j - 2
      · subst hkj
        rw [List.getElem?_set_self hin]
        simp only [Option.some.injEq, TriIndex.mk.injEq, true_and]
        constructor <;> omega
      · rw [List.getElem?_set_ne (by omega)]
        exact hnew k (by omega)
    · intro i hi
      simp only [DynamicMeshModel.Set_Counts, hidx]
      rw [List.getElem?_set_ne (by omega)]
      exact kept i hi

theorem fanInv_feed (P V f v0 p0 : Int) (old : List TriIndex) (hp0 : 0 ≤ p0)
    (hlen : P ≤ old.length) (n : Nat) :
    ∀ (j : Nat) (m : DynamicMeshClass), FanInv P V f v0 p0 old j m →
      v0 + (j + n : Nat) ≤ V → p0 + ((j + n - 2 : Nat) : Int) ≤ P →
      ∃ m', m.feed n = some m' ∧ FanInv P V f v0 p0 old (j + n) m' := by
  induction n with
  | zero => intro j m h _ _; exact ⟨m, rfl, h⟩
  | succ n ih =>
    intro j m h hv hp
    obtain ⟨m1, h1, inv1⟩ := fanInv_step P V f v0 p0 old j m h hp0 (by push_cast at hv; omega)
      (by omega) hlen
    obtain ⟨m2, h2, inv2⟩ := ih (j + 1) m1 inv1 (by push_cast at hv ⊢; omega) (by
      rw [show j + 1 + n = j + (n + 1) by omega]; exact hp)
    refine ⟨m2, ?_, ?_⟩
    · simp [DynamicMeshClass.feed, h1, h2]
    · rw [show j + (n + 1) = j + 1 + n by omega]; exact inv2

theorem fanInv_start (m : DynamicMeshClass) (hmode : m.TriMode = .TRI_MODE_FANS)
    (htri : m.TriVertexCount = 0) :
    FanInv m.Model.PolyCount m.Model.VertexCount m.FanVertex m.VertCount m.PolyCount
      m.Model.Poly 0 m := by
  constructor <;> simp [hmode, htri]

/-- C20: in fan mode, `n >= 3` vertices fed through `End_Vertex` into a mesh
that has just been reset to a new primitive (`TriVertexCount = 0`) and has
room for them all succeed and add exactly `n - 2` triangles; the `k`-th of
them is `(FanVertex, v0 + k + 1, v0 + k + 2)` for the vertex count `v0` at the
reset, which is `(FanVertex, VertCount - 2, VertCount - 1)` at the moment it
is written, with the same pivot `FanVertex` in every triangle and no exchange
of the last two indices; earlier polygons are kept, the first two vertices
add no polygon, and every successful `End_Vertex` adds exactly one vertex. -/
theorem End_Vertex_fan_triangles (m : DynamicMeshClass) (n : Nat)
    (hmode : m.TriMode = .TRI_MODE_FANS) (htri : m.TriVertexCount = 0)
    (hp0 : 0 ≤ m.PolyCount) (hlen : m.Model.PolyCount ≤ m.Model.Poly.length)
    (hn : 3 ≤ n) (hv : m.VertCount + n ≤ m.Model.VertexCount)
    (hp : m.PolyCount + ((n - 2 : Nat) : Int) ≤ m.Model.PolyCount) :
    (∃ m', m.feed n = some m' ∧
      m'.VertCount = m.VertCount + n ∧
      m'.PolyCount = m.PolyCount + ((n - 2 : Nat) : Int) ∧
      m'.FanVertex = m.FanVertex ∧
      (∀ k : Nat, k < n - 2 → m'.Model.Poly[m.PolyCount.toNat + k]? =
        some ⟨m.FanVertex, m.VertCount + k + 1, m.VertCount + k + 2⟩) ∧
      (∀ i : Nat, i < m.PolyCount.toNat → m'.Model.Poly[i]? = m.Model.Poly[i]?)) ∧
    (∃ m1 m2, m.feed 1 = some m1 ∧ m.feed 2 = some m2 ∧
      m1.PolyCount = m.PolyCount ∧ m2.PolyCount = m.PolyCount) ∧
    (∀ a b : DynamicMeshClass, a.End_Vertex = some b → b.VertCount = a.VertCount + 1) := by
  have h0 := fanInv_start m hmode htri
  refine ⟨?_, ?_, ?_⟩
  · obtain ⟨m', h1, inv⟩ := fanInv_feed _ _ _ _ _ _ hp0 hlen n 0 m h0
      (by rw [Nat.zero_add]; exact hv) (by rw [Nat.zero_add]; exact hp)
    rw [Nat.zero_add] at inv
    exact ⟨m', h1, inv.vc, inv.pc, inv.fan, inv.new, inv.kept⟩
  · obtain ⟨m1, h1, inv1⟩ := fanInv_feed _ _ _ _ _ _ hp0 hlen 1 0 m h0
      (by push_cast; omega) (by simp; omega)
    obtain ⟨m2, h2, inv2⟩ := fanInv_feed _ _ _ _ _ _ hp0 hlen 2 0 m h0
      (by push_cast; omega) (by simp; omega)
    refine ⟨m1, m2, h1, h2, ?_, ?_⟩
    · simpa using inv1.pc
    · simpa using inv2.pc
  · intro a b h
    exact (End_Vertex_counts a b h).1

/-- C20, an instance: five vertices into a fresh fan-mode mesh with room for
three polygons and five vertices give three triangles around the pivot. -/
theorem End_Vertex_fan_triangles_witness :
    DynamicMeshClass.sampleFan.TriMode = .TRI_MODE_FANS ∧
    DynamicMeshClass.sampleFan.TriVertexCount = 0 ∧
    0 ≤ DynamicMeshClass.sampleFan.PolyCount ∧
    DynamicMeshClass.sampleFan.Model.PolyCount ≤ DynamicMeshClass.sampleFan.Model.Poly.length ∧
    3 ≤ 5 ∧
    DynamicMeshClass.sampleFan.VertCount + (5 : Nat) ≤ DynamicMeshClass.sampleFan.Model.VertexCount ∧
    DynamicMeshClass.sampleFan.PolyCount + ((5 - 2 : Nat) : Int) ≤
      DynamicMeshClass.sampleFan.Model.PolyCount ∧
    (∃ m', DynamicMeshClass.sampleFan.feed 5 = some m' ∧
      m'.VertCount = DynamicMeshClass.sampleFan.VertCount + (5 : Nat) ∧
      m'.PolyCount = DynamicMeshClass.sampleFan.PolyCount + ((5 - 2 : Nat) : Int) ∧
      (∀ k : Nat, k < 5 - 2 → m'.Model.Poly[DynamicMeshClass.sampleFan.PolyCount.toNat + k]? =
        some ⟨DynamicMeshClass.sampleFan.FanVertex, DynamicMeshClass.sampleFan.VertCount + k + 1,
          DynamicMeshClass.sampleFan.VertCount + k + 2⟩)) :=
  ⟨rfl, rfl, by decide, by decide, by decide, by decide, by decide,
    by
      obtain ⟨m', h1, h2, h3, -, h5, -⟩ := (End_Vertex_fan_triangles DynamicMeshClass.sampleFan 5
        rfl rfl (by decide) (by decide) (by decide) (by decide) (by decide)).1
      exact ⟨m', h1, h2, h3, h5⟩⟩

/-! ## Theorems: starting and stopping playback -/

/-- What `stopMovie` leaves. -/
theorem stopMovie_fields (d : Display) :
    d.stopMovie.isMoviePlaying = false ∧ d.stopMovie.m_videoStream = none ∧
    d.stopMovie.m_videoBuffer = none ∧ d.stopMovie.m_currentlyPlayingMovie = "" ∧
    d.stopMovie.m_movieHoldTime = -1 ∧ d.stopMovie.m_copyrightHoldTime = -1 ∧
    d.stopMovie.m_copyrightDisplayString = none := by
  simp [Display.stopMovie, Display.isMoviePlaying]

theorem stopMovie_idem (d : Display) : d.stopMovie.stopMovie = d.stopMovie := by
  simp [Display.stopMovie]

theorem stopMovie_coherent (d : Display) (h : d.streamsCoherent) :
    d.stopMovie.streamsCoherent ∧ d.stopMovie.openStreams = 0 := by
  unfold Display.streamsCoherent at h ⊢
  cases hs : d.m_videoStream <;> simp [Display.stopMovie, hs] at h ⊢ <;> omega

theorem playMovie_coherent (d : Display) (env : PlayEnv) (movieName : String)
    (h : d.streamsCoherent) : (d.playMovie env movieName).streamsCoherent := by
  obtain ⟨h1, h2⟩ := stopMovie_coherent d h
  have hs : d.stopMovie.m_videoStream = none := (stopMovie_fields d).2.1
  unfold Display.playMovie
  generalize d.stopMovie = e at h1 h2 hs
  unfold Display.streamsCoherent at h1 ⊢
  cases ho : env.opened with
  | none => simpa [ho] using h1
  | some s =>
    cases hc : env.created <;> cases ha : env.allocated <;>
      simp [ho, hc, ha, Display.stopMovie, h2]

theorem playLogoMovie_coherent (d : Display) (env : PlayEnv) (movieName : String)
    (minMovieLength minCopyrightLength : Int) (h : d.streamsCoherent) :
    (d.playLogoMovie env movieName minMovieLength minCopyrightLength).streamsCoherent := by
  obtain ⟨h1, h2⟩ := stopMovie_coherent d h
  have hs : d.stopMovie.m_videoStream = none := (stopMovie_fields d).2.1
  unfold Display.playLogoMovie
  generalize d.stopMovie = e at h1 h2 hs
  unfold Display.streamsCoherent at h1 ⊢
  cases ho : env.opened with
  | none => simpa [ho] using h1
  | some s =>
    cases hc : env.created <;> cases ha : env.allocated <;>
      simp [ho, hc, ha, Display.stopMovie, h2]

theorem streamsCoherent_le_one (d : Display) (h : d.streamsCoherent) : d.openStreams ≤ 1 := by
  unfold Display.streamsCoherent at h
  rw [h]
  split_ifs <;> omega

/-- C17: when the stream cannot be opened, or the video buffer cannot be
created or allocated, `playMovie` and `playLogoMovie` leave no playback state:
`isMoviePlaying` is false, stream and buffer are null, the movie name is empty
and both hold times are -1. Both functions stop the movie that was playing
before they do anything else (starting on `d` is starting on `d.stopMovie`),
and if the display held every open stream before the call (one when its
stream pointer is set, none otherwise), no stream is open once the old movie
is stopped, the display holds every open stream after the call, and at most
one stream is open. -/
theorem play_failure_leaves_no_playback (d : Display) (env : PlayEnv) (movieName : String)
    (minMovieLength minCopyrightLength : Int) :
    ((env.opened = none ∨ env.created = false ∨ env.allocated = false) →
      ((d.playMovie env movieName).isMoviePlaying = false ∧
        (d.playMovie env movieName).m_videoStream = none ∧
        (d.playMovie env movieName).m_videoBuffer = none ∧
        (d.playMovie env movieName).m_currentlyPlayingMovie = "" ∧
        (d.playMovie env movieName).m_movieHoldTime = -1 ∧
        (d.playMovie env movieName).m_copyrightHoldTime = -1) ∧
      ((d.playLogoMovie env movieName minMovieLength minCopyrightLength).isMoviePlaying = false ∧
        (d.playLogoMovie env movieName minMovieLength minCopyrightLength).m_videoStream = none ∧
        (d.playLogoMovie env movieName minMovieLength minCopyrightLength).m_videoBuffer = none ∧
        (d.playLogoMovie env movieName minMovieLength minCopyrightLength).m_currentlyPlayingMovie
          = "" ∧
        (d.playLogoMovie env movieName minMovieLength minCopyrightLength).m_movieHoldTime = -1 ∧
        (d.playLogoMovie env movieName minMovieLength minCopyrightLength).m_copyrightHoldTime
          = -1)) ∧
    (d.playMovie env movieName = d.stopMovie.playMovie env movieName ∧
      d.playLogoMovie env movieName minMovieLength minCopyrightLength =
        d.stopMovie.playLogoMovie env movieName minMovieLength minCopyrightLength) ∧
    (d.streamsCoherent →
      d.stopMovie.openStreams = 0 ∧
      (d.playMovie env movieName).streamsCoherent ∧
      (d.playMovie env movieName).openStreams ≤ 1 ∧
      (d.playLogoMovie env movieName minMovieLength minCopyrightLength).streamsCoherent ∧
      (d.playLogoMovie env movieName minMovieLength minCopyrightLength).openStreams ≤ 1) := by
  refine ⟨?_, ⟨?_, ?_⟩, ?_⟩
  · intro hfail
    cases ho : env.opened with
    | none =>
      simp [Display.playMovie, Display.playLogoMovie, ho, Display.stopMovie,
        Display.isMoviePlaying]
    | some s =>
      have hca : env.created = false ∨ env.allocated = false := by
        rcases hfail with h | h | h
        · simp [ho] at h
        · exact Or.inl h
        · exact Or.inr h
      rcases hca with h | h <;>
        simp [Display.playMovie, Display.playLogoMovie, ho, Display.stopMovie,
          Display.isMoviePlaying, h]
  · simp only [Display.playMovie, stopMovie_idem]
  · simp only [Display.playLogoMovie, stopMovie_idem]
  · intro hco
    have k1 := playMovie_coherent d env movieName hco
    have k2 := playLogoMovie_coherent d env movieName minMovieLength minCopyrightLength hco
    exact ⟨(stopMovie_coherent d hco).2, k1, streamsCoherent_le_one _ k1, k2,
      streamsCoherent_le_one _ k2⟩

/-- C17, an instance: a second movie whose stream cannot be opened, started
while the sample movie plays. -/
theorem play_failure_leaves_no_playback_witness :
    (PlayEnv.cannotOpen.opened = none ∨ PlayEnv.cannotOpen.created = false ∨
      PlayEnv.cannotOpen.allocated = false) ∧
    Display.samplePlaying.isMoviePlaying = true ∧
    Display.samplePlaying.streamsCoherent ∧
    (Display.samplePlaying.playMovie PlayEnv.cannotOpen "Credits").isMoviePlaying = false ∧
    (Display.samplePlaying.playMovie PlayEnv.cannotOpen "Credits").m_videoStream = none ∧
    (Display.samplePlaying.playMovie PlayEnv.cannotOpen "Credits").m_currentlyPlayingMovie = "" ∧
    (Display.samplePlaying.playMovie PlayEnv.sample "Credits").openStreams ≤ 1 :=
  ⟨Or.inl rfl, by decide, by decide,
    ((play_failure_leaves_no_playback Display.samplePlaying PlayEnv.cannotOpen "Credits" 0 0).1
      (Or.inl rfl)).1.1,
    ((play_failure_leaves_no_playback Display.samplePlaying PlayEnv.cannotOpen "Credits" 0 0).1
      (Or.inl rfl)).1.2.1,
    ((play_failure_leaves_no_playback Display.samplePlaying PlayEnv.cannotOpen "Credits" 0 0).1
      (Or.inl rfl)).1.2.2.2.1,
    ((play_failure_leaves_no_playback Display.samplePlaying PlayEnv.sample "Credits" 0 0).2.2
      (by decide)).2.2.1⟩

/-- C18: `stopMovie` is idempotent: a second call right after the first
changes nothing; after `stopMovie`, `isMoviePlaying` is false, the name of the
playing movie is empty, both hold times are -1, and stream and buffer are
null. When no stream is set, `stopMovie` closes none. -/
theorem stopMovie_idempotent (d : Display) :
    d.stopMovie.stopMovie = d.stopMovie ∧
    d.stopMovie.isMoviePlaying = false ∧
    d.stopMovie.m_currentlyPlayingMovie = "" ∧
    d.stopMovie.m_movieHoldTime = -1 ∧ d.stopMovie.m_copyrightHoldTime = -1 ∧
    d.stopMovie.m_videoStream = none ∧ d.stopMovie.m_videoBuffer = none ∧
    d.stopMovie.stopMovie.openStreams = d.stopMovie.openStreams := by
  obtain ⟨h1, h2, h3, h4, h5, h6, _⟩ := stopMovie_fields d
  exact ⟨stopMovie_idem d, h1, h4, h5, h6, h2, h3, by rw [stopMovie_idem]⟩

/-! ## Theorems: display size and views -/

theorem roundNearestEven_of_lt (x : ℚ) (n : Int) (h1 : (n : ℚ) - 1 / 2 < x)
    (h2 : x < (n : ℚ) + 1 / 2) : roundNearestEven x = n := by
  unfold roundNearestEven
  by_cases h : (n : ℚ) ≤ x
  · have hf : ⌊x⌋ = n := Int.floor_eq_iff.2 ⟨h, by linarith⟩
    simp only [hf]
    rw [if_pos (by linarith)]
  · push_neg at h
    have hf : ⌊x⌋ = n - 1 := Int.floor_eq_iff.2 ⟨by push_cast; linarith, by push_cast; linarith⟩
    simp only [hf]
    rw [if_neg (by push_cast; linarith), if_pos (by push_cast; linarith)]
    ring

theorem roundToReal_of_bounds (q : ℚ) (e n : Int) (hq : 0 < q) (he : -126 ≤ e)
    (h1 : (2 : ℚ) ^ e ≤ q) (h2 : q < (2 : ℚ) ^ (e + 1))
    (hlo : ((n : ℚ) - 1 / 2) * 2 ^ (e - 23) < q) (hhi : q < ((n : ℚ) + 1 / 2) * 2 ^ (e - 23)) :
    roundToReal q = (n : ℚ) * 2 ^ (e - 23) := by
  have hlog : Int.log 2 |q| = e := by
    rw [abs_of_pos hq]
    apply le_antisymm
    · have := (Int.lt_zpow_iff_log_lt (b := 2) (by norm_num) hq (x := e + 1)).1
        (by exact_mod_cast h2)
      omega
    · exact (Int.zpow_le_iff_le_log (b := 2) (by norm_num) hq).1 (by exact_mod_cast h1)
  have hu : (0 : ℚ) < 2 ^ (e - 23) := zpow_pos (by norm_num) _
  unfold roundToReal
  rw [if_neg (ne_of_gt hq)]
  simp only [hlog, max_eq_left he]
  rw [roundNearestEven_of_lt _ n]
  · rw [lt_div_iff₀ hu]; exact hlo
  · rw [div_lt_iff₀ hu]; exact hhi

theorem roundToReal_zero : roundToReal 0 = 0 := by
  simp [roundToReal]

theorem roundToReal_one : roundToReal 1 = 1 := by
  have := roundToReal_of_bounds 1 0 8388608 (by norm_num) (by norm_num) (by norm_num)
    (by norm_num) (by norm_num) (by norm_num)
  rw [this]
  norm_num

theorem roundToReal_exact (q : ℚ) (e n : Int) (hq : 0 < q) (he : -126 ≤ e)
    (h1 : (2 : ℚ) ^ e ≤ q) (h2 : q < (2 : ℚ) ^ (e + 1)) (hn : q = (n : ℚ) * 2 ^ (e - 23)) :
    roundToReal q = q := by
  have hu : (0 : ℚ) < 2 ^ (e - 23) := zpow_pos (by norm_num) _
  rw [roundToReal_of_bounds q e n hq he h1 h2 (by rw [hn]; nlinarith) (by rw [hn]; nlinarith)]
  exact hn.symm

theorem roundToReal_natCast (k : Nat) (hk : k ≤ 16777216) : roundToReal (k : ℚ) = k := by
  rcases Nat.eq_zero_or_pos k with rfl | hpos
  · simp [roundToReal]
  · have h1 : 2 ^ Nat.log 2 k ≤ k := Nat.pow_log_le_self 2 hpos.ne'
    have h2 : k < 2 ^ (Nat.log 2 k + 1) := Nat.lt_pow_succ_log_self (by norm_num) k
    have h1q : (2 : ℚ) ^ ((Nat.log 2 k : ℕ) : ℤ) ≤ (k : ℚ) := by
      rw [zpow_natCast]; exact_mod_cast h1
    have h2q : (k : ℚ) < (2 : ℚ) ^ (((Nat.log 2 k : ℕ) : ℤ) + 1) := by
      rw [show ((Nat.log 2 k : ℕ) : ℤ) + 1 = ((Nat.log 2 k + 1 : ℕ) : ℤ) by push_cast; rfl,
        zpow_natCast]
      exact_mod_cast h2
    have hkq : (0 : ℚ) < (k : ℚ) := by exact_mod_cast hpos
    by_cases h23 : Nat.log 2 k ≤ 23
    · refine roundToReal_exact (k : ℚ) (Nat.log 2 k : ℕ) ((k * 2 ^ (23 - Nat.log 2 k) : ℕ) : ℤ)
        hkq (by omega) h1q h2q ?_
      rw [zpow_sub₀ (by norm_num : (2 : ℚ) ≠ 0), zpow_natCast]
      have hp : (2 : ℚ) ^ (23 - Nat.log 2 k) * 2 ^ Nat.log 2 k = 2 ^ (23 : ℤ) := by
        rw [← pow_add, Nat.sub_add_cancel h23]; norm_num
      push_cast
      rw [← hp]
      field_simp
      ring
    · push_neg at h23
      have h24 : 2 ^ 24 ≤ 2 ^ Nat.log 2 k := Nat.pow_le_pow_right (by norm_num) h23
      have hk24 : k = 16777216 := by
        norm_num at h24
        omega
      subst hk24
      have := roundToReal_exact 16777216 24 8388608 (by norm_num) (by norm_num) (by norm_num)
        (by norm_num) (by norm_num)
      simpa using this

theorem floor_le_roundNearestEven (x : ℚ) : ⌊x⌋ ≤ roundNearestEven x := by
  unfold roundNearestEven
  simp only
  split_ifs <;> omega

theorem roundToReal_pos (q : ℚ) (h : 1 ≤ q) : 0 < roundToReal q := by
  have hq : 0 < q := by linarith
  have hlog : 0 ≤ Int.log 2 |q| := by
    rw [abs_of_pos hq]
    exact (Int.zpow_le_iff_le_log (b := 2) (by norm_num) hq).1 (by simpa using h)
  have hle : (2 : ℚ) ^ Int.log 2 |q| ≤ q := by
    have := Int.zpow_log_le_self (b := 2) (by norm_num) hq
    rw [abs_of_pos hq]
    exact_mod_cast this
  unfold roundToReal
  rw [if_neg (ne_of_gt hq)]
  simp only [max_eq_left (by omega : (-126 : ℤ) ≤ Int.log 2 |q|)]
  have hu : (0 : ℚ) < 2 ^ (Int.log 2 |q| - 23) := zpow_pos (by norm_num) _
  have hu2 : (2 : ℚ) ^ (Int.log 2 |q| - 23) ≤ 2 ^ Int.log 2 |q| :=
    zpow_le_zpow_right₀ (by norm_num) (by omega)
  have hx : (1 : ℚ) ≤ q / 2 ^ (Int.log 2 |q| - 23) := by
    rw [le_div_iff₀ hu]; linarith
  have hf : (1 : ℤ) ≤ ⌊q / 2 ^ (Int.log 2 |q| - 23)⌋ := Int.le_floor.2 (by simpa using hx)
  have hr := floor_le_roundNearestEven (q / 2 ^ (Int.log 2 |q| - 23))
  have : (0 : ℚ) < (roundNearestEven (q / 2 ^ (Int.log 2 |q| - 23)) : ℚ) := by
    exact_mod_cast (by omega : (0 : ℤ) < roundNearestEven (q / 2 ^ (Int.log 2 |q| - 23)))
  positivity

theorem truncToInt_natCast (n : Nat) : truncToInt (n : ℚ) = n := by
  unfold truncToInt
  rw [if_pos (by positivity)]
  exact Int.floor_natCast n

/-- A length that covers the display keeps covering it. -/
theorem scaledToDisplay_self (a res : Nat) (ha : a ≠ 0) (hres : res ≤ 16777216) :
    scaledToDisplay a a res = res := by
  have hp : 0 < roundToReal ((a : ℤ) : ℚ) :=
    roundToReal_pos _ (by exact_mod_cast Nat.one_le_iff_ne_zero.2 ha)
  unfold scaledToDisplay mulReal divReal intToReal
  rw [div_self (ne_of_gt hp), roundToReal_one, one_mul]
  have e : roundToReal ((res : ℤ) : ℚ) = res := by
    rw [Int.cast_natCast]; exact roundToReal_natCast res hres
  rw [e, roundToReal_natCast res hres]
  exact truncToInt_natCast res

/-- An origin at 0 stays at 0. -/
theorem scaledToDisplay_zero (a res : Nat) : scaledToDisplay 0 a res = 0 := by
  unfold scaledToDisplay mulReal divReal intToReal
  simp [roundToReal_zero, truncToInt]

theorem scaledToDisplay_375 : scaledToDisplay 375 1080 1440 = 499 := by
  have a : roundToReal 375 = 375 := by simpa using roundToReal_natCast 375 (by norm_num)
  have b : roundToReal 1080 = 1080 := by simpa using roundToReal_natCast 1080 (by norm_num)
  have c : roundToReal 1440 = 1440 := by simpa using roundToReal_natCast 1440 (by norm_num)
  have d : roundToReal (375 / 1080) = 11650844 / 33554432 := by
    have := roundToReal_of_bounds (375 / 1080) (-2) 11650844 (by norm_num) (by norm_num)
      (by norm_num) (by norm_num) (by norm_num) (by norm_num)
    rw [this]; norm_num
  have e : roundToReal (11650844 / 33554432 * 1440) = 16383999 / 32768 := by
    have := roundToReal_of_bounds (11650844 / 33554432 * 1440) 8 16383999 (by norm_num)
      (by norm_num) (by norm_num) (by norm_num) (by norm_num) (by norm_num)
    rw [this]; norm_num
  unfold scaledToDisplay mulReal divReal intToReal
  simp only [Int.cast_ofNat, Nat.cast_ofNat, a, b, c, d, e]
  unfold truncToInt
  rw [if_pos (by norm_num)]
  exact Int.floor_eq_iff.2 ⟨by norm_num, by norm_num⟩

theorem truncToInt_intCast (k : Int) : truncToInt (k : ℚ) = k := by
  unfold truncToInt
  split_ifs <;> simp

theorem getWorldScale_eq_min (d : Display) :
    d.getWorldScale = min ((d.m_width : ℚ) / 1920) ((d.m_height : ℚ) / 1080) := by
  unfold Display.getWorldScale
  simp only
  split_ifs with h
  · exact (min_eq_left (le_of_lt h)).symm
  · exact (min_eq_right (not_lt.mp h)).symm

theorem W3DView.setWidth_fields (PI : ℚ) (d : Display) (v : W3DView) (width : Int) :
    (W3DView.setWidth PI d v width).m_width = width ∧
    (W3DView.setWidth PI d v width).m_height = v.m_height ∧
    (W3DView.setWidth PI d v width).m_originX = v.m_originX ∧
    (W3DView.setWidth PI d v width).m_originY = v.m_originY ∧
    (W3DView.setWidth PI d v width).m_next = v.m_next ∧
    (W3DView.setWidth PI d v width).m_worldScale = v.m_worldScale ∧
    (W3DView.setWidth PI d v width).m_cameraConstraintValid = v.m_cameraConstraintValid ∧
    (W3DView.setWidth PI d v width).m_cameraConstraint = v.m_cameraConstraint ∧
    (W3DView.setWidth PI d v width).m_pos = v.m_pos ∧
    (W3DView.setWidth PI d v width).m_zoom = v.m_zoom ∧
    (W3DView.setWidth PI d v width).m_angle = v.m_angle ∧
    (W3DView.setWidth PI d v width).m_pitchAngle = v.m_pitchAngle := by
  simp [W3DView.setWidth, View.setWidth]

theorem W3DView.setHeight_fields (d : Display) (v : W3DView) (height : Int) :
    (W3DView.setHeight d v height).m_width = v.m_width ∧
    (W3DView.setHeight d v height).m_height = height ∧
    (W3DView.setHeight d v height).m_originX = v.m_originX ∧
    (W3DView.setHeight d v height).m_originY = v.m_originY ∧
    (W3DView.setHeight d v height).m_next = v.m_next ∧
    (W3DView.setHeight d v height).m_worldScale = v.m_worldScale ∧
    (W3DView.setHeight d v height).m_cameraConstraintValid = v.m_cameraConstraintValid ∧
    (W3DView.setHeight d v height).m_cameraConstraint = v.m_cameraConstraint ∧
    (W3DView.setHeight d v height).m_pos = v.m_pos ∧
    (W3DView.setHeight d v height).m_zoom = v.m_zoom ∧
    (W3DView.setHeight d v height).m_angle = v.m_angle ∧
    (W3DView.setHeight d v height).m_pitchAngle = v.m_pitchAngle := by
  simp [W3DView.setHeight, View.setHeight]

theorem W3DView.setOrigin_fields (PI : ℚ) (d : Display) (v : W3DView) (x y : Int) :
    (W3DView.setOrigin PI d v x y).m_width = v.m_width ∧
    (W3DView.setOrigin PI d v x y).m_height = v.m_height ∧
    (W3DView.setOrigin PI d v x y).m_originX = x ∧
    (W3DView.setOrigin PI d v x y).m_originY = y ∧
    (W3DView.setOrigin PI d v x y).m_next = v.m_next ∧
    (W3DView.setOrigin PI d v x y).m_worldScale = v.m_worldScale ∧
    (W3DView.setOrigin PI d v x y).m_cameraConstraintValid = v.m_cameraConstraintValid ∧
    (W3DView.setOrigin PI d v x y).m_cameraConstraint = v.m_cameraConstraint ∧
    (W3DView.setOrigin PI d v x y).m_pos = v.m_pos ∧
    (W3DView.setOrigin PI d v x y).m_zoom = v.m_zoom ∧
    (W3DView.setOrigin PI d v x y).m_angle = v.m_angle ∧
    (W3DView.setOrigin PI d v x y).m_pitchAngle = v.m_pitchAngle := by
  simp [W3DView.setOrigin, View.setOrigin, W3DView.setWidth, View.setWidth, W3DView.setHeight,
    View.setHeight]

/-- What `setDisplayMode` does when the tactical view exists and the old
display size has no zero dimension. -/
theorem setDisplayMode_some (PI : ℚ) (c : Client) (t : Nat) (v : W3DView)
    (xres yres bitdepth : Nat) (windowed : Bool)
    (ht : c.TheTacticalView = some t) (hv : c.views t = some v)
    (hW : c.TheDisplay.m_width ≠ 0) (hH : c.TheDisplay.m_height ≠ 0) :
    ∃ c' v', c.setDisplayMode PI xres yres bitdepth windowed = some c' ∧
      c'.TheDisplay = (c.TheDisplay.setWidth xres).setHeight yres ∧
      c'.TheTacticalView = some t ∧
      c'.views t = some v' ∧
      (∀ a, a ≠ t → c'.views a = c.views a) ∧
      v'.m_width = scaledToDisplay v.m_width c.TheDisplay.m_width xres ∧
      v'.m_height = scaledToDisplay v.m_height c.TheDisplay.m_height yres ∧
      v'.m_originX = scaledToDisplay v.m_originX c.TheDisplay.m_width xres ∧
      v'.m_originY = scaledToDisplay v.m_originY c.TheDisplay.m_height yres ∧
      v'.m_worldScale = ((c.TheDisplay.setWidth xres).setHeight yres).getWorldScale ∧
      v'.m_next = v.m_next := by
  unfold Client.setDisplayMode
  simp only [ht, hv]
  rw [if_neg (by simp [hW, hH])]
  refine ⟨_, _, rfl, rfl, rfl, if_pos rfl, ?_, ?_⟩
  · intro a ha
    simp [Client.writeView, ha]
  · simp [View.setWorldScale, W3DView.setOrigin, View.setOrigin, W3DView.setWidth, View.setWidth,
      W3DView.setHeight, View.setHeight]

theorem walkViews_congr (views views' : Nat → Option W3DView)
    (h : ∀ a, (views' a).map (fun v => v.m_next) = (views a).map (fun v => v.m_next)) :
    ∀ (fuel : Nat) (p : Option Nat), walkViews views' fuel p = walkViews views fuel p := by
  intro fuel
  induction fuel with
  | zero => intro p; cases p <;> simp [walkViews]
  | succ n ih =>
    intro p
    cases p with
    | none => simp [walkViews]
    | some a =>
      have ha := h a
      simp only [walkViews]
      cases h1 : views a <;> cases h2 : views' a <;> simp [h1, h2] at ha ⊢
      rw [ha, ih]

theorem walkViews_succ (views : Nat → Option W3DView) :
    ∀ (fuel : Nat) (p : Option Nat) (l : List Nat),
      walkViews views fuel p = some l → walkViews views (fuel + 1) p = some l := by
  intro fuel
  induction fuel with
  | zero =>
    intro p l h
    cases p with
    | none => simpa [walkViews] using h
    | some a => simp [walkViews] at h
  | succ n ih =>
    intro p l h
    cases p with
    | none => simpa [walkViews] using h
    | some a =>
      rw [walkViews] at h ⊢
      cases hv : views a with
      | none => simp [hv] at h
      | some v =>
        simp only [hv, Option.map_eq_some'] at h ⊢
        obtain ⟨rest, h1, h2⟩ := h
        exact ⟨rest, ih _ _ h1, h2⟩

theorem walkViews_mono (views : Nat → Option W3DView) (p : Option Nat) (l : List Nat)
    (fuel : Nat) (h : walkViews views fuel p = some l) :
    ∀ k : Nat, walkViews views (fuel + k) p = some l := by
  intro k
  induction k with
  | zero => exact h
  | succ k ih => exact walkViews_succ views _ p l ih

theorem walkViews_update (views : Nat → Option W3DView) (a : Nat) (w : W3DView) :
    ∀ (fuel : Nat) (p : Option Nat) (l : List Nat),
      walkViews views fuel p = some l → a ∉ l →
      walkViews (fun b => if b = a then some w else views b) fuel p = some l := by
  intro fuel
  induction fuel with
  | zero =>
    intro p l h _
    cases p with
    | none => simpa [walkViews] using h
    | some b => simp [walkViews] at h
  | succ n ih =>
    intro p l h hl
    cases p with
    | none => simpa [walkViews] using h
    | some b =>
      rw [walkViews] at h ⊢
      cases hv : views b with
      | none => simp [hv] at h
      | some v =>
        simp only [hv, Option.map_eq_some'] at h
        obtain ⟨rest, h1, h2⟩ := h
        subst h2
        have hb : b ≠ a := fun e => hl (by simp [e])
        have hr : a ∉ rest := fun e => hl (by simp [e])
        simp only [if_neg hb, hv, Option.map_eq_some']
        exact ⟨rest, ih _ _ h1 hr, rfl⟩

theorem attachView_draw (c : Client) (a : Nat) (v : W3DView) (fuel : Nat) (l : List Nat)
    (hv : c.views a = some v) (hd : c.drawViews fuel = some l) (ha : a ∉ l) :
    ∃ c', c.attachView a = some c' ∧ c'.drawViews (fuel + 1) = some (a :: l) ∧
      (∀ b, (c'.views b).isSome = (c.views b).isSome) ∧
      c'.TheDisplay.m_width = c.TheDisplay.m_width ∧
      c'.TheDisplay.m_height = c.TheDisplay.m_height := by
  unfold Client.attachView
  simp only [hv]
  refine ⟨_, rfl, ?_, ?_, rfl, rfl⟩
  · unfold Client.drawViews at hd ⊢
    simp only [Client.writeView]
    rw [walkViews]
    simp only [if_pos, Option.map_eq_some']
    exact ⟨l, walkViews_update c.views a _ fuel _ l hd ha, rfl⟩
  · intro b
    simp only [Client.writeView]
    split_ifs with hb
    · simp [hb, hv]
    · rfl

theorem attachViews_draw : ∀ (vs : List Nat) (c : Client) (fuel : Nat) (l : List Nat),
    vs.Nodup → (∀ a ∈ vs, (c.views a).isSome = true) → (∀ a ∈ vs, a ∉ l) →
    c.drawViews fuel = some l →
    ∃ c', c.attachViews vs = some c' ∧
      c'.drawViews (fuel + vs.length) = some (vs.reverse ++ l) ∧
      c'.TheDisplay.m_width = c.TheDisplay.m_width ∧
      c'.TheDisplay.m_height = c.TheDisplay.m_height := by
  intro vs
  induction vs with
  | nil =>
    intro c fuel l _ _ _ hd
    exact ⟨c, rfl, by simpa using hd, rfl, rfl⟩
  | cons a rest ih =>
    intro c fuel l hnd halloc hl hd
    obtain ⟨hna, hnd'⟩ := List.nodup_cons.mp hnd
    obtain ⟨v, hv⟩ := Option.isSome_iff_exists.mp (halloc a (by simp))
    obtain ⟨c1, h1, d1, al1, w1, hh1⟩ := attachView_draw c a v fuel l hv hd (hl a (by simp))
    obtain ⟨c2, h2, d2, w2, hh2⟩ := ih c1 (fuel + 1) (a :: l) hnd'
      (fun b hb => by rw [al1]; exact halloc b (by simp [hb]))
      (fun b hb hmem => by
        rcases List.mem_cons.mp hmem with e | e
        · exact hna (e ▸ hb)
        · exact hl b (by simp [hb]) e)
      d1
    refine ⟨c2, ?_, ?_, w2.trans w1, hh2.trans hh1⟩
    · simp [Client.attachViews, h1, h2]
    · rw [show fuel + (a :: rest).length = fuel + 1 + rest.length by simp; omega, d2]
      simp

/-- C13 (as stated, refuted): a tactical view 375 high on a display 1080 high
is, after `setDisplayMode(2560, 1440, ...)`, 499 high, although
`375 / 1080 * 1440 = 500`: in single precision the quotient is
`11650844 / 2^25`, its product with 1440 rounds to `16383999 / 2^15`, just
below 500, and the conversion to `Int` truncates. -/
theorem setDisplayMode_truncates_rounded_product :
    Client.sampleBanner.TheDisplay.m_height = 1080 ∧
    W3DView.sampleBanner.m_height = 375 ∧
    divReal (intToReal 375) (intToReal 1080) = 11650844 / 33554432 ∧
    mulReal (11650844 / 33554432) (intToReal 1440) = 16383999 / 32768 ∧
    (375 : ℚ) / 1080 * 1440 = 500 ∧
    ∃ c' v', Client.sampleBanner.setDisplayMode (355 / 113) 2560 1440 32 false = some c' ∧
      c'.views 0 = some v' ∧ v'.m_height = 499 ∧ v'.m_width = 2560 := by
  have a : roundToReal 375 = 375 := by simpa using roundToReal_natCast 375 (by norm_num)
  have b : roundToReal 1080 = 1080 := by simpa using roundToReal_natCast 1080 (by norm_num)
  have c : roundToReal 1440 = 1440 := by simpa using roundToReal_natCast 1440 (by norm_num)
  refine ⟨rfl, rfl, ?_, ?_, by norm_num, ?_⟩
  · unfold divReal intToReal
    simp only [Int.cast_ofNat, a, b]
    rw [roundToReal_of_bounds (375 / 1080) (-2) 11650844 (by norm_num) (by norm_num)
      (by norm_num) (by norm_num) (by norm_num) (by norm_num)]
    norm_num
  · unfold mulReal intToReal
    simp only [Int.cast_ofNat, c]
    rw [roundToReal_of_bounds (11650844 / 33554432 * 1440) 8 16383999 (by norm_num)
      (by norm_num) (by norm_num) (by norm_num) (by norm_num) (by norm_num)]
    norm_num
  · obtain ⟨c', v', h1, -, -, h4, -, w, h, -, -, -, -⟩ :=
      setDisplayMode_some (355 / 113) Client.sampleBanner 0 W3DView.sampleBanner 2560 1440 32
        false rfl rfl (by decide) (by decide)
    refine ⟨c', v', h1, h4, ?_, ?_⟩
    · rw [h]
      exact scaledToDisplay_375
    · rw [w]
      exact scaledToDisplay_self 1920 2560 (by decide) (by decide)

/-- C13: `setDisplayMode(xres, yres, ...)` on a display of previous size
`(W0, H0)`, both nonzero, whose tactical view exists, returns, stores `xres`
and `yres` as the display size, and sets the width of the tactical view to
`(Real)oldViewWidth / (Real)W0 * (Real)xres`, its height to
`(Real)oldViewHeight / (Real)H0 * (Real)yres` and its origin to
`((Real)oldOriginX / (Real)W0 * (Real)xres, (Real)oldOriginY / (Real)H0 *
(Real)yres)`, each evaluated in single precision (the quotient rounded, then
the product rounded) and converted to `Int` by truncation. A view as wide as
the old display becomes as wide as the new one, a view as high as the old
display as high as the new one (new sizes up to `2^24`), an origin coordinate
0 stays 0; so a view that covered the 1920 x 1080 display at origin `(0, 0)`
is, after the change to 2560 x 1440, exactly 2560 x 1440 at origin `(0, 0)`. -/
theorem setDisplayMode_scales_tactical_view (PI : ℚ) (c : Client) (t : Nat) (v : W3DView)
    (xres yres bitdepth : Nat) (windowed : Bool)
    (ht : c.TheTacticalView = some t) (hv : c.views t = some v)
    (hW : c.TheDisplay.m_width ≠ 0) (hH : c.TheDisplay.m_height ≠ 0) :
    ∃ c' v', c.setDisplayMode PI xres yres bitdepth windowed = some c' ∧
      c'.TheDisplay.m_width = xres ∧ c'.TheDisplay.m_height = yres ∧
      c'.views t = some v' ∧
      v'.m_width = truncToInt (mulReal
        (divReal (intToReal v.m_width) (intToReal c.TheDisplay.m_width)) (intToReal xres)) ∧
      v'.m_height = truncToInt (mulReal
        (divReal (intToReal v.m_height) (intToReal c.TheDisplay.m_height)) (intToReal yres)) ∧
      v'.m_originX = truncToInt (mulReal
        (divReal (intToReal v.m_originX) (intToReal c.TheDisplay.m_width)) (intToReal xres)) ∧
      v'.m_originY = truncToInt (mulReal
        (divReal (intToReal v.m_originY) (intToReal c.TheDisplay.m_height)) (intToReal yres)) ∧
      (v.m_width = c.TheDisplay.m_width → xres ≤ 16777216 → v'.m_width = xres) ∧
      (v.m_height = c.TheDisplay.m_height → yres ≤ 16777216 → v'.m_height = yres) ∧
      (v.m_originX = 0 → v'.m_originX = 0) ∧
      (v.m_originY = 0 → v'.m_originY = 0) ∧
      (c.TheDisplay.m_width = 1920 → c.TheDisplay.m_height = 1080 →
        v.m_width = 1920 → v.m_height = 1080 → v.m_originX = 0 → v.m_originY = 0 →
        xres = 2560 → yres = 1440 →
        v'.m_width = 2560 ∧ v'.m_height = 1440 ∧ v'.m_originX = 0 ∧ v'.m_originY = 0) := by
  obtain ⟨c', v', h1, h2, -, h4, -, w, h, x, y, -, -⟩ :=
    setDisplayMode_some PI c t v xres yres bitdepth windowed ht hv hW hH
  have fw : v.m_width = c.TheDisplay.m_width → xres ≤ 16777216 → v'.m_width = xres := by
    intro e hx; rw [w, e]; exact scaledToDisplay_self _ _ hW hx
  have fh : v.m_height = c.TheDisplay.m_height → yres ≤ 16777216 → v'.m_height = yres := by
    intro e hy; rw [h, e]; exact scaledToDisplay_self _ _ hH hy
  have fx : v.m_originX = 0 → v'.m_originX = 0 := by
    intro e; rw [x, e]; exact scaledToDisplay_zero _ _
  have fy : v.m_originY = 0 → v'.m_originY = 0 := by
    intro e; rw [y, e]; exact scaledToDisplay_zero _ _
  refine ⟨c', v', h1, by rw [h2]; rfl, by rw [h2]; rfl, h4, w, h, x, y, fw, fh, fx, fy, ?_⟩
  intro e1 e2 e3 e4 e5 e6 e7 e8
  refine ⟨?_, ?_, fx e5, fy e6⟩
  · rw [fw (by rw [e3, e1]; rfl) (by omega), e7]; rfl
  · rw [fh (by rw [e4, e2]; rfl) (by omega), e8]; rfl

/-- C13, an instance: the sample client, whose tactical view covers the
1920 x 1080 display, changed to 2560 x 1440. -/
theorem setDisplayMode_scales_tactical_view_witness :
    Client.sample.TheTacticalView = some 0 ∧
    Client.sample.views 0 = some W3DView.sampleFull ∧
    Client.sample.TheDisplay.m_width ≠ 0 ∧ Client.sample.TheDisplay.m_height ≠ 0 ∧
    ∃ c' v', Client.sample.setDisplayMode (355 / 113) 2560 1440 32 false = some c' ∧
      c'.TheDisplay.m_width = 2560 ∧ c'.TheDisplay.m_height = 1440 ∧
      c'.views 0 = some v' ∧
      v'.m_width = 2560 ∧ v'.m_height = 1440 ∧ v'.m_originX = 0 ∧ v'.m_originY = 0 := by
  refine ⟨rfl, rfl, by decide, by decide, ?_⟩
  obtain ⟨c', v', h1, h2, h3, h4, -, -, -, -, -, -, -, -, h13⟩ :=
    setDisplayMode_scales_tactical_view (355 / 113) Client.sample 0 W3DView.sampleFull
      2560 1440 32 false rfl rfl (by decide) (by decide)
  obtain ⟨a, b, x, y⟩ := h13 rfl rfl rfl rfl rfl rfl rfl rfl
  exact ⟨c', v', h1, h2, h3, h4, a, b, x, y⟩

/-- C14: `getWorldScale` is `min(width / 1920, height / 1080)` of the current
display size: 1 at 1920 x 1080, equal to `width / 1920 = height / 1080` for
every 16:9 size, non-decreasing in width and in height; `setDisplayMode`,
whenever the tactical view exists and the old size has no zero dimension,
hands the tactical view the world scale of the new size, which is
`min(2560 / 1920, 1440 / 1080) = 4 / 3` after `setDisplayMode(2560, 1440, ...)`. -/
theorem getWorldScale_min :
    (∀ d : Display,
      d.getWorldScale = min ((d.m_width : ℚ) / 1920) ((d.m_height : ℚ) / 1080)) ∧
    (∀ d : Display, d.m_width = 1920 → d.m_height = 1080 → d.getWorldScale = 1) ∧
    (∀ d : Display, 9 * d.m_width = 16 * d.m_height →
      d.getWorldScale = (d.m_width : ℚ) / 1920 ∧ d.getWorldScale = (d.m_height : ℚ) / 1080) ∧
    (∀ d e : Display, d.m_width ≤ e.m_width → d.m_height ≤ e.m_height →
      d.getWorldScale ≤ e.getWorldScale) ∧
    (∀ (PI : ℚ) (c : Client) (t : Nat) (v : W3DView) (xres yres bitdepth : Nat)
        (windowed : Bool),
      c.TheTacticalView = some t → c.views t = some v →
      c.TheDisplay.m_width ≠ 0 → c.TheDisplay.m_height ≠ 0 →
      ∃ c' v', c.setDisplayMode PI xres yres bitdepth windowed = some c' ∧
        c'.views t = some v' ∧
        v'.m_worldScale = c'.TheDisplay.getWorldScale ∧
        v'.m_worldScale = min ((xres : ℚ) / 1920) ((yres : ℚ) / 1080) ∧
        (xres = 2560 → yres = 1440 →
          v'.m_worldScale = 4 / 3 ∧
          min ((2560 : ℚ) / 1920) ((1440 : ℚ) / 1080) = 4 / 3)) := by
  refine ⟨getWorldScale_eq_min, ?_, ?_, ?_, ?_⟩
  · intro d hw hh
    rw [getWorldScale_eq_min, hw, hh]
    norm_num
  · intro d h
    have hq : (9 : ℚ) * (d.m_width : ℚ) = 16 * (d.m_height : ℚ) := by exact_mod_cast h
    have e : (d.m_width : ℚ) / 1920 = (d.m_height : ℚ) / 1080 := by
      field_simp
      linarith
    rw [getWorldScale_eq_min, e, min_self]
    exact ⟨rfl, rfl⟩
  · intro d e hw hh
    rw [getWorldScale_eq_min, getWorldScale_eq_min]
    have h1 : (d.m_width : ℚ) ≤ (e.m_width : ℚ) := by exact_mod_cast hw
    have h2 : (d.m_height : ℚ) ≤ (e.m_height : ℚ) := by exact_mod_cast hh
    exact min_le_min (div_le_div_of_nonneg_right h1 (by norm_num))
      (div_le_div_of_nonneg_right h2 (by norm_num))
  · intro PI c t v xres yres bitdepth windowed ht hv hW hH
    obtain ⟨c', v', h1, h2, -, h4, -, -, -, -, -, hs, -⟩ :=
      setDisplayMode_some PI c t v xres yres bitdepth windowed ht hv hW hH
    have hm : v'.m_worldScale = min ((xres : ℚ) / 1920) ((yres : ℚ) / 1080) := by
      rw [hs, getWorldScale_eq_min]
      rfl
    refine ⟨c', v', h1, h4, by rw [hs, h2], hm, ?_⟩
    intro ex ey
    rw [hm, ex, ey]
    norm_num

/-- C14, an instance: the sample client changed from 1920 x 1080, where the
world scale is 1, to 2560 x 1440. -/
theorem getWorldScale_min_witness :
    Client.sample.TheDisplay.getWorldScale = 1 ∧
    ∃ c' v', Client.sample.setDisplayMode (355 / 113) 2560 1440 32 false = some c' ∧
      c'.views 0 = some v' ∧ v'.m_worldScale = 4 / 3 := by
  refine ⟨getWorldScale_min.2.1 _ rfl rfl, ?_⟩
  obtain ⟨c', v', h1, h2, -, -, h5⟩ :=
    getWorldScale_min.2.2.2.2 (355 / 113) Client.sample 0 W3DView.sampleFull 2560 1440 32 false
      rfl rfl (by decide) (by decide)
  exact ⟨c', v', h1, h2, (h5 rfl rfl).1⟩

/-- C15 (as stated, refuted): in the sample client the view list is the
800 x 600 view at address 1 followed by the tactical view; after
`setDisplayMode(2560, 1440, ...)` on the 1920 x 1080 display the list is the
same and the view at address 1 still is 800 x 600, not 800 * 2560 / 1920 by
600 * 1440 / 1080. -/
theorem setDisplayMode_leaves_other_views :
    Client.sampleLinked.drawViews 2 = some [1, 0] ∧
    ∃ c' v1, Client.sampleLinked.setDisplayMode (355 / 113) 2560 1440 32 false = some c' ∧
      c'.drawViews 2 = some [1, 0] ∧
      c'.views 1 = some v1 ∧ v1.m_width = 800 ∧ v1.m_height = 600 ∧
      (v1.m_width : ℚ) ≠ 800 * (2560 / 1920) ∧ (v1.m_height : ℚ) ≠ 600 * (1440 / 1080) := by
  refine ⟨by decide, ?_⟩
  obtain ⟨c', v', h1, h2, -, h4, h5, -, -, -, -, -, hn⟩ :=
    setDisplayMode_some (355 / 113) Client.sampleLinked 0 W3DView.sampleFull 2560 1440 32 false
      rfl rfl (by decide) (by decide)
  have hv1 : c'.views 1 = some { W3DView.sample with m_next := some 0 } := by
    rw [h5 1 (by decide)]
    rfl
  refine ⟨c', _, h1, ?_, hv1, rfl, rfl, by norm_num [W3DView.sample],
    by norm_num [W3DView.sample]⟩
  unfold Client.drawViews
  rw [h2]
  have hl : ((Client.sampleLinked.TheDisplay.setWidth 2560).setHeight 1440).m_viewList = some 1 :=
    rfl
  rw [hl]
  simp [walkViews, hv1, h4, hn, W3DView.sampleFull, W3DView.sample]

/-- C15: `setDisplayMode` reflows the tactical view only: when the tactical
view exists and the old display size has no zero dimension, the call returns,
the width, height and origin of the tactical view become the old values
divided by the old display dimension and multiplied by the new one, computed
in single precision and converted to `Int` by truncation (`scaledToDisplay`),
every other view is left exactly as it was, and the view list of the display,
with the order of its views, is the same as before. -/
theorem setDisplayMode_reflows_tactical_only (PI : ℚ) (c : Client) (t : Nat) (v : W3DView)
    (xres yres bitdepth : Nat) (windowed : Bool)
    (ht : c.TheTacticalView = some t) (hv : c.views t = some v)
    (hW : c.TheDisplay.m_width ≠ 0) (hH : c.TheDisplay.m_height ≠ 0) :
    ∃ c' v', c.setDisplayMode PI xres yres bitdepth windowed = some c' ∧
      c'.views t = some v' ∧
      v'.m_width = scaledToDisplay v.m_width c.TheDisplay.m_width xres ∧
      v'.m_height = scaledToDisplay v.m_height c.TheDisplay.m_height yres ∧
      v'.m_originX = scaledToDisplay v.m_originX c.TheDisplay.m_width xres ∧
      v'.m_originY = scaledToDisplay v.m_originY c.TheDisplay.m_height yres ∧
      (∀ a, a ≠ t → c'.views a = c.views a) ∧
      c'.TheDisplay.m_viewList = c.TheDisplay.m_viewList ∧
      (∀ fuel, c'.drawViews fuel = c.drawViews fuel) := by
  obtain ⟨c', v', h1, h2, -, h4, h5, w, h, x, y, -, hn⟩ :=
    setDisplayMode_some PI c t v xres yres bitdepth windowed ht hv hW hH
  have hl : c'.TheDisplay.m_viewList = c.TheDisplay.m_viewList := by rw [h2]; rfl
  refine ⟨c', v', h1, h4, w, h, x, y, h5, hl, ?_⟩
  intro fuel
  unfold Client.drawViews
  rw [hl]
  apply walkViews_congr
  intro a
  by_cases ha : a = t
  · rw [ha, h4, hv]
    simp [hn]
  · rw [h5 a ha]

/-- C15, an instance: the sample client with both views attached, changed to
2560 x 1440. -/
theorem setDisplayMode_reflows_tactical_only_witness :
    Client.sampleLinked.TheTacticalView = some 0 ∧
    Client.sampleLinked.views 0 = some W3DView.sampleFull ∧
    Client.sampleLinked.TheDisplay.m_width ≠ 0 ∧
    Client.sampleLinked.TheDisplay.m_height ≠ 0 ∧
    ∃ c', Client.sampleLinked.setDisplayMode (355 / 113) 2560 1440 32 false = some c' ∧
      c'.views 1 = Client.sampleLinked.views 1 ∧
      c'.drawViews 2 = Client.sampleLinked.drawViews 2 := by
  refine ⟨rfl, rfl, by decide, by decide, ?_⟩
  obtain ⟨c', -, h1, -, -, -, -, -, h7, -, h9⟩ :=
    setDisplayMode_reflows_tactical_only (355 / 113) Client.sampleLinked 0 W3DView.sampleFull
      2560 1440 32 false rfl rfl (by decide) (by decide)
  exact ⟨c', h1, h7 1 (by decide), h9 2⟩

/-- C16 (as stated, refuted): after `attachView` of the view at address 0 and
then of the view at address 1, `draw` draws the view at address 1 first and
the view at address 0 second. -/
theorem draw_two_views_reversed :
    (Client.sample.attachViews [0, 1]).bind (Client.draw 2) =
      some [DrawEvent.drawView 1, DrawEvent.drawView 0, DrawEvent.setViewClear,
        DrawEvent.setViewRect 1920 1080, DrawEvent.frame] ∧
    (Client.sample.attachViews [0, 1]).bind (Client.drawViews 2) ≠ some [0, 1] := by
  decide

/-- C16: `draw` (via `drawViews`) calls `drawView` on all attached views in
the reverse of the order of insertion: after `attachView` of pairwise
distinct existing views `v1, ..., vn` on a display without views, every
`attachView` having succeeded, `draw` draws `vn, ..., v1`, each exactly once,
and then clears, sets the view rectangle to the display size and submits the
frame. -/
theorem draw_reverse_attach_order (c : Client) (vs : List Nat)
    (hempty : c.TheDisplay.m_viewList = none) (hnd : vs.Nodup)
    (halloc : ∀ a ∈ vs, (c.views a).isSome = true) :
    ∃ c', c.attachViews vs = some c' ∧
      (∀ fuel, vs.length ≤ fuel →
        c'.drawViews fuel = some vs.reverse ∧
        c'.draw fuel = some (vs.reverse.map DrawEvent.drawView ++
          [DrawEvent.setViewClear,
           DrawEvent.setViewRect c.TheDisplay.m_width c.TheDisplay.m_height,
           DrawEvent.frame])) ∧
      (∀ a ∈ vs, vs.reverse.count a = 1) ∧
      (∀ a, a ∉ vs → vs.reverse.count a = 0) := by
  have h0 : c.drawViews 0 = some [] := by
    unfold Client.drawViews
    rw [hempty]
    rfl
  obtain ⟨c', h1, h2, h3, h4⟩ := attachViews_draw vs c 0 [] hnd halloc (by simp) h0
  rw [Nat.zero_add, List.append_nil] at h2
  refine ⟨c', h1, ?_, ?_, ?_⟩
  · intro fuel hf
    have hd : c'.drawViews fuel = some vs.reverse := by
      have := walkViews_mono c'.views c'.TheDisplay.m_viewList vs.reverse vs.length h2
        (fuel - vs.length)
      rw [show vs.length + (fuel - vs.length) = fuel by omega] at this
      exact this
    refine ⟨hd, ?_⟩
    unfold Client.draw
    rw [hd, h3, h4]
    rfl
  · intro a ha
    rw [List.count_reverse]
    exact List.count_eq_one_of_mem hnd ha
  · intro a ha
    rw [List.count_reverse]
    exact List.count_eq_zero_of_not_mem ha

/-- C16, an instance: the two views of the sample client, attached in the
order 0, 1, are drawn in the order 1, 0. -/
theorem draw_reverse_attach_order_witness :
    Client.sample.TheDisplay.m_viewList = none ∧ [0, 1].Nodup ∧
    (∀ a ∈ [0, 1], (Client.sample.views a).isSome = true) ∧
    ∃ c', Client.sample.attachViews [0, 1] = some c' ∧
      c'.drawViews 2 = some [1, 0] := by
  have hall : ∀ a ∈ [0, 1], (Client.sample.views a).isSome = true := by decide
  obtain ⟨c', h1, h2, -⟩ := draw_reverse_attach_order Client.sample [0, 1] rfl (by decide) hall
  exact ⟨rfl, by decide, hall, c', h1, (h2 2 (by decide)).1⟩

/-! ## Theorems: validity of the pan constraint -/

/-- `buildCameraTransform` touches neither the constraint nor its flag. -/
theorem buildCameraTransform_keeps_constraint (env : ViewEnv) (v : W3DView) :
    (v.buildCameraTransform env).view.m_cameraConstraintValid = v.m_cameraConstraintValid ∧
    (v.buildCameraTransform env).view.m_cameraConstraint = v.m_cameraConstraint := by
  unfold W3DView.buildCameraTransform
  simp only
  split_ifs
  · split
    · split
      · split <;> simp
      · simp
    · simp
  · simp

/-- With a valid constraint `setCameraTransform` keeps the cached constraint. -/
theorem setCameraTransform_valid_keeps (env : ViewEnv) (v : W3DView)
    (h : v.m_cameraConstraintValid = true) :
    (v.setCameraTransform env).m_cameraConstraintValid = true ∧
    (v.setCameraTransform env).m_cameraConstraint = v.m_cameraConstraint := by
  unfold W3DView.setCameraTransform
  simp only [h, not_true_eq_false, if_false, if_true]
  constructor
  · rw [(buildCameraTransform_keeps_constraint env _).1]
    simp [W3DView.setPosition, h]
  · rw [(buildCameraTransform_keeps_constraint env _).2]
    simp [W3DView.setPosition]

/-- With an invalid constraint and no terrain `setCameraTransform` is two
`buildCameraTransform` calls: nothing is recomputed and nothing is clamped. -/
theorem setCameraTransform_no_terrain (env : ViewEnv) (v : W3DView)
    (ht : env.TheTerrainLogic = none) (h : v.m_cameraConstraintValid = false) :
    (v.setCameraTransform env).m_cameraConstraintValid = false ∧
    (v.setCameraTransform env).m_cameraConstraint = v.m_cameraConstraint ∧
    (v.m_isCameraSlaved = false →
      (v.setCameraTransform env).m_pos = v.m_pos ∧
      (v.setCameraTransform env).m_isCameraSlaved = false) := by
  have hflag : (v.setCameraTransform env).m_cameraConstraintValid = false ∧
      (v.setCameraTransform env).m_cameraConstraint = v.m_cameraConstraint := by
    unfold W3DView.setCameraTransform
    simp only [h, W3DView.calcCameraConstraints, ht]
    simp [buildCameraTransform_keeps_constraint, h]
  refine ⟨hflag.1, hflag.2, ?_⟩
  intro hs
  constructor
  · rw [setCameraTransform_free_pos env v hs, hflag.1]
    simp
  · simp [W3DView.setCameraTransform, W3DView.buildCameraTransform, W3DView.calcCameraConstraints,
      ht, h, hs]
theorem placeCamera_ignores_bounds (env : ViewEnv) (v : W3DView) (r : Region2D)
    (h : v.m_cameraConstraintValid = false) :
    (v.withConstraint r).placeCamera env = v.placeCamera env := by
  simp [W3DView.withConstraint, W3DView.placeCamera, W3DView.translated, W3DView.lookAtPos, h,
    W3DView.scaledZoom, W3DView.rotatedSource, W3DView.offsetSource, W3DView.factor,
    W3DView.nextFOV]

/-- With an invalid constraint the bounds pass through `buildCameraTransform`
unread. -/
theorem buildCameraTransform_ignores_bounds (env : ViewEnv) (v : W3DView) (r : Region2D)
    (h : v.m_cameraConstraintValid = false) :
    ((v.withConstraint r).buildCameraTransform env).submit =
      ((v.buildCameraTransform env).submit).withConstraint r := by
  unfold W3DView.buildCameraTransform
  rw [placeCamera_ignores_bounds env v r h]
  simp only [W3DView.withConstraint, BuildResult.submit]
  split_ifs
  · split
    · split
      · split <;> simp
      · simp
    · simp
  · simp

theorem submit_keeps_constraint (env : ViewEnv) (v : W3DView) :
    ((v.buildCameraTransform env).submit).m_cameraConstraintValid = v.m_cameraConstraintValid ∧
    ((v.buildCameraTransform env).submit).m_cameraConstraint = v.m_cameraConstraint := by
  have := buildCameraTransform_keeps_constraint env v
  simpa [BuildResult.submit] using this

/-- With an invalid constraint and no terrain `setCameraTransform` is: set the
clip planes, build and submit the transform, build and submit it again. -/
theorem setCameraTransform_no_terrain_eq (env : ViewEnv) (v : W3DView)
    (ht : env.TheTerrainLogic = none) (h : v.m_cameraConstraintValid = false) :
    v.setCameraTransform env =
      ((((v.withClipPlanes env).buildCameraTransform env).submit).buildCameraTransform env).submit
    := by
  have h1 : (v.withClipPlanes env).m_cameraConstraintValid = false := by
    simp [W3DView.withClipPlanes, h]
  have h2 := (submit_keeps_constraint env (v.withClipPlanes env)).1
  rw [h1] at h2
  have e1 : v.setCameraTransform env =
      (let w := ((v.withClipPlanes env).buildCameraTransform env).submit
       let w := if w.m_cameraConstraintValid then
         w.setPosition (clampToConstraint w.m_cameraConstraint w.m_pos) else w
       (w.buildCameraTransform env).submit) := by
    unfold W3DView.setCameraTransform
    have hn : ¬ (v.withClipPlanes env).m_cameraConstraintValid = true := by simp [h1]
    show (let w := if ¬ (v.withClipPlanes env).m_cameraConstraintValid = true then
            W3DView.calcCameraConstraints env
              ((W3DView.buildCameraTransform env (v.withClipPlanes env)).submit)
          else v.withClipPlanes env
          let w := if w.m_cameraConstraintValid = true then
            w.setPosition (clampToConstraint w.m_cameraConstraint w.m_pos) else w
          (w.buildCameraTransform env).submit) = _
    rw [if_pos hn]
    simp only [W3DView.calcCameraConstraints, ht]
  rw [e1]
  simp only [h2]
  rfl

theorem setCameraTransform_ignores_bounds (env : ViewEnv) (v : W3DView) (r : Region2D)
    (ht : env.TheTerrainLogic = none) (h : v.m_cameraConstraintValid = false) :
    (v.withConstraint r).setCameraTransform env = (v.setCameraTransform env).withConstraint r := by
  have hr : (v.withConstraint r).m_cameraConstraintValid = false := by
    simp [W3DView.withConstraint, h]
  have h1 : (v.withClipPlanes env).m_cameraConstraintValid = false := by
    simp [W3DView.withClipPlanes, h]
  have h2 := (submit_keeps_constraint env (v.withClipPlanes env)).1
  rw [h1] at h2
  rw [setCameraTransform_no_terrain_eq env _ ht hr, setCameraTransform_no_terrain_eq env v ht h]
  have e : (v.withConstraint r).withClipPlanes env = (v.withClipPlanes env).withConstraint r := rfl
  rw [e, buildCameraTransform_ignores_bounds env _ r h1,
    buildCameraTransform_ignores_bounds env _ r h2]

theorem setCameraTransforms_no_terrain : ∀ (envs : List ViewEnv) (v : W3DView),
    (∀ env ∈ envs, env.TheTerrainLogic = none) → v.m_cameraConstraintValid = false →
    (v.setCameraTransforms envs).m_cameraConstraintValid = false ∧
    (v.setCameraTransforms envs).m_cameraConstraint = v.m_cameraConstraint ∧
    (v.m_isCameraSlaved = false →
      (v.setCameraTransforms envs).m_pos = v.m_pos ∧
      (v.setCameraTransforms envs).m_isCameraSlaved = false) ∧
    (∀ r, (v.withConstraint r).setCameraTransforms envs =
      (v.setCameraTransforms envs).withConstraint r) := by
  intro envs
  induction envs with
  | nil =>
    intro v _ h
    exact ⟨h, rfl, fun hs => ⟨rfl, hs⟩, fun _ => rfl⟩
  | cons env rest ih =>
    intro v hall h
    have ht : env.TheTerrainLogic = none := hall env (by simp)
    obtain ⟨s1, s2, s3⟩ := setCameraTransform_no_terrain env v ht h
    obtain ⟨r1, r2, r3, r4⟩ := ih (v.setCameraTransform env)
      (fun e he => hall e (by simp [he])) s1
    have e : v.setCameraTransforms (env :: rest) =
        (v.setCameraTransform env).setCameraTransforms rest := rfl
    rw [e]
    refine ⟨r1, r2.trans s2, ?_, ?_⟩
    · intro hs
      obtain ⟨p1, p2⟩ := s3 hs
      obtain ⟨q1, q2⟩ := r3 p2
      exact ⟨q1.trans p1, q2⟩
    · intro r
      have e2 : (v.withConstraint r).setCameraTransforms (env :: rest) =
          ((v.withConstraint r).setCameraTransform env).setCameraTransforms rest := rfl
      rw [e2, setCameraTransform_ignores_bounds env v r ht h, r4 r]

/-- C11 (as stated, refuted): the sample view has a valid pan constraint, and
after `setWidth`, after `setHeight` and after `setOrigin` the constraint is
still marked valid; the `setCameraTransform` that follows keeps the cached
bounds. -/
theorem viewport_setters_leave_constraint_valid :
    W3DView.sample.m_cameraConstraintValid = true ∧
    (W3DView.setWidth (355 / 113) Display.sampleHD W3DView.sample 640).m_cameraConstraintValid
      = true ∧
    (W3DView.setHeight Display.sampleHD W3DView.sample 480).m_cameraConstraintValid = true ∧
    (W3DView.setOrigin (355 / 113) Display.sampleHD W3DView.sample 10 20).m_cameraConstraintValid
      = true ∧
    ((W3DView.setWidth (355 / 113) Display.sampleHD W3DView.sample 640).setCameraTransform
      ViewEnv.sample).m_cameraConstraint = W3DView.sample.m_cameraConstraint := by
  refine ⟨rfl, ?_, ?_, ?_, ?_⟩
  · exact (W3DView.setWidth_fields _ _ _ _).2.2.2.2.2.2.1
  · exact (W3DView.setHeight_fields _ _ _).2.2.2.2.2.2.1
  · exact (W3DView.setOrigin_fields _ _ _ _ _).2.2.2.2.2.2.1
  · rw [(setCameraTransform_valid_keeps ViewEnv.sample _
      ((W3DView.setWidth_fields _ _ _ _).2.2.2.2.2.2.1.trans rfl)).2]
    exact (W3DView.setWidth_fields _ _ _ _).2.2.2.2.2.2.2.1

/-- C11: no viewport geometry change on the tactical view (`setWidth`,
`setHeight`, `setOrigin`) touches the pan constraint: the validity flag
`m_cameraConstraintValid` and the bounds are the same after the call as
before, and so is the pose (position, zoom, angle, pitch); when the
constraint was valid before the call, the next `setCameraTransform` does not
recompute it: it keeps the cached bounds and leaves them valid. -/
theorem viewport_setters_keep_constraint (PI : ℚ) (d : Display) (v : W3DView)
    (width height x y : Int) :
    ((W3DView.setWidth PI d v width).m_cameraConstraintValid = v.m_cameraConstraintValid ∧
      (W3DView.setWidth PI d v width).m_cameraConstraint = v.m_cameraConstraint ∧
      (W3DView.setWidth PI d v width).m_pos = v.m_pos ∧
      (W3DView.setWidth PI d v width).m_zoom = v.m_zoom ∧
      (W3DView.setWidth PI d v width).m_angle = v.m_angle ∧
      (W3DView.setWidth PI d v width).m_pitchAngle = v.m_pitchAngle) ∧
    ((W3DView.setHeight d v height).m_cameraConstraintValid = v.m_cameraConstraintValid ∧
      (W3DView.setHeight d v height).m_cameraConstraint = v.m_cameraConstraint ∧
      (W3DView.setHeight d v height).m_pos = v.m_pos ∧
      (W3DView.setHeight d v height).m_zoom = v.m_zoom ∧
      (W3DView.setHeight d v height).m_angle = v.m_angle ∧
      (W3DView.setHeight d v height).m_pitchAngle = v.m_pitchAngle) ∧
    ((W3DView.setOrigin PI d v x y).m_cameraConstraintValid = v.m_cameraConstraintValid ∧
      (W3DView.setOrigin PI d v x y).m_cameraConstraint = v.m_cameraConstraint ∧
      (W3DView.setOrigin PI d v x y).m_pos = v.m_pos ∧
      (W3DView.setOrigin PI d v x y).m_zoom = v.m_zoom ∧
      (W3DView.setOrigin PI d v x y).m_angle = v.m_angle ∧
      (W3DView.setOrigin PI d v x y).m_pitchAngle = v.m_pitchAngle) ∧
    (∀ env : ViewEnv, v.m_cameraConstraintValid = true →
      (((W3DView.setWidth PI d v width).setCameraTransform env).m_cameraConstraintValid = true ∧
        ((W3DView.setWidth PI d v width).setCameraTransform env).m_cameraConstraint =
          v.m_cameraConstraint) ∧
      (((W3DView.setHeight d v height).setCameraTransform env).m_cameraConstraintValid = true ∧
        ((W3DView.setHeight d v height).setCameraTransform env).m_cameraConstraint =
          v.m_cameraConstraint) ∧
      (((W3DView.setOrigin PI d v x y).setCameraTransform env).m_cameraConstraintValid = true ∧
        ((W3DView.setOrigin PI d v x y).setCameraTransform env).m_cameraConstraint =
          v.m_cameraConstraint)) := by
  obtain ⟨-, -, -, -, -, -, w1, w2, w3, w4, w5, w6⟩ := W3DView.setWidth_fields PI d v width
  obtain ⟨-, -, -, -, -, -, h1, h2, h3, h4, h5, h6⟩ := W3DView.setHeight_fields d v height
  obtain ⟨-, -, -, -, -, -, o1, o2, o3, o4, o5, o6⟩ := W3DView.setOrigin_fields PI d v x y
  refine ⟨⟨w1, w2, w3, w4, w5, w6⟩, ⟨h1, h2, h3, h4, h5, h6⟩, ⟨o1, o2, o3, o4, o5, o6⟩, ?_⟩
  intro env hv
  obtain ⟨a1, a2⟩ := setCameraTransform_valid_keeps env _ (w1.trans hv)
  obtain ⟨b1, b2⟩ := setCameraTransform_valid_keeps env _ (h1.trans hv)
  obtain ⟨c1, c2⟩ := setCameraTransform_valid_keeps env _ (o1.trans hv)
  exact ⟨⟨a1, a2.trans w2⟩, ⟨b1, b2.trans h2⟩, ⟨c1, c2.trans o2⟩⟩

/-- C11, an instance: the sample view, whose constraint `[0, 100] x [0, 100]`
is valid, after `setOrigin(10, 20)` and the next `setCameraTransform`. -/
theorem viewport_setters_keep_constraint_witness :
    W3DView.sample.m_cameraConstraintValid = true ∧
    (W3DView.setOrigin (355 / 113) Display.sampleHD W3DView.sample 10 20).m_pos =
      W3DView.sample.m_pos ∧
    ((W3DView.setOrigin (355 / 113) Display.sampleHD W3DView.sample 10 20).setCameraTransform
      ViewEnv.sample).m_cameraConstraint = W3DView.sample.m_cameraConstraint :=
  ⟨rfl,
    (viewport_setters_keep_constraint (355 / 113) Display.sampleHD W3DView.sample 640 480 10
      20).2.2.1.2.2.1,
    ((viewport_setters_keep_constraint (355 / 113) Display.sampleHD W3DView.sample 640 480 10
      20).2.2.2 ViewEnv.sample rfl).2.2.2⟩

/-- C12: with no terrain (`TheTerrainLogic` null) `calcCameraConstraints`
changes nothing, so neither the bounds nor the validity flag; a constraint
that is invalid is still invalid, with the same bounds, after any number of
`setCameraTransform` calls made without terrain; over these calls the stored
position of a free camera stays what it was, wherever it lies, and the whole
outcome is the same whatever the stored bounds are (they are carried along
unread): the position is never clamped. With terrain, `calcCameraConstraints`
always leaves the constraint valid. -/
theorem calcCameraConstraints_without_terrain :
    (∀ (env : ViewEnv) (v : W3DView), env.TheTerrainLogic = none →
      v.calcCameraConstraints env = v) ∧
    (∀ (envs : List ViewEnv) (v : W3DView),
      (∀ env ∈ envs, env.TheTerrainLogic = none) → v.m_cameraConstraintValid = false →
      (v.setCameraTransforms envs).m_cameraConstraintValid = false ∧
      (v.setCameraTransforms envs).m_cameraConstraint = v.m_cameraConstraint ∧
      (v.m_isCameraSlaved = false → (v.setCameraTransforms envs).m_pos = v.m_pos) ∧
      (∀ r : Region2D, (v.withConstraint r).setCameraTransforms envs =
        (v.setCameraTransforms envs).withConstraint r)) ∧
    (∀ (env : ViewEnv) (v : W3DView) (terrain : TerrainLogic),
      env.TheTerrainLogic = some terrain →
      (v.calcCameraConstraints env).m_cameraConstraintValid = true) := by
  refine ⟨?_, ?_, ?_⟩
  · intro env v ht
    simp [W3DView.calcCameraConstraints, ht]
  · intro envs v hall h
    obtain ⟨r1, r2, r3, r4⟩ := setCameraTransforms_no_terrain envs v hall h
    exact ⟨r1, r2, fun hs => (r3 hs).1, r4⟩
  · intro env v terrain ht
    simp [W3DView.calcCameraConstraints, ht]

/-- C12, an instance: three `setCameraTransform` calls without terrain on the
sample view at `(5000, -3, 7)`, outside the stored bounds `[0, 100] x [0, 100]`,
with the constraint marked invalid. -/
theorem calcCameraConstraints_without_terrain_witness :
    ViewEnv.noTerrain.TheTerrainLogic = none ∧
    W3DView.sampleStale.m_cameraConstraintValid = false ∧
    W3DView.sampleStale.m_isCameraSlaved = false ∧
    ¬ W3DView.sampleStale.m_cameraConstraint.contains W3DView.sampleStale.m_pos ∧
    (W3DView.sampleStale.setCameraTransforms
      [ViewEnv.noTerrain, ViewEnv.noTerrain, ViewEnv.noTerrain]).m_cameraConstraintValid
      = false ∧
    (W3DView.sampleStale.setCameraTransforms
      [ViewEnv.noTerrain, ViewEnv.noTerrain, ViewEnv.noTerrain]).m_pos = ⟨5000, -3, 7⟩ := by
  have hall : ∀ env ∈ [ViewEnv.noTerrain, ViewEnv.noTerrain, ViewEnv.noTerrain],
      env.TheTerrainLogic = none := by
    intro env he
    simp only [List.mem_cons, List.mem_singleton, List.not_mem_nil, or_false, or_self] at he
    rw [he]
    rfl
  obtain ⟨h1, -, h3, -⟩ := calcCameraConstraints_without_terrain.2.1
    [ViewEnv.noTerrain, ViewEnv.noTerrain, ViewEnv.noTerrain] W3DView.sampleStale hall rfl
  refine ⟨rfl, rfl, rfl, ?_, h1, (h3 rfl).trans rfl⟩
  simp [Region2D.contains, W3DView.sampleStale, W3DView.sampleFar, W3DView.sample]

/-! ## Theorems: reset and screen mapping of the dynamic mesh -/

theorem model_Reset_Reset (m : DynamicMeshModel) : m.Reset.Reset = m.Reset := by
  simp [DynamicMeshModel.Reset, DynamicMeshModel.Set_Counts, DynamicMeshModel.Reset_Geometry,
    DynamicMeshModel.MatDesc_Reset]

theorem screenMesh_Reset_Reset (s : DynamicScreenMeshClass) :
    s.Reset.Reset = s.Reset := by
  simp [DynamicScreenMeshClass.Reset, DynamicMeshClass.Reset_Flags,
    DynamicMeshClass.Reset_Mesh_Counters, DynamicMeshModel.Set_Counts, Function.comp_def]

theorem getD_map_false (l : List Bool) (i : Nat) :
    (l.map fun _ => false).getD i false = false := by
  induction l generalizing i with
  | nil => rfl
  | cons a rest ih =>
    cases i with
    | zero => rfl
    | succ i => exact ih i

/-- C21: `Reset` is idempotent, both `DynamicMeshModel::Reset` and
`DynamicScreenMeshClass::Reset`: two calls in a row give the state that one
call gives. After `DynamicMeshModel::Reset` the current polygon and vertex
counts are 0, the material description has one pass and no writes, the
material info is empty, and the maximum polygon and vertex counts are those
from before. After `DynamicScreenMeshClass::Reset` the current counts of the
mesh and of its model are 0, every multi-texture, multi-material and
multi-colour flag is false (the material state is single-valued), and the
maximum counts, the arrays and the aspect ratio are those from before. -/
theorem Reset_idempotent :
    (∀ m : DynamicMeshModel,
      m.Reset.Reset = m.Reset ∧
      m.Reset.DynamicMeshPNum = 0 ∧ m.Reset.DynamicMeshVNum = 0 ∧
      m.Reset.PassCount = 1 ∧ m.Reset.MatDescLog = [] ∧ m.Reset.MatInfo = ⟨[], []⟩ ∧
      m.Reset.PolyCount = m.PolyCount ∧ m.Reset.VertexCount = m.VertexCount) ∧
    (∀ s : DynamicScreenMeshClass,
      s.Reset.Reset = s.Reset ∧
      s.Reset.mesh.PolyCount = 0 ∧ s.Reset.mesh.VertCount = 0 ∧
      s.Reset.mesh.Model.DynamicMeshPNum = 0 ∧ s.Reset.mesh.Model.DynamicMeshVNum = 0 ∧
      (∀ pass, s.Reset.mesh.MultiTexture.getD pass false = false) ∧
      (∀ pass, s.Reset.mesh.MultiVertexMaterial.getD pass false = false) ∧
      (∀ i, s.Reset.mesh.MultiVertexColor.getD i false = false) ∧
      s.Reset.mesh.Model.PolyCount = s.mesh.Model.PolyCount ∧
      s.Reset.mesh.Model.VertexCount = s.mesh.Model.VertexCount ∧
      s.Reset.mesh.Model.Poly = s.mesh.Model.Poly ∧
      s.Reset.mesh.Model.Vertex = s.mesh.Model.Vertex ∧
      s.Reset.Aspect = s.Aspect) := by
  constructor
  · intro m
    refine ⟨model_Reset_Reset m, ?_, ?_, ?_, ?_, ?_, ?_, ?_⟩ <;>
      simp [DynamicMeshModel.Reset, DynamicMeshModel.Set_Counts, DynamicMeshModel.Reset_Geometry,
        DynamicMeshModel.MatDesc_Reset]
  · intro s
    refine ⟨screenMesh_Reset_Reset s, rfl, rfl, rfl, rfl, ?_, ?_, ?_, rfl, rfl, rfl,
      rfl, rfl⟩
    · intro pass; exact getD_map_false _ _
    · intro pass; exact getD_map_false _ _
    · intro pass; exact getD_map_false _ _

/-- C26: `DynamicScreenMeshClass::Location(x, y, z)` is
`DynamicMeshClass::Location(2x - 1, Aspect - 2 y Aspect, 0)`: whenever the
current vertex count is an index of the vertex array the call returns and the
vertex written is `(2x - 1, Aspect - 2 y Aspect, 0)`, whatever `z` is, and
nothing else changes; `Move_Vertex` writes the same position at the index it
is given. For `Aspect >= 0` a point of the unit square is mapped into
`[-1, 1] x [-Aspect, Aspect]`, and for every `Aspect` `(0, 0)` goes to
`(-1, Aspect)`, `(1, 1)` to `(1, -Aspect)` and `(1/2, 1/2)` to `(0, 0)`. -/
theorem Location_maps_unit_square (s : DynamicScreenMeshClass) (x y z : ℚ) :
    (s.Location x y z =
      (s.mesh.Location (2 * x - 1) (s.Aspect - 2 * y * s.Aspect) 0).map
        fun mesh => { s with mesh := mesh }) ∧
    (0 ≤ s.mesh.VertCount → s.mesh.VertCount.toNat < s.mesh.Model.Vertex.length →
      ∃ s', s.Location x y z = some s' ∧
        s'.mesh.Model.Vertex[s.mesh.VertCount.toNat]? =
          some ⟨2 * x - 1, s.Aspect - 2 * y * s.Aspect, 0⟩ ∧
        (∀ i, i ≠ s.mesh.VertCount.toNat →
          s'.mesh.Model.Vertex[i]? = s.mesh.Model.Vertex[i]?) ∧
        s'.Aspect = s.Aspect ∧ s'.mesh.VertCount = s.mesh.VertCount) ∧
    (∀ index : Int, 0 ≤ index → index.toNat < s.mesh.Model.Vertex.length →
      ∃ s', s.Move_Vertex index x y z = some s' ∧
        s'.mesh.Model.Vertex[index.toNat]? =
          some ⟨2 * x - 1, s.Aspect - 2 * y * s.Aspect, 0⟩) ∧
    (0 ≤ s.Aspect → 0 ≤ x → x ≤ 1 → 0 ≤ y → y ≤ 1 →
      (-1 ≤ 2 * x - 1 ∧ 2 * x - 1 ≤ 1) ∧
      (-s.Aspect ≤ s.Aspect - 2 * y * s.Aspect ∧ s.Aspect - 2 * y * s.Aspect ≤ s.Aspect)) ∧
    ((2 * (0 : ℚ) - 1 = -1 ∧ s.Aspect - 2 * 0 * s.Aspect = s.Aspect) ∧
      (2 * (1 : ℚ) - 1 = 1 ∧ s.Aspect - 2 * 1 * s.Aspect = -s.Aspect) ∧
      (2 * (1 / 2 : ℚ) - 1 = 0 ∧ s.Aspect - 2 * (1 / 2) * s.Aspect = 0)) := by
  have e1 : x * 2 - 1 = 2 * x - 1 := by ring
  have e2 : s.Aspect - y * 2 * s.Aspect = s.Aspect - 2 * y * s.Aspect := by ring
  refine ⟨?_, ?_, ?_, ?_, ?_⟩
  · simp only [DynamicScreenMeshClass.Location, e1, e2]
  · intro h0 h1
    simp only [DynamicScreenMeshClass.Location, DynamicMeshClass.Location, e1, e2]
    rw [if_pos ⟨h0, h1⟩]
    refine ⟨_, rfl, ?_, ?_, rfl, rfl⟩
    · simp [List.getElem?_set_self h1]
    · intro i hi
      simp [List.getElem?_set_ne (Ne.symm hi)]
  · intro index h0 h1
    simp only [DynamicScreenMeshClass.Move_Vertex, DynamicMeshClass.Move_Vertex, e1, e2]
    rw [if_pos ⟨h0, h1⟩]
    refine ⟨_, rfl, ?_⟩
    simp [List.getElem?_set_self h1]
  · intro hA hx0 hx1 hy0 hy1
    refine ⟨⟨by linarith, by linarith⟩, ?_, ?_⟩
    · nlinarith [mul_nonneg hA (sub_nonneg.mpr hy1)]
    · nlinarith [mul_nonneg hA hy0]
  · refine ⟨⟨by norm_num, by ring⟩, ⟨by norm_num, by ring⟩, ⟨by norm_num, by ring⟩⟩

/-- C26, an instance: on the sample screen mesh of aspect ratio 3/4 the centre
of the unit square is written as the vertex `(0, 0, 0)` and the corner
`(1, 1)` lies on the border of `[-1, 1] x [-3/4, 3/4]`. -/
theorem Location_maps_unit_square_witness :
    (∃ s', DynamicScreenMeshClass.sample.Location (1 / 2) (1 / 2) 9 = some s' ∧
      s'.mesh.Model.Vertex[0]? = some ⟨0, 0, 0⟩) ∧
    (-(3 / 4 : ℚ) ≤ 3 / 4 - 2 * 1 * (3 / 4) ∧ (3 / 4 : ℚ) - 2 * 1 * (3 / 4) ≤ 3 / 4) := by
  obtain ⟨-, h2, -, h4, -⟩ := Location_maps_unit_square DynamicScreenMeshClass.sample (1 / 2)
    (1 / 2) 9
  obtain ⟨s', hs, hv, -⟩ := h2 (by decide) (by decide)
  have h5 := Location_maps_unit_square DynamicScreenMeshClass.sample 1 1 0
  refine ⟨⟨s', hs, ?_⟩, (h5.2.2.2.1 (by norm_num [DynamicScreenMeshClass.sample])
    (by norm_num) (by norm_num) (by norm_num) (by norm_num)).2⟩
  have e : DynamicScreenMeshClass.sample.mesh.VertCount.toNat = 0 := rfl
  rw [e] at hv
  rw [hv]
  norm_num [DynamicScreenMeshClass.sample]

/-! ## Theorems: material state of the dynamic mesh -/

theorem entryAt_some {l : List Nat} {index : Int} {x : Nat} (h : entryAt l index = some x) :
    index ≠ -1 ∧ l.length ≠ 0 ∧ 0 ≤ index ∧ l[index.toNat]? = some x := by
  unfold entryAt at h
  split_ifs at h with hneg
  have hget : l[index.toNat]? = some x := by simpa using h
  refine ⟨by omega, ?_, by omega, hget⟩
  intro hl
  rw [List.length_eq_zero] at hl
  subst hl
  simp at hget

theorem entryAt_neg_one (l : List Nat) : entryAt l (-1) = none := by
  simp [entryAt]

theorem getD_set_self {α : Type} (l : List α) (i : Nat) (b d : α) (h : i < l.length) :
    (l.set i b).getD i d = b := by
  simp [List.getD_eq_getElem?_getD, List.getElem?_set_self h]

theorem getD_set_true_mono (l : List Bool) (i q : Nat)
    (h : l.getD q false = true) : (l.set i true).getD q false = true := by
  by_cases hq : i = q
  · subst hq
    have hlen : i < l.length := by
      by_contra hc
      rw [List.getD_eq_default _ _ (by omega)] at h
      exact Bool.false_ne_true h
    exact getD_set_self l i true false hlen
  · simpa [List.getD_eq_getElem?_getD, List.getElem?_set_ne hq] using h

/-- What `searchFrom` finds: the first index at which the value stands. -/
theorem searchFrom_spec (value : Nat) : ∀ (l : List Nat) (lp : Nat),
    (value ∈ l → ∃ k, searchFrom value l lp = some (lp + k) ∧ l[k]? = some value ∧
      ∀ j, j < k → l[j]? ≠ some value) ∧
    (value ∉ l → searchFrom value l lp = none) := by
  intro l
  induction l with
  | nil => intro lp; simp [searchFrom]
  | cons x rest ih =>
    intro lp
    by_cases hx : value = x
    · constructor
      · intro _
        exact ⟨0, by simp [searchFrom, hx], by simp [hx], by simp⟩
      · intro hn
        exact absurd (by simp [hx]) hn
    · obtain ⟨i1, i2⟩ := ih (lp + 1)
      constructor
      · intro hmem
        have hr : value ∈ rest := by
          rcases List.mem_cons.mp hmem with h | h
          · exact absurd h hx
          · exact h
        obtain ⟨k, h1, h2, h3⟩ := i1 hr
        refine ⟨k + 1, ?_, by simpa using h2, ?_⟩
        · simp only [searchFrom, if_neg hx, h1]
          congr 1
          omega
        · intro j hj
          cases j with
          | zero =>
            simp only [List.getElem?_cons_zero, ne_eq, Option.some.injEq]
            exact fun e => hx e.symm
          | succ j =>
            simpa using h3 j (by omega)
      · intro hn
        have hr : value ∉ rest := fun h => hn (List.mem_cons_of_mem _ h)
        simp only [searchFrom, if_neg hx, i2 hr]

/-- The fields of the mesh that the blocks of `Set_Texture` leave alone or
change. -/
theorem promoteTexture_fields (m : DynamicMeshClass) (texture pass : Nat) :
    ((m.promoteTexture texture pass).MultiTexture = m.MultiTexture ∨
      (m.promoteTexture texture pass).MultiTexture = m.MultiTexture.set pass true) ∧
    (m.promoteTexture texture pass).MultiVertexMaterial = m.MultiVertexMaterial ∧
    (m.promoteTexture texture pass).TextureIdx = m.TextureIdx ∧
    (m.promoteTexture texture pass).Model.MatInfo = m.Model.MatInfo := by
  unfold DynamicMeshClass.promoteTexture
  simp only
  split_ifs
  · exact ⟨Or.inr rfl, rfl, rfl, rfl⟩
  · exact ⟨Or.inl rfl, rfl, rfl, rfl⟩

theorem findOrAddTexture_fields (m : DynamicMeshClass) (texture : Nat) (dont_search : Bool)
    (pass : Nat) :
    (m.findOrAddTexture texture dont_search pass).MultiTexture = m.MultiTexture ∧
    (m.findOrAddTexture texture dont_search pass).MultiVertexMaterial = m.MultiVertexMaterial := by
  unfold DynamicMeshClass.findOrAddTexture
  split_ifs
  · exact ⟨rfl, rfl⟩
  · split <;> exact ⟨rfl, rfl⟩

theorem applySingleTexture_fields (m : DynamicMeshClass) (pass : Nat) :
    (m.applySingleTexture pass).MultiTexture = m.MultiTexture ∧
    (m.applySingleTexture pass).MultiVertexMaterial = m.MultiVertexMaterial ∧
    (m.applySingleTexture pass).TextureIdx = m.TextureIdx ∧
    (m.applySingleTexture pass).Model.MatInfo = m.Model.MatInfo := by
  unfold DynamicMeshClass.applySingleTexture
  split_ifs <;> exact ⟨rfl, rfl, rfl, rfl⟩

theorem promoteVertexMaterial_fields (m : DynamicMeshClass) (material pass : Nat) :
    ((m.promoteVertexMaterial material pass).MultiVertexMaterial = m.MultiVertexMaterial ∨
      (m.promoteVertexMaterial material pass).MultiVertexMaterial =
        m.MultiVertexMaterial.set pass true) ∧
    (m.promoteVertexMaterial material pass).MultiTexture = m.MultiTexture ∧
    (m.promoteVertexMaterial material pass).VertexMaterialIdx = m.VertexMaterialIdx ∧
    (m.promoteVertexMaterial material pass).Model.MatInfo = m.Model.MatInfo := by
  unfold DynamicMeshClass.promoteVertexMaterial
  simp only
  split_ifs
  · exact ⟨Or.inr rfl, rfl, rfl, rfl⟩
  · exact ⟨Or.inl rfl, rfl, rfl, rfl⟩

theorem findOrAddVertexMaterial_fields (m : DynamicMeshClass) (material : Nat)
    (dont_search : Bool) (pass : Nat) :
    (m.findOrAddVertexMaterial material dont_search pass).MultiTexture = m.MultiTexture ∧
    (m.findOrAddVertexMaterial material dont_search pass).MultiVertexMaterial =
      m.MultiVertexMaterial := by
  unfold DynamicMeshClass.findOrAddVertexMaterial
  split_ifs
  · exact ⟨rfl, rfl⟩
  · split <;> exact ⟨rfl, rfl⟩

theorem applySingleMaterial_fields (m : DynamicMeshClass) (pass : Nat) :
    (m.applySingleMaterial pass).MultiTexture = m.MultiTexture ∧
    (m.applySingleMaterial pass).MultiVertexMaterial = m.MultiVertexMaterial ∧
    (m.applySingleMaterial pass).VertexMaterialIdx = m.VertexMaterialIdx ∧
    (m.applySingleMaterial pass).Model.MatInfo = m.Model.MatInfo := by
  unfold DynamicMeshClass.applySingleMaterial
  split_ifs <;> exact ⟨rfl, rfl, rfl, rfl⟩

/-- What a returning `Set_Texture` call is: the short cut, or the three blocks
in a row. -/
theorem Set_Texture_cases (m m' : DynamicMeshClass) (texture : Nat) (dont_search : Bool)
    (pass : Nat) (i : Int) (h : m.Set_Texture texture dont_search pass = some (m', i)) :
    (pass < m.MultiTexture.length ∧ pass < m.TextureIdx.length) ∧
    ((entryAt m.Model.MatInfo.Textures (m.TextureIdx.getD pass (-1)) = some texture ∧
        m' = m ∧ i = m.TextureIdx.getD pass (-1)) ∨
      (entryAt m.Model.MatInfo.Textures (m.TextureIdx.getD pass (-1)) ≠ some texture ∧
        m' = (((m.promoteTexture texture pass).findOrAddTexture texture dont_search
          pass).applySingleTexture pass) ∧
        i = m'.TextureIdx.getD pass (-1))) := by
  unfold DynamicMeshClass.Set_Texture at h
  split_ifs at h with h1
  refine ⟨h1, ?_⟩
  simp only at h
  split_ifs at h with h2
  · simp only [Option.some.injEq, Prod.mk.injEq] at h
    exact Or.inl ⟨h2.2.2, h.1.symm, h.2.symm⟩
  · simp only [Option.some.injEq, Prod.mk.injEq] at h
    refine Or.inr ⟨?_, h.1.symm, ?_⟩
    · intro he
      obtain ⟨a, b, -, -⟩ := entryAt_some he
      exact h2 ⟨b, a, he⟩
    · rw [← h.1]; exact h.2.symm

theorem Set_Vertex_Material_cases (m m' : DynamicMeshClass) (material : Nat)
    (dont_search : Bool) (pass : Nat) (i : Int)
    (h : m.Set_Vertex_Material material dont_search pass = some (m', i)) :
    (pass < m.MultiVertexMaterial.length ∧ pass < m.VertexMaterialIdx.length) ∧
    ((entryAt m.Model.MatInfo.VertexMaterials (m.VertexMaterialIdx.getD pass (-1)) =
          some material ∧
        m' = m ∧ i = m.VertexMaterialIdx.getD pass (-1)) ∨
      (entryAt m.Model.MatInfo.VertexMaterials (m.VertexMaterialIdx.getD pass (-1)) ≠
          some material ∧
        m' = (((m.promoteVertexMaterial material pass).findOrAddVertexMaterial material
          dont_search pass).applySingleMaterial pass) ∧
        i = m'.VertexMaterialIdx.getD pass (-1))) := by
  unfold DynamicMeshClass.Set_Vertex_Material at h
  split_ifs at h with h1
  refine ⟨h1, ?_⟩
  simp only at h
  split_ifs at h with h2
  · simp only [Option.some.injEq, Prod.mk.injEq] at h
    exact Or.inl ⟨h2.2.2, h.1.symm, h.2.symm⟩
  · simp only [Option.some.injEq, Prod.mk.injEq] at h
    refine Or.inr ⟨?_, h.1.symm, ?_⟩
    · intro he
      obtain ⟨a, b, -, -⟩ := entryAt_some he
      exact h2 ⟨b, a, he⟩
    · rw [← h.1]; exact h.2.symm

/-- `Set_Texture` returns whenever `pass` is an index of the per-pass arrays. -/
theorem Set_Texture_isSome (m : DynamicMeshClass) (texture : Nat) (dont_search : Bool)
    (pass : Nat) (h1 : pass < m.MultiTexture.length) (h2 : pass < m.TextureIdx.length) :
    ∃ m' i, m.Set_Texture texture dont_search pass = some (m', i) := by
  unfold DynamicMeshClass.Set_Texture
  rw [if_neg (not_not.mpr ⟨h1, h2⟩)]
  simp only
  split_ifs
  · exact ⟨_, _, rfl⟩
  · exact ⟨_, _, rfl⟩

theorem Set_Vertex_Material_isSome (m : DynamicMeshClass) (material : Nat) (dont_search : Bool)
    (pass : Nat) (h1 : pass < m.MultiVertexMaterial.length)
    (h2 : pass < m.VertexMaterialIdx.length) :
    ∃ m' i, m.Set_Vertex_Material material dont_search pass = some (m', i) := by
  unfold DynamicMeshClass.Set_Vertex_Material
  rw [if_neg (not_not.mpr ⟨h1, h2⟩)]
  simp only
  split_ifs
  · exact ⟨_, _, rfl⟩
  · exact ⟨_, _, rfl⟩

theorem promoteTexture_promotes (m : DynamicMeshClass) (texture pass cur : Nat)
    (hp : pass < m.MultiTexture.length)
    (hcur : entryAt m.Model.MatInfo.Textures (m.TextureIdx.getD pass (-1)) = some cur)
    (hne : cur ≠ texture) :
    (m.promoteTexture texture pass).MultiTexture.getD pass false = true := by
  obtain ⟨a, b, -, -⟩ := entryAt_some hcur
  have hd : entryAt m.Model.MatInfo.Textures (m.TextureIdx.getD pass (-1)) ≠ some texture := by
    rw [hcur]
    exact fun e => hne (Option.some.inj e)
  unfold DynamicMeshClass.promoteTexture
  simp only
  by_cases hm : m.MultiTexture.getD pass false = true
  · rw [if_neg (fun h => h.1 hm)]
    exact hm
  · rw [if_pos ⟨hm, b, a, hd⟩]
    exact getD_set_self _ _ _ _ hp

theorem promoteVertexMaterial_promotes (m : DynamicMeshClass) (material pass cur : Nat)
    (hp : pass < m.MultiVertexMaterial.length)
    (hcur : entryAt m.Model.MatInfo.VertexMaterials (m.VertexMaterialIdx.getD pass (-1)) =
      some cur)
    (hne : cur ≠ material) :
    (m.promoteVertexMaterial material pass).MultiVertexMaterial.getD pass false = true := by
  obtain ⟨a, b, -, -⟩ := entryAt_some hcur
  have hd : entryAt m.Model.MatInfo.VertexMaterials (m.VertexMaterialIdx.getD pass (-1)) ≠
      some material := by
    rw [hcur]
    exact fun e => hne (Option.some.inj e)
  unfold DynamicMeshClass.promoteVertexMaterial
  simp only
  by_cases hm : m.MultiVertexMaterial.getD pass false = true
  · rw [if_neg (fun h => h.1 hm)]
    exact hm
  · rw [if_pos ⟨hm, b, a, hd⟩]
    exact getD_set_self _ _ _ _ hp

theorem promoteTexture_first (m : DynamicMeshClass) (texture pass : Nat)
    (h : m.TextureIdx.getD pass (-1) = -1) : m.promoteTexture texture pass = m := by
  unfold DynamicMeshClass.promoteTexture
  simp only
  rw [if_neg (fun hc => hc.2.2.1 h)]

theorem promoteVertexMaterial_first (m : DynamicMeshClass) (material pass : Nat)
    (h : m.VertexMaterialIdx.getD pass (-1) = -1) : m.promoteVertexMaterial material pass = m := by
  unfold DynamicMeshClass.promoteVertexMaterial
  simp only
  rw [if_neg (fun hc => hc.2.2.1 h)]

/-- No call of the material interface clears a flag. -/
theorem call_flags (m m' : DynamicMeshClass) (c : MaterialCall) (h : m.call c = some m') :
    (∃ pass, m'.MultiTexture = m.MultiTexture ∨ m'.MultiTexture = m.MultiTexture.set pass true) ∧
    (∃ pass, m'.MultiVertexMaterial = m.MultiVertexMaterial ∨
      m'.MultiVertexMaterial = m.MultiVertexMaterial.set pass true) := by
  cases c with
  | Set_Texture texture dont_search pass =>
    simp only [DynamicMeshClass.call, Option.map_eq_some', Prod.exists, exists_and_right,
      exists_eq_right] at h
    obtain ⟨i, h⟩ := h
    obtain ⟨-, hc⟩ := Set_Texture_cases m m' texture dont_search pass i h
    rcases hc with ⟨-, e, -⟩ | ⟨-, e, -⟩
    · subst e; exact ⟨⟨pass, Or.inl rfl⟩, ⟨pass, Or.inl rfl⟩⟩
    · subst e
      obtain ⟨p1, p2, -, -⟩ := promoteTexture_fields m texture pass
      obtain ⟨f1, f2⟩ := findOrAddTexture_fields (m.promoteTexture texture pass) texture
        dont_search pass
      obtain ⟨a1, a2, -, -⟩ := applySingleTexture_fields
        ((m.promoteTexture texture pass).findOrAddTexture texture dont_search pass) pass
      refine ⟨⟨pass, ?_⟩, ⟨pass, Or.inl ?_⟩⟩
      · rw [a1, f1]; exact p1
      · rw [a2, f2, p2]
  | Set_Texture_idx idx pass =>
    simp only [DynamicMeshClass.call, DynamicMeshClass.Set_Texture_idx] at h
    split_ifs at h
    · simp only [Option.map_some', Option.some.injEq] at h
      subst h
      exact ⟨⟨pass, Or.inl (applySingleTexture_fields _ pass).1⟩,
        ⟨pass, Or.inl (applySingleTexture_fields _ pass).2.1⟩⟩
    · simp at h
    · simp at h
  | Set_Vertex_Material material dont_search pass =>
    simp only [DynamicMeshClass.call, Option.map_eq_some', Prod.exists, exists_and_right,
      exists_eq_right] at h
    obtain ⟨i, h⟩ := h
    obtain ⟨-, hc⟩ := Set_Vertex_Material_cases m m' material dont_search pass i h
    rcases hc with ⟨-, e, -⟩ | ⟨-, e, -⟩
    · subst e; exact ⟨⟨pass, Or.inl rfl⟩, ⟨pass, Or.inl rfl⟩⟩
    · subst e
      obtain ⟨p1, p2, -, -⟩ := promoteVertexMaterial_fields m material pass
      obtain ⟨f1, f2⟩ := findOrAddVertexMaterial_fields (m.promoteVertexMaterial material pass)
        material dont_search pass
      obtain ⟨a1, a2, -, -⟩ := applySingleMaterial_fields
        ((m.promoteVertexMaterial material pass).findOrAddVertexMaterial material dont_search
          pass) pass
      refine ⟨⟨pass, Or.inl ?_⟩, ⟨pass, ?_⟩⟩
      · rw [a1, f1, p2]
      · rw [a2, f2]; exact p1
  | Set_Vertex_Material_idx idx pass =>
    simp only [DynamicMeshClass.call, DynamicMeshClass.Set_Vertex_Material_idx] at h
    split_ifs at h
    · simp only [Option.map_some', Option.some.injEq] at h
      subst h
      exact ⟨⟨pass, Or.inl (applySingleMaterial_fields _ pass).1⟩,
        ⟨pass, Or.inl (applySingleMaterial_fields _ pass).2.1⟩⟩
    · simp at h
    · simp at h

theorem call_flags_mono (m m' : DynamicMeshClass) (c : MaterialCall) (h : m.call c = some m')
    (q : Nat) :
    (m.MultiTexture.getD q false = true → m'.MultiTexture.getD q false = true) ∧
    (m.MultiVertexMaterial.getD q false = true →
      m'.MultiVertexMaterial.getD q false = true) := by
  obtain ⟨⟨p1, h1⟩, ⟨p2, h2⟩⟩ := call_flags m m' c h
  constructor
  · intro hq
    rcases h1 with e | e <;> rw [e]
    · exact hq
    · exact getD_set_true_mono _ _ _ hq
  · intro hq
    rcases h2 with e | e <;> rw [e]
    · exact hq
    · exact getD_set_true_mono _ _ _ hq

theorem calls_flags_mono : ∀ (cs : List MaterialCall) (m m' : DynamicMeshClass),
    m.calls cs = some m' → ∀ q : Nat,
    (m.MultiTexture.getD q false = true → m'.MultiTexture.getD q false = true) ∧
    (m.MultiVertexMaterial.getD q false = true →
      m'.MultiVertexMaterial.getD q false = true) := by
  intro cs
  induction cs with
  | nil =>
    intro m m' h q
    simp only [DynamicMeshClass.calls, Option.some.injEq] at h
    subst h
    exact ⟨id, id⟩
  | cons c rest ih =>
    intro m m' h q
    simp only [DynamicMeshClass.calls] at h
    cases h1 : m.call c with
    | none => simp [h1] at h
    | some m1 =>
      simp only [h1, Option.some_bind] at h
      obtain ⟨a1, a2⟩ := call_flags_mono m m1 c h1 q
      obtain ⟨b1, b2⟩ := ih m1 m' h q
      exact ⟨fun hq => b1 (a1 hq), fun hq => b2 (a2 hq)⟩

/-- C22: promotion to per-element material state is triggered by a second
distinct value and is one-way. `Set_Texture(texture, ...)` on a pass whose
current texture is another one returns and leaves `MultiTexture[pass]` true,
and `Set_Vertex_Material(material, ...)` does so for
`MultiVertexMaterial[pass]`; the first value set on a pass (index -1) leaves
all flags as they are; and after no call, and no sequence of calls, of
`Set_Texture` or `Set_Vertex_Material` (by pointer or by index) is a flag
false that was true before. -/
theorem Set_Texture_promotion_one_way :
    (∀ (m : DynamicMeshClass) (texture : Nat) (dont_search : Bool) (pass cur : Nat),
      pass < m.MultiTexture.length → pass < m.TextureIdx.length →
      entryAt m.Model.MatInfo.Textures (m.TextureIdx.getD pass (-1)) = some cur →
      cur ≠ texture →
      ∃ m' i, m.Set_Texture texture dont_search pass = some (m', i) ∧
        m'.MultiTexture.getD pass false = true) ∧
    (∀ (m : DynamicMeshClass) (material : Nat) (dont_search : Bool) (pass cur : Nat),
      pass < m.MultiVertexMaterial.length → pass < m.VertexMaterialIdx.length →
      entryAt m.Model.MatInfo.VertexMaterials (m.VertexMaterialIdx.getD pass (-1)) = some cur →
      cur ≠ material →
      ∃ m' i, m.Set_Vertex_Material material dont_search pass = some (m', i) ∧
        m'.MultiVertexMaterial.getD pass false = true) ∧
    (∀ (m : DynamicMeshClass) (texture : Nat) (dont_search : Bool) (pass : Nat),
      pass < m.MultiTexture.length → pass < m.TextureIdx.length →
      m.TextureIdx.getD pass (-1) = -1 →
      ∃ m' i, m.Set_Texture texture dont_search pass = some (m', i) ∧
        m'.MultiTexture = m.MultiTexture ∧ m'.MultiVertexMaterial = m.MultiVertexMaterial) ∧
    (∀ (m : DynamicMeshClass) (material : Nat) (dont_search : Bool) (pass : Nat),
      pass < m.MultiVertexMaterial.length → pass < m.VertexMaterialIdx.length →
      m.VertexMaterialIdx.getD pass (-1) = -1 →
      ∃ m' i, m.Set_Vertex_Material material dont_search pass = some (m', i) ∧
        m'.MultiTexture = m.MultiTexture ∧ m'.MultiVertexMaterial = m.MultiVertexMaterial) ∧
    (∀ (m m' : DynamicMeshClass) (c : MaterialCall), m.call c = some m' → ∀ q : Nat,
      (m.MultiTexture.getD q false = true → m'.MultiTexture.getD q false = true) ∧
      (m.MultiVertexMaterial.getD q false = true →
        m'.MultiVertexMaterial.getD q false = true)) ∧
    (∀ (cs : List MaterialCall) (m m' : DynamicMeshClass), m.calls cs = some m' → ∀ q : Nat,
      (m.MultiTexture.getD q false = true → m'.MultiTexture.getD q false = true) ∧
      (m.MultiVertexMaterial.getD q false = true →
        m'.MultiVertexMaterial.getD q false = true)) := by
  refine ⟨?_, ?_, ?_, ?_, call_flags_mono, calls_flags_mono⟩
  · intro m texture dont_search pass cur h1 h2 hcur hne
    obtain ⟨m', i, h⟩ := Set_Texture_isSome m texture dont_search pass h1 h2
    refine ⟨m', i, h, ?_⟩
    obtain ⟨-, hc⟩ := Set_Texture_cases m m' texture dont_search pass i h
    rcases hc with ⟨e, -, -⟩ | ⟨-, e, -⟩
    · rw [hcur] at e
      exact absurd (Option.some.inj e) hne
    · subst e
      rw [(applySingleTexture_fields _ pass).1, (findOrAddTexture_fields _ _ _ pass).1]
      exact promoteTexture_promotes m texture pass cur h1 hcur hne
  · intro m material dont_search pass cur h1 h2 hcur hne
    obtain ⟨m', i, h⟩ := Set_Vertex_Material_isSome m material dont_search pass h1 h2
    refine ⟨m', i, h, ?_⟩
    obtain ⟨-, hc⟩ := Set_Vertex_Material_cases m m' material dont_search pass i h
    rcases hc with ⟨e, -, -⟩ | ⟨-, e, -⟩
    · rw [hcur] at e
      exact absurd (Option.some.inj e) hne
    · subst e
      rw [(applySingleMaterial_fields _ pass).2.1, (findOrAddVertexMaterial_fields _ _ _ pass).2]
      exact promoteVertexMaterial_promotes m material pass cur h1 hcur hne
  · intro m texture dont_search pass h1 h2 hidx
    obtain ⟨m', i, h⟩ := Set_Texture_isSome m texture dont_search pass h1 h2
    refine ⟨m', i, h, ?_⟩
    obtain ⟨-, hc⟩ := Set_Texture_cases m m' texture dont_search pass i h
    rcases hc with ⟨-, e, -⟩ | ⟨-, e, -⟩
    · subst e; exact ⟨rfl, rfl⟩
    · subst e
      rw [promoteTexture_first m texture pass hidx]
      exact ⟨by rw [(applySingleTexture_fields _ pass).1, (findOrAddTexture_fields _ _ _ pass).1],
        by rw [(applySingleTexture_fields _ pass).2.1, (findOrAddTexture_fields _ _ _ pass).2]⟩
  · intro m material dont_search pass h1 h2 hidx
    obtain ⟨m', i, h⟩ := Set_Vertex_Material_isSome m material dont_search pass h1 h2
    refine ⟨m', i, h, ?_⟩
    obtain ⟨-, hc⟩ := Set_Vertex_Material_cases m m' material dont_search pass i h
    rcases hc with ⟨-, e, -⟩ | ⟨-, e, -⟩
    · subst e; exact ⟨rfl, rfl⟩
    · subst e
      rw [promoteVertexMaterial_first m material pass hidx]
      exact ⟨by rw [(applySingleMaterial_fields _ pass).1,
          (findOrAddVertexMaterial_fields _ _ _ pass).1],
        by rw [(applySingleMaterial_fields _ pass).2.1,
          (findOrAddVertexMaterial_fields _ _ _ pass).2]⟩

/-- C22, an instance: a second, distinct texture on pass 0 of a mesh whose
pass 0 has texture 7. -/
theorem Set_Texture_promotion_one_way_witness :
    DynamicMeshClass.sampleOneTexture.MultiTexture.getD 0 false = false ∧
    entryAt DynamicMeshClass.sampleOneTexture.Model.MatInfo.Textures
      (DynamicMeshClass.sampleOneTexture.TextureIdx.getD 0 (-1)) = some 7 ∧
    ∃ m' i, DynamicMeshClass.sampleOneTexture.Set_Texture 8 false 0 = some (m', i) ∧
      m'.MultiTexture.getD 0 false = true :=
  ⟨by decide, by decide,
    Set_Texture_promotion_one_way.1 DynamicMeshClass.sampleOneTexture 8 false 0 7
      (by decide) (by decide) (by decide) (by decide)⟩

theorem findOrAddTexture_search (m : DynamicMeshClass) (texture pass : Nat)
    (hp : pass < m.TextureIdx.length) (hmem : texture ∈ m.Model.MatInfo.Textures) :
    (m.findOrAddTexture texture false pass).Model.MatInfo = m.Model.MatInfo ∧
    ∃ k : Nat, (m.findOrAddTexture texture false pass).TextureIdx.getD pass (-1) = k ∧
      m.Model.MatInfo.Textures[k]? = some texture ∧
      ∀ j, j < k → m.Model.MatInfo.Textures[j]? ≠ some texture := by
  obtain ⟨k, h1, h2, h3⟩ := (searchFrom_spec texture m.Model.MatInfo.Textures 0).1 hmem
  rw [Nat.zero_add] at h1
  unfold DynamicMeshClass.findOrAddTexture
  rw [if_pos (by simp), h1]
  exact ⟨rfl, k, getD_set_self _ _ _ _ hp, h2, h3⟩

theorem findOrAddVertexMaterial_search (m : DynamicMeshClass) (material pass : Nat)
    (hp : pass < m.VertexMaterialIdx.length)
    (hmem : material ∈ m.Model.MatInfo.VertexMaterials) :
    (m.findOrAddVertexMaterial material false pass).Model.MatInfo = m.Model.MatInfo ∧
    ∃ k : Nat, (m.findOrAddVertexMaterial material false pass).VertexMaterialIdx.getD pass (-1)
        = k ∧
      m.Model.MatInfo.VertexMaterials[k]? = some material ∧
      ∀ j, j < k → m.Model.MatInfo.VertexMaterials[j]? ≠ some material := by
  obtain ⟨k, h1, h2, h3⟩ := (searchFrom_spec material m.Model.MatInfo.VertexMaterials 0).1 hmem
  rw [Nat.zero_add] at h1
  unfold DynamicMeshClass.findOrAddVertexMaterial
  rw [if_pos (by simp), h1]
  exact ⟨rfl, k, getD_set_self _ _ _ _ hp, h2, h3⟩

/-- C23 (as stated, refuted): after `Set_Texture(5, true, 0)`,
`Set_Texture(6, true, 0)`, `Set_Texture(5, true, 0)` on a fresh mesh the
texture list is `[5, 6, 5]` and pass 0 stands on index 2; the call
`Set_Texture(5, false, 0)` then takes the short cut and returns 2, while the
first occurrence of texture 5 in the list is at index 0. -/
theorem Set_Texture_short_cut_returns_current_index :
    ∃ m, (DynamicMeshClass.new 3 5 4 2 1).calls MaterialCall.sampleTwice = some m ∧
      m.Model.MatInfo.Textures = [5, 6, 5] ∧
      m.Set_Texture 5 false 0 = some (m, 2) ∧
      searchFrom 5 m.Model.MatInfo.Textures 0 = some 0 := by
  refine ⟨_, rfl, ?_, ?_, ?_⟩ <;> decide

/-- C23: identical-value calls short-circuit: when the texture passed to
`Set_Texture` is the current one of the pass, the call returns the current
index and the mesh is unchanged (the promotion flag, the current index and
the lists of the material info; no entry is added, even with `dont_search`
true), and likewise for `Set_Vertex_Material`. With `dont_search` false a
value that is in the list is not added again, and the index returned is an
index of that value: the current index of the pass when the call takes the
short cut, and otherwise the index of the first occurrence of the value. -/
theorem Set_Texture_same_value_short_circuits :
    (∀ (m : DynamicMeshClass) (texture : Nat) (dont_search : Bool) (pass : Nat),
      pass < m.MultiTexture.length → pass < m.TextureIdx.length →
      entryAt m.Model.MatInfo.Textures (m.TextureIdx.getD pass (-1)) = some texture →
      m.Set_Texture texture dont_search pass = some (m, m.TextureIdx.getD pass (-1))) ∧
    (∀ (m : DynamicMeshClass) (material : Nat) (dont_search : Bool) (pass : Nat),
      pass < m.MultiVertexMaterial.length → pass < m.VertexMaterialIdx.length →
      entryAt m.Model.MatInfo.VertexMaterials (m.VertexMaterialIdx.getD pass (-1)) =
        some material →
      m.Set_Vertex_Material material dont_search pass =
        some (m, m.VertexMaterialIdx.getD pass (-1))) ∧
    (∀ (m : DynamicMeshClass) (texture : Nat) (pass : Nat),
      pass < m.MultiTexture.length → pass < m.TextureIdx.length →
      texture ∈ m.Model.MatInfo.Textures →
      ∃ m' i, m.Set_Texture texture false pass = some (m', i) ∧
        m'.Model.MatInfo = m.Model.MatInfo ∧
        ∃ k : Nat, i = k ∧ m.Model.MatInfo.Textures[k]? = some texture ∧
          (entryAt m.Model.MatInfo.Textures (m.TextureIdx.getD pass (-1)) ≠ some texture →
            ∀ j, j < k → m.Model.MatInfo.Textures[j]? ≠ some texture)) ∧
    (∀ (m : DynamicMeshClass) (material : Nat) (pass : Nat),
      pass < m.MultiVertexMaterial.length → pass < m.VertexMaterialIdx.length →
      material ∈ m.Model.MatInfo.VertexMaterials →
      ∃ m' i, m.Set_Vertex_Material material false pass = some (m', i) ∧
        m'.Model.MatInfo = m.Model.MatInfo ∧
        ∃ k : Nat, i = k ∧ m.Model.MatInfo.VertexMaterials[k]? = some material ∧
          (entryAt m.Model.MatInfo.VertexMaterials (m.VertexMaterialIdx.getD pass (-1)) ≠
              some material →
            ∀ j, j < k → m.Model.MatInfo.VertexMaterials[j]? ≠ some material)) := by
  refine ⟨?_, ?_, ?_, ?_⟩
  · intro m texture dont_search pass h1 h2 he
    obtain ⟨a, b, -, -⟩ := entryAt_some he
    unfold DynamicMeshClass.Set_Texture
    rw [if_neg (not_not.mpr ⟨h1, h2⟩)]
    simp only
    rw [if_pos ⟨b, a, he⟩]
  · intro m material dont_search pass h1 h2 he
    obtain ⟨a, b, -, -⟩ := entryAt_some he
    unfold DynamicMeshClass.Set_Vertex_Material
    rw [if_neg (not_not.mpr ⟨h1, h2⟩)]
    simp only
    rw [if_pos ⟨b, a, he⟩]
  · intro m texture pass h1 h2 hmem
    obtain ⟨m', i, h⟩ := Set_Texture_isSome m texture false pass h1 h2
    refine ⟨m', i, h, ?_⟩
    obtain ⟨-, hc⟩ := Set_Texture_cases m m' texture false pass i h
    rcases hc with ⟨he, e, ei⟩ | ⟨hne, e, ei⟩
    · obtain ⟨-, -, c, d⟩ := entryAt_some he
      refine ⟨by rw [e], (m.TextureIdx.getD pass (-1)).toNat, ?_, d, fun hn => absurd he hn⟩
      rw [ei]
      omega
    · obtain ⟨-, -, p3, p4⟩ := promoteTexture_fields m texture pass
      obtain ⟨f1, k, f2, f3, f4⟩ := findOrAddTexture_search (m.promoteTexture texture pass)
        texture pass (by rw [p3]; exact h2) (by rw [p4]; exact hmem)
      obtain ⟨-, -, a3, a4⟩ := applySingleTexture_fields
        ((m.promoteTexture texture pass).findOrAddTexture texture false pass) pass
      rw [p4] at f3 f4
      subst e
      refine ⟨by rw [a4, f1, p4], k, ?_, f3, fun _ => f4⟩
      rw [ei, a3, f2]
  · intro m material pass h1 h2 hmem
    obtain ⟨m', i, h⟩ := Set_Vertex_Material_isSome m material false pass h1 h2
    refine ⟨m', i, h, ?_⟩
    obtain ⟨-, hc⟩ := Set_Vertex_Material_cases m m' material false pass i h
    rcases hc with ⟨he, e, ei⟩ | ⟨hne, e, ei⟩
    · obtain ⟨-, -, c, d⟩ := entryAt_some he
      refine ⟨by rw [e], (m.VertexMaterialIdx.getD pass (-1)).toNat, ?_, d, fun hn => absurd he hn⟩
      rw [ei]
      omega
    · obtain ⟨-, -, p3, p4⟩ := promoteVertexMaterial_fields m material pass
      obtain ⟨f1, k, f2, f3, f4⟩ := findOrAddVertexMaterial_search
        (m.promoteVertexMaterial material pass) material pass (by rw [p3]; exact h2)
        (by rw [p4]; exact hmem)
      obtain ⟨-, -, a3, a4⟩ := applySingleMaterial_fields
        ((m.promoteVertexMaterial material pass).findOrAddVertexMaterial material false pass)
        pass
      rw [p4] at f3 f4
      subst e
      refine ⟨by rw [a4, f1, p4], k, ?_, f3, fun _ => f4⟩
      rw [ei, a3, f2]

/-- C23, an instance: texture 7 set again on pass 0 of a mesh whose pass 0 has
texture 7, with `dont_search` true. -/
theorem Set_Texture_same_value_short_circuits_witness :
    entryAt DynamicMeshClass.sampleOneTexture.Model.MatInfo.Textures
      (DynamicMeshClass.sampleOneTexture.TextureIdx.getD 0 (-1)) = some 7 ∧
    DynamicMeshClass.sampleOneTexture.Set_Texture 7 true 0 =
      some (DynamicMeshClass.sampleOneTexture, 0) :=
  ⟨by decide,
    Set_Texture_same_value_short_circuits.1 DynamicMeshClass.sampleOneTexture 7 true 0
      (by decide) (by decide) (by decide)⟩

/-! ## Theorems: pixel format table and GPU buffer wrappers -/

/-- C24: `WW3DFormat_To_BGFXFormat` is total with an explicit sentinel. The
conversion table has 25 initialisers, so with `WW3D_FORMAT_COUNT = 25` it has
exactly one entry for each internal format and none is left to
value-initialisation; every format value `>= WW3D_FORMAT_COUNT` maps to
`Unknown`; `WW3D_FORMAT_UNKNOWN` maps to `Unknown`; every format in range
maps to its table entry, in particular DXT1 to BC1, DXT2 and DXT3 to BC2,
DXT4 and DXT5 to BC3. -/
theorem WW3DFormat_To_BGFXFormat_total (WW3D_FORMAT_COUNT : Nat) (zeroFormat : TextureFormat)
    (hcount : WW3D_FORMAT_COUNT = 25) :
    WW3DFormatToBGFXFormatConversionArray.length = WW3D_FORMAT_COUNT ∧
    (∀ ww3d_format, ww3d_format < WW3D_FORMAT_COUNT →
      ∃ entry, WW3DFormatToBGFXFormatConversionArray[ww3d_format]? = some entry ∧
        WW3DFormat_To_BGFXFormat WW3D_FORMAT_COUNT zeroFormat ww3d_format = entry) ∧
    (∀ ww3d_format, ww3d_format ≥ WW3D_FORMAT_COUNT →
      WW3DFormat_To_BGFXFormat WW3D_FORMAT_COUNT zeroFormat ww3d_format = .Unknown) ∧
    WW3DFormat_To_BGFXFormat WW3D_FORMAT_COUNT zeroFormat WW3D_FORMAT_UNKNOWN = .Unknown ∧
    WW3DFormat_To_BGFXFormat WW3D_FORMAT_COUNT zeroFormat WW3D_FORMAT_DXT1 = .BC1 ∧
    WW3DFormat_To_BGFXFormat WW3D_FORMAT_COUNT zeroFormat WW3D_FORMAT_DXT2 = .BC2 ∧
    WW3DFormat_To_BGFXFormat WW3D_FORMAT_COUNT zeroFormat WW3D_FORMAT_DXT3 = .BC2 ∧
    WW3DFormat_To_BGFXFormat WW3D_FORMAT_COUNT zeroFormat WW3D_FORMAT_DXT4 = .BC3 ∧
    WW3DFormat_To_BGFXFormat WW3D_FORMAT_COUNT zeroFormat WW3D_FORMAT_DXT5 = .BC3 := by
  subst hcount
  refine ⟨rfl, ?_, ?_, rfl, rfl, rfl, rfl, rfl, rfl⟩
  · intro f hf
    have hlen : f < WW3DFormatToBGFXFormatConversionArray.length := hf
    refine ⟨WW3DFormatToBGFXFormatConversionArray[f], List.getElem?_eq_getElem hlen, ?_⟩
    unfold WW3DFormat_To_BGFXFormat
    rw [if_neg (by omega)]
    simp [List.getD_eq_getElem?_getD, List.getElem?_eq_getElem hlen]
  · intro f hf
    unfold WW3DFormat_To_BGFXFormat
    rw [if_pos hf]

/-- C24, an instance: with 25 internal formats, format 20 (DXT1) maps to BC1,
format 25 to `Unknown`, whatever the enumerator of value 0 is. -/
theorem WW3DFormat_To_BGFXFormat_total_witness :
    WW3DFormat_To_BGFXFormat 25 .BC1 20 = .BC1 ∧
    WW3DFormat_To_BGFXFormat 25 .BC1 25 = .Unknown :=
  ⟨(WW3DFormat_To_BGFXFormat_total 25 .BC1 rfl).2.2.2.2.1,
    (WW3DFormat_To_BGFXFormat_total 25 .BC1 rfl).2.2.1 25 (by decide)⟩

theorem vertexBuffer_call_not_dynamic (b : BGFXVertexBuffer) (c : BufferCall)
    (h : b.m_dynamic = false) : (b.call c).m_dynamic = false := by
  cases c with
  | Create elementSize count created => rfl
  | Update elementSize count =>
    simp only [BGFXVertexBuffer.call, BGFXVertexBuffer.Update]
    split_ifs <;> exact h
  | Destroy =>
    simp only [BGFXVertexBuffer.call, BGFXVertexBuffer.Destroy]
    split_ifs <;> exact h

theorem vertexBuffer_calls_not_dynamic (cs : List BufferCall) :
    ∀ b : BGFXVertexBuffer, b.m_dynamic = false → (b.calls cs).m_dynamic = false := by
  induction cs with
  | nil => intro b h; exact h
  | cons c rest ih =>
    intro b h
    exact ih (b.call c) (vertexBuffer_call_not_dynamic b c h)

theorem indexBuffer_call_not_dynamic (b : BGFXIndexBuffer) (c : BufferCall)
    (h : b.m_dynamic = false) : (b.call c).m_dynamic = false := by
  cases c with
  | Create elementSize count created => rfl
  | Update elementSize count =>
    simp only [BGFXIndexBuffer.call, BGFXIndexBuffer.Update]
    split_ifs <;> exact h
  | Destroy =>
    simp only [BGFXIndexBuffer.call, BGFXIndexBuffer.Destroy]
    split_ifs <;> exact h

theorem indexBuffer_calls_not_dynamic (cs : List BufferCall) :
    ∀ b : BGFXIndexBuffer, b.m_dynamic = false → (b.calls cs).m_dynamic = false := by
  induction cs with
  | nil => intro b h; exact h
  | cons c rest ih =>
    intro b h
    exact ih (b.call c) (indexBuffer_call_not_dynamic b c h)

/-- C25: `Update` of a vertex buffer and of an index buffer that is not
dynamic, or whose handle is invalid, returns false and leaves the buffer as
it is (handle, element size and element count included); `Create` leaves the
buffer non-dynamic, so in every state reached from the constructor by
`Create`, `Update` and `Destroy` calls the buffer is non-dynamic and `Update`
returns false without changing it. -/
theorem Update_fails_without_change :
    (∀ (b : BGFXVertexBuffer) (vertexSize numVertices : Nat),
      b.m_dynamic = false ∨ b.m_handle = none →
      b.Update vertexSize numVertices = (b, false)) ∧
    (∀ (b : BGFXIndexBuffer) (indexSize numIndices : Nat),
      b.m_dynamic = false ∨ b.m_handle = none →
      b.Update indexSize numIndices = (b, false)) ∧
    (∀ (b : BGFXVertexBuffer) (vertexSize numVertices : Nat) (created : Option Nat),
      (b.Create vertexSize numVertices created).1.m_dynamic = false) ∧
    (∀ (b : BGFXIndexBuffer) (indexSize numIndices : Nat) (created : Option Nat),
      (b.Create indexSize numIndices created).1.m_dynamic = false) ∧
    (∀ (cs : List BufferCall) (vertexSize numVertices : Nat),
      (BGFXVertexBuffer.new.calls cs).m_dynamic = false ∧
      (BGFXVertexBuffer.new.calls cs).Update vertexSize numVertices =
        (BGFXVertexBuffer.new.calls cs, false)) ∧
    (∀ (cs : List BufferCall) (indexSize numIndices : Nat),
      (BGFXIndexBuffer.new.calls cs).m_dynamic = false ∧
      (BGFXIndexBuffer.new.calls cs).Update indexSize numIndices =
        (BGFXIndexBuffer.new.calls cs, false)) := by
  have hv : ∀ (b : BGFXVertexBuffer) (vertexSize numVertices : Nat),
      b.Update vertexSize numVertices = (b, false) := by
    intro b _ _
    unfold BGFXVertexBuffer.Update
    split_ifs <;> rfl
  have hi : ∀ (b : BGFXIndexBuffer) (indexSize numIndices : Nat),
      b.Update indexSize numIndices = (b, false) := by
    intro b _ _
    unfold BGFXIndexBuffer.Update
    split_ifs <;> rfl
  refine ⟨fun b s n _ => hv b s n, fun b s n _ => hi b s n, fun _ _ _ _ => rfl,
    fun _ _ _ _ => rfl, ?_, ?_⟩
  · intro cs s n
    exact ⟨vertexBuffer_calls_not_dynamic cs _ rfl, hv _ s n⟩
  · intro cs s n
    exact ⟨indexBuffer_calls_not_dynamic cs _ rfl, hi _ s n⟩

/-- C25, an instance: a vertex buffer created with a valid handle and an index
buffer whose creation failed, each updated afterwards. -/
theorem Update_fails_without_change_witness :
    (BGFXVertexBuffer.new.calls [.Create 36 3 (some 7)]).m_handle = some 7 ∧
    ((BGFXVertexBuffer.new.calls [.Create 36 3 (some 7)]).Update 36 3).2 = false ∧
    ((BGFXVertexBuffer.new.calls [.Create 36 3 (some 7)]).Update 36 3).1.m_handle = some 7 ∧
    ((BGFXIndexBuffer.new.calls [.Create 2 9 none]).Update 2 9).2 = false := by
  have h1 := (Update_fails_without_change.2.2.2.2.1 [.Create 36 3 (some 7)] 36 3).2
  have h2 := (Update_fails_without_change.2.2.2.2.2 [.Create 2 9 none] 2 9).2
  refine ⟨rfl, ?_, ?_, ?_⟩
  · rw [h1]
  · rw [h1]; rfl
  · rw [h2]

/-! ## Theorems: angle normalisation -/

/-- The first loop of `normAngle` ends after at most `n` rounds on an angle
that is at least `-(2n + 1) PI`, having added `2 PI` some `k <= n` times. -/
theorem normAngle.raise_spec (PI : ℚ) : ∀ (n fuel : Nat) (angle : ℚ),
    n ≤ fuel → -(2 * (n : ℚ) + 1) * PI ≤ angle →
    ∃ k : Nat, k ≤ n ∧ normAngle.raise PI fuel angle = some (angle + (k : ℚ) * (2 * PI)) ∧
      -PI ≤ angle + (k : ℚ) * (2 * PI) ∧
      (-PI ≤ angle → k = 0) ∧
      (angle < -PI → angle + (k : ℚ) * (2 * PI) < PI) := by
  intro n
  induction n with
  | zero =>
    intro fuel angle _ h
    have h0 : -PI ≤ angle := by simpa using h
    refine ⟨0, le_refl _, ?_, by simpa using h0, fun _ => rfl, fun hc => absurd h0 (not_le.mpr hc)⟩
    unfold normAngle.raise
    rw [if_neg (not_lt.mpr h0)]
    simp
  | succ n ih =>
    intro fuel angle hf h
    by_cases hlt : angle < -PI
    · obtain ⟨fuel', rfl⟩ : ∃ f, fuel = f + 1 := ⟨fuel - 1, by omega⟩
      have h' : -(2 * (n : ℚ) + 1) * PI ≤ angle + 2 * PI := by
        push_cast at h
        nlinarith
      obtain ⟨k, hk, hr, hlo, hz, hup⟩ := ih fuel' (angle + 2 * PI) (by omega) h'
      refine ⟨k + 1, by omega, ?_, ?_, ?_, ?_⟩
      · unfold normAngle.raise
        rw [if_pos hlt]
        simp only
        rw [hr]
        congr 1
        push_cast
        ring
      · have e : angle + ((k + 1 : Nat) : ℚ) * (2 * PI) = angle + 2 * PI + (k : ℚ) * (2 * PI) := by
          push_cast; ring
        rw [e]; exact hlo
      · intro hc; exact absurd hc (not_le.mpr hlt)
      · intro _
        have e : angle + ((k + 1 : Nat) : ℚ) * (2 * PI) = angle + 2 * PI + (k : ℚ) * (2 * PI) := by
          push_cast; ring
        rw [e]
        by_cases h2 : angle + 2 * PI < -PI
        · exact hup h2
        · have hk0 := hz (not_lt.mp h2)
          subst hk0
          simp only [Nat.cast_zero, zero_mul, add_zero]
          linarith
    · have h0 : -PI ≤ angle := not_lt.mp hlt
      refine ⟨0, Nat.zero_le _, ?_, by simpa using h0, fun _ => rfl,
        fun hc => absurd hc hlt⟩
      unfold normAngle.raise
      rw [if_neg hlt]
      simp

/-- The second loop of `normAngle` ends after at most `n` rounds on an angle
that is at most `(2n + 1) PI`, having subtracted `2 PI` some `k <= n` times. -/
theorem normAngle.lower_spec (PI : ℚ) : ∀ (n fuel : Nat) (angle : ℚ),
    n ≤ fuel → angle ≤ (2 * (n : ℚ) + 1) * PI →
    ∃ k : Nat, k ≤ n ∧ normAngle.lower PI fuel angle = some (angle - (k : ℚ) * (2 * PI)) ∧
      angle - (k : ℚ) * (2 * PI) ≤ PI ∧
      (angle ≤ PI → k = 0) ∧
      (PI < angle → -PI < angle - (k : ℚ) * (2 * PI)) := by
  intro n
  induction n with
  | zero =>
    intro fuel angle _ h
    have h0 : angle ≤ PI := by simpa using h
    refine ⟨0, le_refl _, ?_, by simpa using h0, fun _ => rfl, fun hc => absurd h0 (not_le.mpr hc)⟩
    unfold normAngle.lower
    rw [if_neg (not_lt.mpr h0)]
    simp
  | succ n ih =>
    intro fuel angle hf h
    by_cases hgt : angle > PI
    · obtain ⟨fuel', rfl⟩ : ∃ f, fuel = f + 1 := ⟨fuel - 1, by omega⟩
      have h' : angle - 2 * PI ≤ (2 * (n : ℚ) + 1) * PI := by
        push_cast at h
        nlinarith
      obtain ⟨k, hk, hr, hlo, hz, hup⟩ := ih fuel' (angle - 2 * PI) (by omega) h'
      refine ⟨k + 1, by omega, ?_, ?_, ?_, ?_⟩
      · unfold normAngle.lower
        rw [if_pos hgt]
        simp only
        rw [hr]
        congr 1
        push_cast
        ring
      · have e : angle - ((k + 1 : Nat) : ℚ) * (2 * PI) = angle - 2 * PI - (k : ℚ) * (2 * PI) := by
          push_cast; ring
        rw [e]; exact hlo
      · intro hc; exact absurd hc (not_le.mpr hgt)
      · intro _
        have e : angle - ((k + 1 : Nat) : ℚ) * (2 * PI) = angle - 2 * PI - (k : ℚ) * (2 * PI) := by
          push_cast; ring
        rw [e]
        by_cases h2 : PI < angle - 2 * PI
        · exact hup h2
        · have hk0 := hz (not_lt.mp h2)
          subst hk0
          simp only [Nat.cast_zero, zero_mul, sub_zero]
          linarith
    · have h0 : angle ≤ PI := not_lt.mp hgt
      refine ⟨0, Nat.zero_le _, ?_, by simpa using h0, fun _ => rfl,
        fun hc => absurd hc hgt⟩
      unfold normAngle.lower
      rw [if_neg hgt]
      simp

/-- C27: `normAngle` normalises an angle to `[-PI, PI]`: for `PI > 0` and every
input both loops end (five rounds of each are enough) and the result lies in
`[-PI, PI]`; for an input with `|angle| <= 10 PI` the result differs from the
input by an integer multiple of `2 PI`; an input in `[-PI, PI]` is returned
unchanged; an input with `|angle| > 10 PI` gives 0. -/
theorem normAngle_normalizes (PI : ℚ) (hPI : 0 < PI) (fuel : Nat) (hfuel : 5 ≤ fuel)
    (angle : ℚ) :
    ∃ r, normAngle PI fuel angle = some r ∧ -PI ≤ r ∧ r ≤ PI ∧
      (|angle| ≤ 10 * PI → ∃ k : Int, r = angle + (k : ℚ) * (2 * PI)) ∧
      (-PI ≤ angle → angle ≤ PI → r = angle) ∧
      (|angle| > 10 * PI → r = 0) := by
  -- the angle after the two range checks
  obtain ⟨a, ha, halo, hahi, hsame, hzero⟩ : ∃ a : ℚ,
      normAngle PI fuel angle =
        (normAngle.raise PI fuel a).bind (fun x => normAngle.lower PI fuel x) ∧
      -10 * PI ≤ a ∧ a ≤ 10 * PI ∧ (|angle| ≤ 10 * PI → a = angle) ∧
      (|angle| > 10 * PI → a = 0) := by
    unfold normAngle
    by_cases h1 : angle < -10 * PI
    · refine ⟨0, ?_, by linarith, by linarith, ?_, fun _ => rfl⟩
      · simp only [if_pos h1]
        rw [if_neg (by linarith)]
      · intro habs
        have := (abs_le.mp habs).1
        linarith
    · by_cases h2 : angle > 10 * PI
      · refine ⟨0, ?_, by linarith, by linarith, ?_, fun _ => rfl⟩
        · simp only [if_neg h1, if_pos h2]
        · intro habs
          have := (abs_le.mp habs).2
          linarith
      · refine ⟨angle, ?_, by linarith, by linarith, fun _ => rfl, ?_⟩
        · simp only [if_neg h1, if_neg h2]
        · intro habs
          rcases lt_abs.mp habs with h | h
          · exact absurd h h2
          · exact absurd (by linarith) h1
  obtain ⟨k1, -, hr1, hlo1, hz1, hup1⟩ := normAngle.raise_spec PI 5 fuel a hfuel
    (by push_cast; linarith)
  have hr1hi : a + (k1 : ℚ) * (2 * PI) ≤ (2 * ((5 : Nat) : ℚ) + 1) * PI := by
    push_cast
    by_cases hc : a < -PI
    · have := hup1 hc; linarith
    · have := hz1 (not_lt.mp hc)
      subst this
      simp only [Nat.cast_zero, zero_mul, add_zero]
      linarith
  obtain ⟨k2, -, hr2, hhi2, hz2, hlo2⟩ := normAngle.lower_spec PI 5 fuel
    (a + (k1 : ℚ) * (2 * PI)) hfuel hr1hi
  refine ⟨a + (k1 : ℚ) * (2 * PI) - (k2 : ℚ) * (2 * PI), ?_, ?_, hhi2, ?_, ?_, ?_⟩
  · rw [ha, hr1]
    exact hr2
  · by_cases hc : a + (k1 : ℚ) * (2 * PI) ≤ PI
    · have := hz2 hc
      subst this
      simp only [Nat.cast_zero, zero_mul, sub_zero]
      exact hlo1
    · exact le_of_lt (hlo2 (not_le.mp hc))
  · intro habs
    refine ⟨(k1 : Int) - (k2 : Int), ?_⟩
    rw [hsame habs]
    push_cast
    ring
  · intro h1 h2
    have habs : |angle| ≤ 10 * PI := abs_le.mpr ⟨by linarith, by linarith⟩
    have e := hsame habs
    subst e
    have := hz1 h1
    subst this
    have := hz2 (by simpa using h2)
    subst this
    simp
  · intro habs
    have e := hzero habs
    subst e
    have := hz1 (by linarith)
    subst this
    have := hz2 (by simp; linarith)
    subst this
    simp

/-- C27, an instance: with `PI = 355/113` the angle 7 is brought to
`7 - 2 PI = 81/113`, which lies in `[-PI, PI]`. -/
theorem normAngle_normalizes_witness :
    (0 : ℚ) < 355 / 113 ∧ 5 ≤ 5 ∧
    normAngle (355 / 113) 5 7 = some (81 / 113) ∧
    ∃ r, normAngle (355 / 113) 5 7 = some r ∧ -(355 / 113) ≤ r ∧ r ≤ 355 / 113 := by
  obtain ⟨r, h1, h2, h3, -⟩ := normAngle_normalizes (355 / 113) (by norm_num) 5 (le_refl 5) 7
  refine ⟨by norm_num, le_refl 5, ?_, r, h1, h2, h3⟩
  norm_num [normAngle, normAngle.raise, normAngle.lower]

/-! ## Theorems: a stale copyright start time -/

/-- C28: `stopMovie` leaves `m_elapsedCopywriteTime` and the movie start time
`m_elapsedMovieTime` as they are, and `playLogoMovie` does not touch
`m_elapsedCopywriteTime`. Consequently, in the sequence "play a logo movie
at 10000; update at 10100 and, on the last frame, at 10200, which starts the
copyright hold; `stopMovie`; `playLogoMovie(id, 500, 5000)` at 20000; update
at 20100, 21000 and 21010", the second movie still carries the start time
10200 of the first copyright hold, its last frame is first shown at 21000,
it plays after that update and has ended after the update at 21010, less
than 5000 ms later, and no copyright overlay exists after any of its
updates. -/
theorem stopMovie_keeps_copyright_start :
    (∀ d : Display, d.stopMovie.m_elapsedCopywriteTime = d.m_elapsedCopywriteTime ∧
      d.stopMovie.m_elapsedMovieTime = d.m_elapsedMovieTime) ∧
    (∀ (d : Display) (env : PlayEnv) (movieName : String) (minMovieLength minCopyrightLength : Int),
      (d.playLogoMovie env movieName minMovieLength minCopyrightLength).m_elapsedCopywriteTime =
        d.m_elapsedCopywriteTime) ∧
    (Display.sampleInterrupted.isMoviePlaying = false ∧
      Display.sampleInterrupted.m_elapsedCopywriteTime = 10200 ∧
      Display.sampleInterrupted.m_copyrightDisplayString = none) ∧
    (Display.sampleSecond.isMoviePlaying = true ∧
      Display.sampleSecond.m_copyrightHoldTime = 5000 ∧
      Display.sampleSecond.m_elapsedCopywriteTime = 10200 ∧
      Display.sampleSecond.m_copyrightDisplayString = none) ∧
    (Display.sampleSecond.firstLastFrameTime UpdateEnv.sampleSecond = some 21000 ∧
      (Display.sampleSecond.updates (UpdateEnv.sampleSecond.take 2)).isMoviePlaying = true ∧
      (Display.sampleSecond.updates UpdateEnv.sampleSecond).isMoviePlaying = false ∧
      (21010 : Int) < 21000 + Display.sampleSecond.m_copyrightHoldTime) ∧
    (∀ n : Nat,
      (Display.sampleSecond.updates (UpdateEnv.sampleSecond.take n)).m_copyrightDisplayString
        = none) := by
  refine ⟨?_, ?_, ?_, ?_, ?_, ?_⟩
  · intro d
    exact ⟨rfl, rfl⟩
  · intro d env movieName M C
    unfold Display.playLogoMovie
    cases env.opened with
    | none => rfl
    | some stream =>
      simp only
      split_ifs <;> rfl
  · decide
  · decide
  · decide
  · intro n
    have h : ∀ k : Nat, k ≤ 3 →
        (Display.sampleSecond.updates
          (UpdateEnv.sampleSecond.take k)).m_copyrightDisplayString = none := by decide
    by_cases hn : n ≤ 3
    · exact h n hn
    · have e : UpdateEnv.sampleSecond.take n = UpdateEnv.sampleSecond.take 3 := by
        rw [List.take_of_length_le (by simp [UpdateEnv.sampleSecond]; omega),
          List.take_of_length_le (by simp [UpdateEnv.sampleSecond])]
      rw [e]
      exact h 3 (le_refl 3)

/-- C28, an instance: the second movie of the sample sequence has ended 10 ms
after its last frame was first shown, although its copyright hold time is
5000 ms. -/
theorem stopMovie_keeps_copyright_start_witness :
    Display.sampleSecond.firstLastFrameTime UpdateEnv.sampleSecond = some 21000 ∧
    (Display.sampleSecond.updates UpdateEnv.sampleSecond).isMoviePlaying = false :=
  ⟨stopMovie_keeps_copyright_start.2.2.2.2.1.1, stopMovie_keeps_copyright_start.2.2.2.2.1.2.2.1⟩

/-! ## Theorems: the clamp into the pan constraint -/

theorem minf_eq_min (a b : ℚ) : minf a b = min a b := by
  unfold minf
  split_ifs with h
  · exact (min_eq_left (le_of_lt h)).symm
  · exact (min_eq_right (not_lt.mp h)).symm

theorem maxf_eq_max (a b : ℚ) : maxf a b = max a b := by
  unfold maxf
  split_ifs with h
  · exact (max_eq_left (le_of_lt h)).symm
  · exact (max_eq_right (not_lt.mp h)).symm

theorem clampToConstraint_eq (c : Region2D) (pos : Coord3D) :
    clampToConstraint c pos =
      ⟨min c.hi.x (max c.lo.x pos.x), min c.hi.y (max c.lo.y pos.y), pos.z⟩ := by
  simp [clampToConstraint, minf_eq_min, maxf_eq_max]

theorem clamp_axis_idem (lo hi p : ℚ) :
    min hi (max lo (min hi (max lo p))) = min hi (max lo p) := by
  rcases le_total lo hi with h | h
  · have e : max lo (min hi (max lo p)) = min hi (max lo p) :=
      max_eq_right (le_min h (le_max_left _ _))
    rw [e]
    exact min_eq_right (min_le_left _ _)
  · have e : ∀ q : ℚ, min hi (max lo q) = hi := fun q =>
      min_eq_left (le_trans h (le_max_left _ _))
    rw [e, e]

/-- The target aimed at by `buildCameraTransform` stands at the local copy of
the position, shaken and clamped. -/
theorem buildCameraTransform_target (env : ViewEnv) (v : W3DView) :
    (v.buildCameraTransform env).targetPos.X = v.lookAtPos.x ∧
    (v.buildCameraTransform env).targetPos.Y = v.lookAtPos.y := by
  rw [(buildCameraTransform_placement env v).2.1]
  simp only [W3DView.placeCamera, W3DView.translated, fxPitchAdjust]
  split_ifs <;> simp

/-- C29: the clamp of `buildCameraTransform` and `setCameraTransform` is
`p -> min(hi, max(lo, p))` on the `x` and on the `y` axis and leaves `z`
alone. `buildCameraTransform` applies it, when the constraint is valid, to
the position to which the shake offset has been added, and aims the camera
at the result; `setCameraTransform` stores the clamped position of a free
camera whose constraint is valid. On an axis with `lo <= hi` the clamped
coordinate lies in `[lo, hi]` for every position and every shake offset; the
clamp is idempotent; on an axis whose bounds are inverted (`lo > hi`) every
position is mapped to `hi`. -/
theorem clampToConstraint_min_max :
    (∀ (c : Region2D) (pos : Coord3D),
      clampToConstraint c pos =
        ⟨min c.hi.x (max c.lo.x pos.x), min c.hi.y (max c.lo.y pos.y), pos.z⟩) ∧
    (∀ (env : ViewEnv) (v : W3DView), v.m_cameraConstraintValid = true →
      (v.buildCameraTransform env).targetPos.X =
        min v.m_cameraConstraint.hi.x
          (max v.m_cameraConstraint.lo.x (v.m_pos.x + v.m_shakeOffset.x)) ∧
      (v.buildCameraTransform env).targetPos.Y =
        min v.m_cameraConstraint.hi.y
          (max v.m_cameraConstraint.lo.y (v.m_pos.y + v.m_shakeOffset.y))) ∧
    (∀ (env : ViewEnv) (v : W3DView), v.m_cameraConstraintValid = true →
      v.m_isCameraSlaved = false →
      (v.setCameraTransform env).m_pos = clampToConstraint v.m_cameraConstraint v.m_pos) ∧
    (∀ (env : ViewEnv) (v : W3DView), v.m_cameraConstraintValid = true →
      (v.m_cameraConstraint.lo.x ≤ v.m_cameraConstraint.hi.x →
        v.m_cameraConstraint.lo.x ≤ (v.buildCameraTransform env).targetPos.X ∧
        (v.buildCameraTransform env).targetPos.X ≤ v.m_cameraConstraint.hi.x) ∧
      (v.m_cameraConstraint.lo.y ≤ v.m_cameraConstraint.hi.y →
        v.m_cameraConstraint.lo.y ≤ (v.buildCameraTransform env).targetPos.Y ∧
        (v.buildCameraTransform env).targetPos.Y ≤ v.m_cameraConstraint.hi.y)) ∧
    (∀ (c : Region2D) (pos : Coord3D),
      clampToConstraint c (clampToConstraint c pos) = clampToConstraint c pos) ∧
    (∀ (c : Region2D) (pos : Coord3D),
      (c.lo.x > c.hi.x → (clampToConstraint c pos).x = c.hi.x) ∧
      (c.lo.y > c.hi.y → (clampToConstraint c pos).y = c.hi.y)) := by
  have htarget : ∀ (env : ViewEnv) (v : W3DView), v.m_cameraConstraintValid = true →
      (v.buildCameraTransform env).targetPos.X =
        min v.m_cameraConstraint.hi.x
          (max v.m_cameraConstraint.lo.x (v.m_pos.x + v.m_shakeOffset.x)) ∧
      (v.buildCameraTransform env).targetPos.Y =
        min v.m_cameraConstraint.hi.y
          (max v.m_cameraConstraint.lo.y (v.m_pos.y + v.m_shakeOffset.y)) := by
    intro env v hv
    obtain ⟨h1, h2⟩ := buildCameraTransform_target env v
    rw [h1, h2]
    simp [W3DView.lookAtPos, hv, clampToConstraint_eq]
  refine ⟨clampToConstraint_eq, htarget, ?_, ?_, ?_, ?_⟩
  · intro env v hv hs
    rw [setCameraTransform_free_pos env v hs, (setCameraTransform_valid_keeps env v hv).1,
      (setCameraTransform_valid_keeps env v hv).2, if_pos rfl]
  · intro env v hv
    obtain ⟨h1, h2⟩ := htarget env v hv
    rw [h1, h2]
    constructor
    · intro hx
      exact ⟨le_min hx (le_max_left _ _), min_le_left _ _⟩
    · intro hy
      exact ⟨le_min hy (le_max_left _ _), min_le_left _ _⟩
  · intro c pos
    rw [clampToConstraint_eq, clampToConstraint_eq]
    simp only [Coord3D.mk.injEq, and_true]
    exact ⟨clamp_axis_idem _ _ _, clamp_axis_idem _ _ _⟩
  · intro c pos
    rw [clampToConstraint_eq]
    constructor
    · intro h
      exact min_eq_left (le_trans (le_of_lt h) (le_max_left _ _))
    · intro h
      exact min_eq_left (le_trans (le_of_lt h) (le_max_left _ _))

/-- C29, an instance: the sample view shaken by `(1000, -1000)` is aimed at
`(100, 0)`, a corner of its constraint `[0, 100] x [0, 100]`; with bounds
inverted on `x` (`lo.x = 60`, `hi.x = 40`) the position `(50, 50)` goes to
`x = 40`. -/
theorem clampToConstraint_min_max_witness :
    W3DView.sampleShaken.m_cameraConstraintValid = true ∧
    (W3DView.sampleShaken.buildCameraTransform ViewEnv.sample).targetPos.X = 100 ∧
    (W3DView.sampleShaken.buildCameraTransform ViewEnv.sample).targetPos.Y = 0 ∧
    Region2D.sampleInverted.lo.x > Region2D.sampleInverted.hi.x ∧
    (clampToConstraint Region2D.sampleInverted ⟨50, 50, 0⟩).x = 40 := by
  obtain ⟨h1, h2⟩ := clampToConstraint_min_max.2.1 ViewEnv.sample W3DView.sampleShaken rfl
  have h3 := (clampToConstraint_min_max.2.2.2.2.2 Region2D.sampleInverted ⟨50, 50, 0⟩).1
    (by norm_num [Region2D.sampleInverted])
  refine ⟨rfl, ?_, ?_, by norm_num [Region2D.sampleInverted], ?_⟩
  · rw [h1]; norm_num [W3DView.sampleShaken, W3DView.sample]
  · rw [h2]; norm_num [W3DView.sampleShaken, W3DView.sample]
  · rw [h3]; rfl

/-! ## Theorems: aspect ratio and field of view of the camera -/

theorem W3DView.setOrigin_camera (PI : ℚ) (d : Display) (v : W3DView) (x y : Int) :
    (W3DView.setOrigin PI d v x y).m_3DCamera.AspectRatio =
      (v.m_width : ℚ) / (v.m_height : ℚ) ∧
    (W3DView.setOrigin PI d v x y).m_3DCamera.HFOV =
      ((v.m_width : ℚ) / (d.m_width : ℚ) * (50 * PI / 180)) * v.m_worldScale ∧
    (W3DView.setOrigin PI d v x y).m_3DCamera.VFOV = -1 := by
  simp [W3DView.setOrigin, View.setOrigin, W3DView.setWidth, View.setWidth, W3DView.setHeight,
    View.setHeight, CameraClass.Set_Aspect_Ratio, CameraClass.Set_Viewport,
    CameraClass.Set_View_Plane]

/-- C30: the aspect ratio of the camera depends on the geometry setter that
ran last: `setWidth` sets it to `(width / height) * worldScale`, `setHeight`
to `width / height` without the world scale, so `setHeight` after `setWidth`
leaves it without and `setWidth` after `setHeight` with the world scale.
`setOrigin` calls `setWidth` and then `setHeight`: after every `setOrigin`,
and hence after every `setDisplayMode` that returns, the aspect ratio of the
camera is `viewWidth / viewHeight` whatever the world scale is, while the
horizontal field of view of the view plane, set by `setWidth`, is
`(width / displayWidth) * (50 PI / 180) * worldScale` with the world scale
the view has at that call. -/
theorem aspect_ratio_of_last_setter :
    (∀ (PI : ℚ) (d : Display) (v : W3DView) (width : Int),
      (W3DView.setWidth PI d v width).m_3DCamera.AspectRatio =
        ((width : ℚ) / (v.m_height : ℚ)) * v.m_worldScale ∧
      (W3DView.setWidth PI d v width).m_3DCamera.HFOV =
        ((width : ℚ) / (d.m_width : ℚ) * (50 * PI / 180)) * v.m_worldScale) ∧
    (∀ (d : Display) (v : W3DView) (height : Int),
      (W3DView.setHeight d v height).m_3DCamera.AspectRatio =
        (v.m_width : ℚ) / (height : ℚ) ∧
      (W3DView.setHeight d v height).m_3DCamera.HFOV = v.m_3DCamera.HFOV) ∧
    (∀ (PI : ℚ) (d : Display) (v : W3DView) (width height : Int),
      (W3DView.setHeight d (W3DView.setWidth PI d v width) height).m_3DCamera.AspectRatio =
        (width : ℚ) / (height : ℚ) ∧
      (W3DView.setWidth PI d (W3DView.setHeight d v height) width).m_3DCamera.AspectRatio =
        ((width : ℚ) / (height : ℚ)) * v.m_worldScale) ∧
    (∀ (PI : ℚ) (d : Display) (v : W3DView) (x y : Int),
      (W3DView.setOrigin PI d v x y).m_3DCamera.AspectRatio =
        ((W3DView.setOrigin PI d v x y).m_width : ℚ) /
          ((W3DView.setOrigin PI d v x y).m_height : ℚ) ∧
      (W3DView.setOrigin PI d v x y).m_3DCamera.HFOV =
        ((v.m_width : ℚ) / (d.m_width : ℚ) * (50 * PI / 180)) * v.m_worldScale) ∧
    (∀ (PI : ℚ) (c : Client) (t : Nat) (v : W3DView) (xres yres bitdepth : Nat)
        (windowed : Bool),
      c.TheTacticalView = some t → c.views t = some v →
      c.TheDisplay.m_width ≠ 0 → c.TheDisplay.m_height ≠ 0 →
      ∃ c' v', c.setDisplayMode PI xres yres bitdepth windowed = some c' ∧
        c'.views t = some v' ∧
        v'.m_3DCamera.AspectRatio = (v'.m_width : ℚ) / (v'.m_height : ℚ) ∧
        v'.m_3DCamera.HFOV =
          ((v'.m_width : ℚ) / (xres : ℚ) * (50 * PI / 180)) * v.m_worldScale) := by
  refine ⟨?_, ?_, ?_, ?_, ?_⟩
  · intro PI d v width
    simp [W3DView.setWidth, View.setWidth, CameraClass.Set_Aspect_Ratio,
      CameraClass.Set_Viewport, CameraClass.Set_View_Plane]
  · intro d v height
    simp [W3DView.setHeight, View.setHeight, CameraClass.Set_Aspect_Ratio,
      CameraClass.Set_Viewport]
  · intro PI d v width height
    simp [W3DView.setWidth, View.setWidth, W3DView.setHeight, View.setHeight,
      CameraClass.Set_Aspect_Ratio, CameraClass.Set_Viewport, CameraClass.Set_View_Plane]
  · intro PI d v x y
    obtain ⟨h1, h2, -⟩ := W3DView.setOrigin_camera PI d v x y
    obtain ⟨w, h, -⟩ := W3DView.setOrigin_fields PI d v x y
    rw [h1, h2, w, h]
    exact ⟨rfl, rfl⟩
  · intro PI c t v xres yres bitdepth windowed ht hv hW hH
    obtain ⟨c', -, hc, -⟩ := setDisplayMode_some PI c t v xres yres bitdepth windowed ht hv hW hH
    refine ⟨c', ?_⟩
    suffices hs : ∃ v', c'.views t = some v' ∧
        v'.m_3DCamera.AspectRatio = (v'.m_width : ℚ) / (v'.m_height : ℚ) ∧
        v'.m_3DCamera.HFOV =
          ((v'.m_width : ℚ) / (xres : ℚ) * (50 * PI / 180)) * v.m_worldScale by
      obtain ⟨v', h1, h2, h3⟩ := hs
      exact ⟨v', hc, h1, h2, h3⟩
    unfold Client.setDisplayMode at hc
    simp only [ht, hv] at hc
    split_ifs at hc with hz
    simp only [Option.some.injEq] at hc
    subst hc
    refine ⟨_, if_pos rfl, ?_, ?_⟩
    · simp only [View.setWorldScale]
      obtain ⟨h1, -, -⟩ := W3DView.setOrigin_camera PI
        ((c.TheDisplay.setWidth xres).setHeight yres)
        (W3DView.setHeight ((c.TheDisplay.setWidth xres).setHeight yres)
          (W3DView.setWidth PI ((c.TheDisplay.setWidth xres).setHeight yres) v
            (scaledToDisplay v.m_width c.TheDisplay.m_width xres))
          (scaledToDisplay v.m_height c.TheDisplay.m_height yres))
        (scaledToDisplay v.m_originX c.TheDisplay.m_width xres)
        (scaledToDisplay v.m_originY c.TheDisplay.m_height yres)
      rw [h1]
      simp [W3DView.setOrigin, View.setOrigin, W3DView.setWidth, View.setWidth,
        W3DView.setHeight, View.setHeight]
    · simp [View.setWorldScale, W3DView.setOrigin, View.setOrigin, W3DView.setWidth,
        View.setWidth, W3DView.setHeight, View.setHeight, CameraClass.Set_Aspect_Ratio,
        CameraClass.Set_Viewport, CameraClass.Set_View_Plane, Display.setWidth,
        Display.setHeight]

/-- C30, an instance: the 800 x 600 sample view with world scale 4/3: after
`setWidth(800)` the aspect ratio is `(800/600) * (4/3) = 16/9`, after
`setOrigin(0, 0)` it is `800/600 = 4/3`. -/
theorem aspect_ratio_of_last_setter_witness :
    (W3DView.setWidth (355 / 113) Display.sampleHD W3DView.sampleScaled 800).m_3DCamera.AspectRatio
      = 16 / 9 ∧
    (W3DView.setOrigin (355 / 113) Display.sampleHD W3DView.sampleScaled 0 0).m_3DCamera.AspectRatio
      = 4 / 3 := by
  obtain ⟨h1, -⟩ := aspect_ratio_of_last_setter.1 (355 / 113) Display.sampleHD
    W3DView.sampleScaled 800
  obtain ⟨h2, -⟩ := aspect_ratio_of_last_setter.2.2.2.1 (355 / 113) Display.sampleHD
    W3DView.sampleScaled 0 0
  constructor
  · rw [h1]; norm_num [W3DView.sampleScaled, W3DView.sample]
  · rw [h2, (W3DView.setOrigin_fields _ _ _ _ _).1, (W3DView.setOrigin_fields _ _ _ _ _).2.1]
    norm_num [W3DView.sampleScaled, W3DView.sample]

/-! ## Theorems: strips of either mesh class -/

end GeneralsMD
